import Mathlib

/-!
# UxPlay video renderer (`src/UxPlay/renderers/video_renderer.c`)

A shallow embedding of the renderer's control code.

* The file-scope statics of `video_renderer.c` are the fields of `State`.
* Pointers to engine objects (`GstElement *`, `GstBus *`, `GMainLoop *`) are
  `Ptr = Option Nat`: `none` is `NULL`, `some h` an opaque handle.
* `renderer` and `renderer_type[i]` point to `calloc`ed `video_renderer_s`
  blocks; the block of slot `i` is identified by the index `i`, so the pointer
  `renderer` is `Option Nat` (`none` is `NULL`) and `renderer_type[i]` holds
  the block itself (`none` is `NULL`).
* Every function returns `Option (State × List Call)`: the new statics and the
  calls it issued, in order.  `none` is an abort (`g_assert`) or a `NULL`
  dereference.
* What the media engine answers (base time, state, bus, new elements) is read
  from an `Engine` record passed to each call.
* The build modelled is the one without `X_DISPLAY_FIX`.
-/

namespace VideoRenderer

/-! ## Engine-side types -/

/-- A C pointer to an engine object: `none` is `NULL`. -/
abbrev Ptr := Option Nat

/-- The states of `GstState`. -/
inductive GstState where
  | VOID_PENDING
  | NULL
  | READY
  | PAUSED
  | PLAYING
deriving DecidableEq, Repr

/-- The values of `GstStateChangeReturn`; `FAILURE` is 0, the others are non-zero. -/
inductive GstStateChangeReturn where
  | FAILURE
  | SUCCESS
  | ASYNC
  | NO_PREROLL
deriving DecidableEq, Repr

/-- The logger levels used by the renderer. -/
inductive LogLevel where
  | LOGGER_ERR
  | LOGGER_INFO
  | LOGGER_DEBUG
deriving DecidableEq, Repr

/-- The constant `GST_CLOCK_TIME_NONE`, the all-ones 64-bit value. -/
def GST_CLOCK_TIME_NONE : Nat := 2 ^ 64 - 1

/-- A `GstBuffer` as built by `video_renderer_render_buffer`: the bytes copied by
`gst_buffer_fill` and the `GST_BUFFER_PTS` field, which `gst_buffer_new_allocate`
leaves at `GST_CLOCK_TIME_NONE`. -/
structure GstBuffer where
  data : List Nat
  pts : Nat
deriving DecidableEq, Repr

/-- The calls recorded in a trace: the engine operations on existing objects, the
request to leave the main loop, and the log output.  Element construction and
configuration inside `video_renderer_init` is not recorded. -/
inductive Call where
  | gst_element_set_state (pipeline : Ptr) (state : GstState)
  | gst_element_get_state (pipeline : Ptr)
  | gst_element_get_base_time (element : Ptr)
  | gst_element_get_bus (pipeline : Ptr)
  | gst_element_query_position (pipeline : Ptr)
  | gst_element_query_duration (pipeline : Ptr)
  | gst_element_seek_simple (pipeline : Ptr) (seek_position : Int)
  | gst_app_src_push_buffer (appsrc : Ptr) (buffer : GstBuffer)
  | gst_app_src_end_of_stream (appsrc : Ptr)
  | gst_bus_set_flushing (bus : Ptr) (flushing : Bool)
  | gst_object_unref (object : Ptr)
  | gst_util_set_object_arg (object : Ptr) (name value : List Char)
  | g_main_loop_quit (loop : Ptr)
  | logger_log (level : LogLevel)
  | g_print
deriving DecidableEq, Repr

/-- The calls that ask the engine or the main loop to do something: every call
except the read-only queries and the log output. -/
def Call.is_command : Call → Bool
  | .gst_element_set_state _ _ => true
  | .gst_app_src_push_buffer _ _ => true
  | .gst_app_src_end_of_stream _ => true
  | .gst_bus_set_flushing _ _ => true
  | .gst_object_unref _ => true
  | .gst_util_set_object_arg _ _ _ => true
  | .gst_element_seek_simple _ _ => true
  | .g_main_loop_quit _ => true
  | _ => false

/-- The calls into the media engine (the `gst_` functions), queries included. -/
def Call.is_engine_call : Call → Bool
  | .logger_log _ => false
  | .g_print => false
  | .g_main_loop_quit _ => false
  | _ => true

/-- The state requests of a trace: pipeline and target of each `gst_element_set_state`. -/
def state_requests : List Call → List (Ptr × GstState)
  | [] => []
  | Call.gst_element_set_state p st :: rest => (p, st) :: state_requests rest
  | _ :: rest => state_requests rest

/-- The buffers of a trace: endpoint and buffer of each `gst_app_src_push_buffer`. -/
def pushed_buffers : List Call → List (Ptr × GstBuffer)
  | [] => []
  | Call.gst_app_src_push_buffer a b :: rest => (a, b) :: pushed_buffers rest
  | _ :: rest => pushed_buffers rest

/-- What the engine and the logger answer during one call of a renderer function. -/
structure Engine where
  /-- Result of `gst_element_get_base_time(element)`. -/
  gst_element_get_base_time : Ptr → Nat
  /-- Return value and reported state of `gst_element_get_state(pipeline, &state, ..)`. -/
  gst_element_get_state : Ptr → GstStateChangeReturn × GstState
  /-- Result of `gst_element_get_bus(pipeline)`. -/
  gst_element_get_bus : Ptr → Ptr
  /-- Result of `gst_element_query_duration(pipeline, GST_FORMAT_TIME, &duration)`:
  `none` when it returns `FALSE`, otherwise the duration it stores. -/
  gst_element_query_duration : Ptr → Option Int
  /-- Result of `gst_element_query_position(pipeline, GST_FORMAT_TIME, &pos)`:
  `none` when it returns `FALSE`, otherwise the position it stores. -/
  gst_element_query_position : Ptr → Option Int
  /-- Result of `gst_element_seek_simple(pipeline, GST_FORMAT_TIME, flags, seek_position)`. -/
  gst_element_seek_simple : Ptr → Int → Bool
  /-- Result of `gst_element_factory_make("playbin3", ..)` for the on-demand instance. -/
  gst_element_factory_make : Ptr
  /-- Result of `gst_parse_launch` for the mirror instance with the given index. -/
  gst_parse_launch : Nat → Ptr
  /-- Result of `gst_bin_get_by_name(pipeline, "video_source")` for the instance. -/
  gst_bin_get_by_name : Nat → Ptr
  /-- Result of `make_video_sink(videosink, videosink_options)`. -/
  make_video_sink : Ptr
  /-- Whether `logger_get_level(logger) >= LOGGER_DEBUG`. -/
  logger_level_debug : Bool

/-! ## The renderer's data -/

/-- The static strings `h264`, `h265`, `hls` that `codec` points to. -/
inductive Codec where
  | h264
  | h265
  | hls
deriving DecidableEq, Repr

/-- The characters of a codec tag. -/
def Codec.str : Codec → List Char
  | .h264 => ['h', '2', '6', '4']
  | .h265 => ['h', '2', '6', '5']
  | .hls => ['h', 'l', 's']

/-- The `struct video_renderer_s`. -/
structure video_renderer_s where
  appsrc : Ptr
  pipeline : Ptr
  bus : Ptr
  codec : Codec
  autovideo : Bool
  state_pending : Bool
  id : Int
  terminate : Bool
  duration : Int
  buffering_level : Int
deriving DecidableEq, Repr

/-- The file-scope statics of `video_renderer.c`. -/
structure State where
  gst_video_pipeline_base_time : Nat
  first_packet : Bool
  do_sync : Bool
  auto_videosink : Bool
  hls_video : Bool
  logger_debug : Bool
  video_terminate : Bool
  /-- The pointer `renderer`: the index of the block pointed to, `none` for `NULL`. -/
  renderer : Option Nat
  /-- The slot `renderer_type[0]`. -/
  renderer_type_0 : Option video_renderer_s
  /-- The slot `renderer_type[1]`. -/
  renderer_type_1 : Option video_renderer_s
  n_renderers : Nat
deriving DecidableEq, Repr

/-- The statics as initialised at program start. -/
def State.initial : State :=
  { gst_video_pipeline_base_time := GST_CLOCK_TIME_NONE
    first_packet := false
    do_sync := false
    auto_videosink := true
    hls_video := false
    logger_debug := false
    video_terminate := false
    renderer := none
    renderer_type_0 := none
    renderer_type_1 := none
    n_renderers := 2 }

/-- The block `renderer_type[i]`, `none` when the slot is `NULL` (`NCODECS` is 2). -/
def State.renderer_type (s : State) (i : Nat) : Option video_renderer_s :=
  match i with
  | 0 => s.renderer_type_0
  | 1 => s.renderer_type_1
  | _ => none

/-- Writes the block of slot `i`. -/
def State.set_renderer_type (s : State) (i : Nat) (r : video_renderer_s) : State :=
  match i with
  | 0 => { s with renderer_type_0 := some r }
  | 1 => { s with renderer_type_1 := some r }
  | _ => s

/-- The pointer value stored in `renderer_type[i]`. -/
def State.renderer_type_ptr (s : State) (i : Nat) : Option Nat :=
  match s.renderer_type i with
  | some _ => some i
  | none => none

/-- The pointer `renderer` is `NULL` or points to an allocated block. -/
def State.renderer_valid (s : State) : Bool :=
  match s.renderer with
  | none => true
  | some i => (s.renderer_type i).isSome

/-- The block a renderer pointer points to; `none` for `NULL`. -/
def State.deref (s : State) (p : Option Nat) : Option video_renderer_s :=
  match p with
  | some i => s.renderer_type i
  | none => none

/-! ## `video_renderer_choose_codec` (lines 936-955) -/

/-- The function `video_renderer_choose_codec`. -/
def video_renderer_choose_codec (eng : Engine) (s : State) (video_is_h265 : Bool) :
    Option (State × List Call) :=
  -- g_assert(!hls_video)
  if s.hls_video then none
  else
    let renderer_new : Option Nat :=
      if video_is_h265 then s.renderer_type_ptr 1 else s.renderer_type_ptr 0
    if s.renderer = renderer_new then some (s, [])
    else
      let renderer_prev := s.renderer
      let s1 : State := { s with renderer := renderer_new }
      -- renderer->appsrc
      match s1.deref s1.renderer with
      | none => none
      | some r =>
        let s2 : State :=
          { s1 with gst_video_pipeline_base_time := eng.gst_element_get_base_time r.appsrc % 2 ^ 64 }
        match renderer_prev with
        | none => some (s2, [Call.gst_element_get_base_time r.appsrc])
        | some p =>
          match s2.renderer_type p with
          | none => none
          | some prev =>
            some (s2.set_renderer_type p { prev with state_pending := true },
              [Call.gst_element_get_base_time r.appsrc,
               Call.gst_app_src_end_of_stream prev.appsrc,
               Call.gst_bus_set_flushing prev.bus true,
               Call.gst_element_set_state prev.pipeline GstState.NULL])

/-! ## `video_renderer_render_buffer` (lines 661-695) -/

/-- The function `video_renderer_render_buffer`.  The payload `data` has `*data_len`
bytes and `ntp_time` is `*ntp_time`; `nal_count` is not read, and `g_assert(data_len != 0)`
tests the pointer, which is never `NULL`.  Reading `data[0]` of an empty payload is
out of bounds: the byte the source finds there is not part of `data`, so a frame of
zero bytes is outside this model, which answers `none` for it. -/
def video_renderer_render_buffer (s : State) (data : List Nat) (ntp_time : Nat) :
    Option (State × List Call) :=
  let pts0 : Nat := ntp_time % 2 ^ 64
  if s.do_sync && decide (pts0 < s.gst_video_pipeline_base_time) then
    some (s, [Call.logger_log LogLevel.LOGGER_ERR])
  else
    let pts : Nat := if s.do_sync then pts0 - s.gst_video_pipeline_base_time else pts0
    match data with
    | [] => none
    | d0 :: _ =>
      if d0 ≠ 0 then some (s, [Call.logger_log LogLevel.LOGGER_ERR])
      else
        let logs : List Call :=
          if s.first_packet then [Call.logger_log LogLevel.LOGGER_INFO] else []
        let s1 : State := { s with first_packet := false }
        let buffer : GstBuffer :=
          { data := data, pts := if s.do_sync then pts else GST_CLOCK_TIME_NONE }
        -- renderer->appsrc
        match s1.deref s1.renderer with
        | none => none
        | some r => some (s1, logs ++ [Call.gst_app_src_push_buffer r.appsrc buffer])

/-! ## `video_renderer_stop` (lines 703-710) -/

/-- The function `video_renderer_stop`. -/
def video_renderer_stop (s : State) : Option (State × List Call) :=
  match s.renderer with
  | none => some (s, [])
  | some i =>
    match s.renderer_type i with
    | none => none
    | some r =>
      some (s,
        (if r.appsrc.isSome then [Call.gst_app_src_end_of_stream r.appsrc] else [])
          ++ [Call.gst_element_set_state r.pipeline GstState.NULL])

/-! ## `video_renderer_pause`, `video_renderer_resume`, `video_renderer_start` (lines 603-642) -/

/-- The function `video_renderer_pause`. -/
def video_renderer_pause (s : State) : Option (State × List Call) :=
  match s.renderer with
  | none => some (s, [])
  | some i =>
    match s.renderer_type i with
    | none => none
    | some r =>
      some (s, [Call.logger_log LogLevel.LOGGER_DEBUG,
                Call.gst_element_set_state r.pipeline GstState.PAUSED])

/-- The function `video_renderer_resume`. -/
def video_renderer_resume (eng : Engine) (s : State) : Option (State × List Call) :=
  match s.renderer with
  | none => some (s, [])
  | some i =>
    match s.renderer_type i with
    | none => none
    | some r =>
      let calls : List Call :=
        [Call.gst_element_set_state r.pipeline GstState.PLAYING,
         Call.gst_element_get_state r.pipeline,
         Call.logger_log LogLevel.LOGGER_DEBUG]
      if r.appsrc.isSome then
        some ({ s with gst_video_pipeline_base_time :=
                  eng.gst_element_get_base_time r.appsrc % 2 ^ 64 },
              calls ++ [Call.gst_element_get_base_time r.appsrc])
      else some (s, calls)

/-- One pass of the loop body of `video_renderer_start` (mirror mode) for slot `i`. -/
def video_renderer_start_one (eng : Engine) (i : Nat) (acc : State × List Call) :
    Option (State × List Call) :=
  match acc.1.renderer_type i with
  | none => none
  | some r =>
    let s1 : State :=
      if r.appsrc.isSome then
        { acc.1 with gst_video_pipeline_base_time :=
            eng.gst_element_get_base_time r.appsrc % 2 ^ 64 }
      else acc.1
    let s2 : State := s1.set_renderer_type i { r with bus := eng.gst_element_get_bus r.pipeline }
    some (s2, acc.2
      ++ [Call.gst_element_set_state r.pipeline GstState.PLAYING]
      ++ (if r.appsrc.isSome then [Call.gst_element_get_base_time r.appsrc] else [])
      ++ [Call.gst_element_get_bus r.pipeline])

/-- The loop `for (i = start; i < n_renderers; i++)` of `video_renderer_start`;
`fuel` is the number of passes left. -/
def video_renderer_start_loop (eng : Engine) (fuel i : Nat) (acc : State × List Call) :
    Option (State × List Call) :=
  match fuel with
  | 0 => some acc
  | fuel + 1 =>
    match video_renderer_start_one eng i acc with
    | none => none
    | some acc1 => video_renderer_start_loop eng fuel (i + 1) acc1

/-- The function `video_renderer_start`. -/
def video_renderer_start (eng : Engine) (s : State) : Option (State × List Call) :=
  if s.hls_video then
    match s.renderer with
    | none => none
    | some i =>
      match s.renderer_type i with
      | none => none
      | some r =>
        some (s.set_renderer_type i { r with bus := eng.gst_element_get_bus r.pipeline },
          [Call.gst_element_get_bus r.pipeline,
           Call.gst_element_set_state r.pipeline GstState.PLAYING])
  else
    match video_renderer_start_loop eng s.n_renderers 0 (s, []) with
    | none => none
    | some (s1, calls) => some ({ s1 with renderer := none, first_packet := true }, calls)

/-! ## `video_reset_callback` (lines 958-971) -/

/-- The function `video_reset_callback`; it always returns `TRUE`. -/
def video_reset_callback (s : State) (loop : Ptr) : Option (State × List Call) :=
  if s.video_terminate then
    let s1 : State := { s with video_terminate := false }
    match s1.deref s1.renderer with
    | none => none
    | some r =>
      some (s1,
        (if r.appsrc.isSome then [Call.gst_app_src_end_of_stream r.appsrc] else [])
          ++ [Call.gst_bus_set_flushing r.bus true,
              Call.gst_element_set_state r.pipeline GstState.NULL,
              Call.g_main_loop_quit loop])
  else some (s, [])

/-! ## C string helpers -/

/-- The C function `strstr` on strings without their terminator: the offset of the
first occurrence of `needle` in `hay`, `none` for `NULL`. -/
def strstr (hay needle : List Char) : Option Nat :=
  if needle.isPrefixOf hay then some 0
  else
    match hay with
    | [] => none
    | _ :: t => (strstr t needle).map (· + 1)

/-- Whether `strcmp(a, b)` is non-zero. -/
def strcmp_ne (a b : List Char) : Bool := decide (a ≠ b)

/-! ## `video_renderer_init` (lines 364-600) -/

/-- The arguments of `video_renderer_init` that its control flow reads, and
`video_sync`.  The logger, the server name, the orientation transform and the
parser, decoder and converter names only enter the launch description and the
application name. -/
structure InitArgs where
  videosink : List Char
  videosink_options : List Char
  initial_fullscreen : Bool
  video_sync : Bool
  h265_support : Bool
  uri : Option (List Char)

/-- The tail of the loop body of `video_renderer_init` (lines 582-598): the block
`r` has been filled in for slot `i`; request the ready state and check it. -/
def video_renderer_init_ready (eng : Engine) (i : Nat) (r : video_renderer_s)
    (acc : State × List Call) : State × List Call :=
  let s1 : State := acc.1.set_renderer_type i r
  let calls : List Call :=
    acc.2 ++ [Call.gst_element_set_state r.pipeline GstState.READY,
              Call.gst_element_get_state r.pipeline]
  let res := eng.gst_element_get_state r.pipeline
  if res.1 ≠ GstStateChangeReturn.FAILURE then
    if res.2 = GstState.READY then
      let s2 : State :=
        if s1.hls_video && decide (i = 0) then { s1 with renderer := s1.renderer_type_ptr i }
        else s1
      (s2, calls ++ [Call.logger_log LogLevel.LOGGER_DEBUG])
    else (s1, calls ++ [Call.logger_log LogLevel.LOGGER_ERR])
  else (s1, calls ++ [Call.logger_log LogLevel.LOGGER_ERR])

/-- One pass of the loop body of `video_renderer_init` for slot `i`.  The block is
`calloc`ed, so every field that the pass does not assign is zero. -/
def video_renderer_init_one (args : InitArgs) (eng : Engine) (i : Nat)
    (acc : State × List Call) : Option (State × List Call) :=
  -- g_assert(i < 2)
  if 2 ≤ i then none
  else if acc.1.hls_video then
    match eng.gst_element_factory_make with
    | none => none
    | some p =>
      let r : video_renderer_s :=
        { appsrc := none, pipeline := some p, bus := none, codec := Codec.hls,
          autovideo := acc.1.auto_videosink, state_pending := false, id := i,
          terminate := false, duration := 0, buffering_level := 0 }
      let logs : List Call :=
        if strcmp_ne args.videosink "autovideosink".toList then
          (if eng.make_video_sink.isNone then [Call.logger_log LogLevel.LOGGER_ERR]
           else [Call.logger_log LogLevel.LOGGER_DEBUG])
        else []
      some (video_renderer_init_ready eng i r (acc.1, acc.2 ++ logs))
  else
    match eng.gst_parse_launch i, eng.gst_bin_get_by_name i with
    | some p, some a =>
      let r : video_renderer_s :=
        { appsrc := some a, pipeline := some p, bus := none,
          codec := if i = 0 then Codec.h264 else Codec.h265,
          autovideo := acc.1.auto_videosink, state_pending := false, id := i,
          terminate := false, duration := 0, buffering_level := 0 }
      some (video_renderer_init_ready eng i r
        (acc.1, acc.2 ++ [Call.logger_log LogLevel.LOGGER_DEBUG]))
    | _, _ => none

/-- The loop `for (i = start; i < n_renderers; i++)` of `video_renderer_init`. -/
def video_renderer_init_loop (args : InitArgs) (eng : Engine) (fuel i : Nat)
    (acc : State × List Call) : Option (State × List Call) :=
  match fuel with
  | 0 => some acc
  | fuel + 1 =>
    match video_renderer_init_one args eng i acc with
    | none => none
    | some acc1 => video_renderer_init_loop args eng fuel (i + 1) acc1

/-- The function `video_renderer_init`.  The assignment of `do_sync` from
`video_sync` (lines 480-486) is commented out in the source, so there is none here. -/
def video_renderer_init (args : InitArgs) (eng : Engine) (s : State) :
    Option (State × List Call) :=
  let hls : Bool := args.uri.isSome
  let s1 : State :=
    { s with
      hls_video := hls
      auto_videosink := (strstr args.videosink "autovideosink".toList).isSome
        || (strstr args.videosink "fpsdisplaysink".toList).isSome
      logger_debug := eng.logger_level_debug
      video_terminate := false
      n_renderers := if hls then 1 else (if args.h265_support then 2 else 1) }
  video_renderer_init_loop args eng s1.n_renderers 0 (s1, [])

/-! ## `gstreamer_pipeline_bus_callback` (lines 748-933) -/

/-- The message kinds the callback distinguishes; every other kind is `OTHER`. -/
inductive GstMessageType where
  | GST_MESSAGE_DURATION
  | GST_MESSAGE_BUFFERING
  | GST_MESSAGE_ERROR
  | GST_MESSAGE_EOS
  | GST_MESSAGE_STATE_CHANGED
  | OTHER
deriving DecidableEq, Repr

/-- What the callback reads from a `GstMessage`. -/
structure GstMessage where
  /-- The value of `GST_MESSAGE_TYPE(message)`. -/
  type : GstMessageType
  /-- The value of `GST_MESSAGE_SRC_NAME(message)`. -/
  src_name : List Char
  /-- The value `gst_message_parse_buffering` stores in `percent`. -/
  percent : Int
  /-- The text `err->message` that `gst_message_parse_error` returns. -/
  err_message : List Char
deriving DecidableEq, Repr

/-- The scan of lines 749-755: the first `i < n_renderers` with
`renderer_type[i]->bus == bus`.  The outer `none` is a `NULL` dereference, the
inner `none` is `type == -1`. -/
def bus_callback_find (s : State) (bus : Ptr) (fuel i : Nat) : Option (Option Nat) :=
  match fuel with
  | 0 => some none
  | fuel + 1 =>
    match s.renderer_type i with
    | none => none
    | some r => if r.bus = bus then some (some i) else bus_callback_find s bus fuel (i + 1)

/-- The `switch` of the callback for the owning slot `type` with block `r`. -/
def bus_callback_switch (eng : Engine) (s : State) (type : Nat) (r : video_renderer_s)
    (bus : Ptr) (message : GstMessage) (loop : Ptr) : State × List Call :=
  match message.type with
  | .GST_MESSAGE_DURATION =>
    (s.set_renderer_type type { r with duration := -1 }, [])
  | .GST_MESSAGE_BUFFERING =>
    if s.hls_video then
      if 0 ≤ message.percent then
        (s.set_renderer_type type { r with buffering_level := message.percent },
         [Call.logger_log LogLevel.LOGGER_DEBUG,
          Call.gst_element_set_state r.pipeline
            (if message.percent < 100 then GstState.PAUSED else GstState.PLAYING)])
      else (s, [])
    else (s, [])
  | .GST_MESSAGE_ERROR =>
    (s.set_renderer_type type { r with terminate := true },
     [Call.logger_log LogLevel.LOGGER_INFO]
       ++ (if !s.hls_video
              && (strstr message.err_message "Internal data stream error".toList).isSome
           then [Call.logger_log LogLevel.LOGGER_INFO] else [])
       ++ (if r.appsrc.isSome then [Call.gst_app_src_end_of_stream r.appsrc] else [])
       ++ [Call.gst_bus_set_flushing bus true,
           Call.gst_element_set_state r.pipeline GstState.READY,
           Call.g_main_loop_quit loop])
  | .GST_MESSAGE_EOS =>
    if s.hls_video then
      (s.set_renderer_type type { r with terminate := true },
       [Call.logger_log LogLevel.LOGGER_INFO,
        Call.gst_bus_set_flushing bus true,
        Call.gst_element_set_state r.pipeline GstState.READY,
        Call.g_main_loop_quit loop])
    else (s, [Call.logger_log LogLevel.LOGGER_INFO])
  | .GST_MESSAGE_STATE_CHANGED =>
    let step1 : video_renderer_s × List Call :=
      if r.state_pending && (strstr message.src_name "pipeline".toList).isSome then
        let state := (eng.gst_element_get_state r.pipeline).2
        if state = GstState.NULL then
          (r, [Call.gst_element_get_state r.pipeline,
               Call.gst_element_set_state r.pipeline GstState.PLAYING])
        else if state = GstState.PLAYING then
          ({ r with state_pending := false }, [Call.gst_element_get_state r.pipeline])
        else (r, [Call.gst_element_get_state r.pipeline])
      else (r, [])
    let step2 : video_renderer_s × List Call :=
      if step1.1.autovideo
          && (strstr message.src_name "-actual-sink-".toList).isSome
          && (strstr message.src_name step1.1.codec.str).isSome then
        ({ step1.1 with autovideo := false }, step1.2 ++ [Call.logger_log LogLevel.LOGGER_DEBUG])
      else step1
    (s.set_renderer_type type step2.1, step2.2)
  | .OTHER => (s, [])

/-- The function `gstreamer_pipeline_bus_callback`; it always returns `TRUE`. -/
def gstreamer_pipeline_bus_callback (eng : Engine) (s : State) (bus : Ptr)
    (message : GstMessage) (loop : Ptr) : Option (State × List Call) :=
  match bus_callback_find s bus s.n_renderers 0 with
  | none => none
  -- g_assert(type != -1)
  | some none => none
  | some (some type) =>
    match s.renderer_type type with
    | none => none
    | some r =>
      let dbg : List Call :=
        (if s.logger_debug then [Call.g_print] else [])
          ++ (if s.logger_debug && s.hls_video then
                [Call.gst_element_query_position r.pipeline, Call.g_print]
              else [])
      let res := bus_callback_switch eng s type r bus message loop
      some (res.1, dbg ++ res.2)

/-! ## `video_renderer_destroy` (lines 713-745) -/

/-- The function `video_renderer_destroy_h26x` for a non-`NULL` block `r`: the calls it
issues.  The block is then freed. -/
def video_renderer_destroy_h26x (eng : Engine) (hls_video : Bool) (r : video_renderer_s) :
    List Call :=
  [Call.gst_element_get_state r.pipeline]
    ++ (if (eng.gst_element_get_state r.pipeline).2 ≠ GstState.NULL then
          (if !hls_video then [Call.gst_app_src_end_of_stream r.appsrc] else [])
            ++ [Call.gst_element_set_state r.pipeline GstState.NULL]
        else [])
    ++ [Call.gst_object_unref r.bus]
    ++ (if r.appsrc.isSome then [Call.gst_object_unref r.appsrc] else [])
    ++ [Call.gst_object_unref r.pipeline]

/-- The loop of `video_renderer_destroy`: the calls issued for the slots from `i` on. -/
def video_renderer_destroy_loop (eng : Engine) (s : State) (fuel i : Nat) : List Call :=
  match fuel with
  | 0 => []
  | fuel + 1 =>
    (match s.renderer_type i with
     | some r => video_renderer_destroy_h26x eng s.hls_video r
     | none => [])
      ++ video_renderer_destroy_loop eng s fuel (i + 1)

/-- The function `video_renderer_destroy`: the calls it issues.  The source leaves
`renderer` and `renderer_type[i]` pointing to the freed blocks; a later use of them
is outside this model. -/
def video_renderer_destroy (eng : Engine) (s : State) : List Call :=
  video_renderer_destroy_loop eng s s.n_renderers 0

/-! ## Predicates used in the statements -/

/-- The bus `bus` belongs to slot `i`: `i` is below `n_renderers`, the block of slot
`i` has this bus, and every earlier slot has a block with another bus. -/
def State.bus_owner (s : State) (bus : Ptr) (i : Nat) : Bool :=
  decide (i < s.n_renderers)
    && (match s.renderer_type i with
        | some r => decide (r.bus = bus)
        | none => false)
    && (List.range i).all (fun j =>
        match s.renderer_type j with
        | some rj => decide (rj.bus ≠ bus)
        | none => false)

/-- The endpoints of the two slots. -/
def State.endpoints (s : State) : Option Ptr × Option Ptr :=
  (s.renderer_type_0.map (fun r => r.appsrc), s.renderer_type_1.map (fun r => r.appsrc))

/-- What one call from `s` to `s1` with trace `calls` has to respect: `do_sync` and
the endpoints are kept, and a buffer is pushed only to the endpoint of the block
active in `s`, without presentation time when `do_sync` is off. -/
def Frame (s s1 : State) (calls : List Call) : Prop :=
  s1.do_sync = s.do_sync
  ∧ s1.endpoints = s.endpoints
  ∧ ∀ a b, Call.gst_app_src_push_buffer a b ∈ calls →
      (∃ r, s.deref s.renderer = some r ∧ r.appsrc = a)
      ∧ (s.do_sync = false → b.pts = GST_CLOCK_TIME_NONE)

/-- The endpoint stored in slot `j`, `none` when the slot is `NULL`. -/
def State.endpoint_at (s : State) (j : Nat) : Option Ptr :=
  (s.renderer_type j).map (fun r => r.appsrc)

/-- Whether a trace pushes a buffer to the endpoint `appsrc` after end-of-stream was
signalled to it and before a ready-state request for `pipeline`; `armed` says that
such an end-of-stream is outstanding at the start of the trace. -/
def push_after_eos (appsrc pipeline : Ptr) (armed : Bool) : List Call → Bool
  | [] => false
  | Call.gst_app_src_end_of_stream a :: rest =>
    push_after_eos appsrc pipeline (armed || decide (a = appsrc)) rest
  | Call.gst_element_set_state p GstState.READY :: rest =>
    push_after_eos appsrc pipeline (armed && decide (p ≠ pipeline)) rest
  | Call.gst_app_src_push_buffer a _ :: rest =>
    (armed && decide (a = appsrc)) || push_after_eos appsrc pipeline armed rest
  | _ :: rest => push_after_eos appsrc pipeline armed rest

/-! ## Sequences of operations -/

/-- One call into the renderer after `video_renderer_init`. -/
inductive Op where
  | start (eng : Engine)
  | stop
  | pause
  | resume (eng : Engine)
  | choose_codec (eng : Engine) (video_is_h265 : Bool)
  | render_buffer (data : List Nat) (ntp_time : Nat)
  | bus_callback (eng : Engine) (bus : Ptr) (message : GstMessage) (loop : Ptr)
  | reset_callback (loop : Ptr)

/-- Executes one call. -/
def Op.exec (op : Op) (s : State) : Option (State × List Call) :=
  match op with
  | .start eng => video_renderer_start eng s
  | .stop => video_renderer_stop s
  | .pause => video_renderer_pause s
  | .resume eng => video_renderer_resume eng s
  | .choose_codec eng c => video_renderer_choose_codec eng s c
  | .render_buffer data ntp_time => video_renderer_render_buffer s data ntp_time
  | .bus_callback eng bus message loop => gstreamer_pipeline_bus_callback eng s bus message loop
  | .reset_callback loop => video_reset_callback s loop

/-- Executes a sequence of calls from `s`, collecting the calls issued. -/
def run (ops : List Op) (s : State) : Option (State × List Call) :=
  match ops with
  | [] => some (s, [])
  | op :: rest =>
    match op.exec s with
    | none => none
    | some (s1, c1) =>
      match run rest s1 with
      | none => none
      | some (s2, c2) => some (s2, c1 ++ c2)

/-! ## Sample sessions -/

/-- An engine whose answers are fixed: pipelines 10 and 11, endpoints 20 and 21, the
bus of pipeline `p` is `p + 100`, the base time of element `e` is `1000 + e`, every
pipeline reports the ready state, the duration is 60 s, the position 5 s, and every
seek succeeds. -/
def Engine.sample : Engine :=
  { gst_element_get_base_time := fun e =>
      match e with
      | some h => 1000 + h
      | none => GST_CLOCK_TIME_NONE
    gst_element_get_state := fun _ => (GstStateChangeReturn.SUCCESS, GstState.READY)
    gst_element_get_bus := fun p => p.map (· + 100)
    gst_element_query_duration := fun _ => some 60000000000
    gst_element_query_position := fun _ => some 5000000000
    gst_element_seek_simple := fun _ _ => true
    gst_element_factory_make := some 10
    gst_parse_launch := fun i => some (10 + i)
    gst_bin_get_by_name := fun i => some (20 + i)
    make_video_sink := some 30
    logger_level_debug := false }

/-- Arguments of a mirror session with h265 support and `video_sync` set. -/
def InitArgs.mirror : InitArgs :=
  { videosink := "autovideosink".toList
    videosink_options := []
    initial_fullscreen := false
    video_sync := true
    h265_support := true
    uri := none }

/-- Arguments of an on-demand session. -/
def InitArgs.on_demand : InitArgs :=
  { videosink := "autovideosink".toList
    videosink_options := []
    initial_fullscreen := false
    video_sync := false
    h265_support := false
    uri := some "http://host/master.m3u8".toList }

/-- A session: `video_renderer_init` at program start, then a sequence of calls; the
trace is the one of the whole session. -/
def session (args : InitArgs) (eng : Engine) (ops : List Op) : Option (State × List Call) :=
  match video_renderer_init args eng State.initial with
  | none => none
  | some (s0, c0) =>
    match run ops s0 with
    | none => none
    | some (s, c) => some (s, c0 ++ c)

/-- The h264 block of the sample mirror session once started. -/
def video_renderer_s.sample_h264 : video_renderer_s :=
  { appsrc := some 20, pipeline := some 10, bus := some 110, codec := Codec.h264,
    autovideo := true, state_pending := false, id := 0, terminate := false,
    duration := 0, buffering_level := 0 }

/-- The h265 block of the sample mirror session once started. -/
def video_renderer_s.sample_h265 : video_renderer_s :=
  { appsrc := some 21, pipeline := some 11, bus := some 111, codec := Codec.h265,
    autovideo := true, state_pending := false, id := 1, terminate := false,
    duration := 0, buffering_level := 0 }

/-- The playbin block of the sample on-demand session once started. -/
def video_renderer_s.sample_hls : video_renderer_s :=
  { appsrc := none, pipeline := some 10, bus := some 110, codec := Codec.hls,
    autovideo := true, state_pending := false, id := 0, terminate := false,
    duration := 0, buffering_level := 0 }

/-- The sample mirror session after `video_renderer_start`: no block is active. -/
def State.mirror_started : State :=
  { gst_video_pipeline_base_time := 1021
    first_packet := true
    do_sync := false
    auto_videosink := true
    hls_video := false
    logger_debug := false
    video_terminate := false
    renderer := none
    renderer_type_0 := some video_renderer_s.sample_h264
    renderer_type_1 := some video_renderer_s.sample_h265
    n_renderers := 2 }

/-- The sample mirror session after `video_renderer_choose_codec(false)`: the h264
block is active. -/
def State.mirror_h264 : State :=
  { State.mirror_started with gst_video_pipeline_base_time := 1020, renderer := some 0 }

/-- The sample on-demand session after `video_renderer_start`. -/
def State.on_demand_started : State :=
  { gst_video_pipeline_base_time := GST_CLOCK_TIME_NONE
    first_packet := false
    do_sync := false
    auto_videosink := true
    hls_video := true
    logger_debug := false
    video_terminate := false
    renderer := some 0
    renderer_type_0 := some video_renderer_s.sample_hls
    renderer_type_1 := none
    n_renderers := 1 }

/-- A message of the given kind and buffering percentage, from the element
`pipeline0`, with the text of a generic stream error. -/
def GstMessage.sample (type : GstMessageType) (percent : Int) : GstMessage :=
  { type := type
    src_name := "pipeline0".toList
    percent := percent
    err_message := "Internal data stream error.".toList }

/-! ## Predicates and samples for the bus events -/

/-- The buffering events with the given percentages, in order, all on the bus `bus`:
each is `message` with its `percent` replaced. -/
def buffering_events (eng : Engine) (bus : Ptr) (message : GstMessage) (loop : Ptr)
    (percents : List Int) : List Op :=
  percents.map (fun p => Op.bus_callback eng bus { message with percent := p } loop)

/-- The state request the buffering branch issues for the percentage `p` on
`pipeline`: none below 0, paused below 100, playing from 100 on. -/
def buffering_request (pipeline : Ptr) (p : Int) : List (Ptr × GstState) :=
  if 0 ≤ p then [(pipeline, if p < 100 then GstState.PAUSED else GstState.PLAYING)] else []

/-- The sample engine, except that every pipeline reports the null state. -/
def Engine.sample_null : Engine :=
  { Engine.sample with
    gst_element_get_state := fun _ => (GstStateChangeReturn.SUCCESS, GstState.NULL) }

/-- The sample mirror session after the swap from h264 to h265: the h264 block is
drained and its pending flag is set. -/
def State.mirror_swapped : State :=
  { State.mirror_h264 with
    gst_video_pipeline_base_time := 1021
    renderer := some 1
    renderer_type_0 := some { video_renderer_s.sample_h264 with state_pending := true } }

/-! ## `video_renderer_seek` (lines 1019-1047) -/

/-- The clamping of `video_renderer_seek` (lines 1022-1027): `pos` is the value of
`(gint64)pos`, `duration` the cached `renderer->duration`. -/
def video_renderer_seek_position (pos duration : Int) : Int :=
  let seek_position : Int := if pos < 1000 then 1000 else pos
  if 0 < duration then
    (if duration - 1000 < seek_position then duration - 1000 else seek_position)
  else seek_position

/-- The function `video_renderer_seek`.  The argument `pos` is the value of
`(gint64)pos`, the requested position in nanoseconds after the conversion from
`float` seconds; the conversion itself is not modelled. -/
def video_renderer_seek (eng : Engine) (s : State) (pos : Int) : Option (State × List Call) :=
  -- renderer->duration
  match s.deref s.renderer with
  | none => none
  | some r =>
    let seek_position : Int := video_renderer_seek_position pos r.duration
    some (s,
      [Call.g_print, Call.gst_element_seek_simple r.pipeline seek_position]
        ++ (if eng.gst_element_seek_simple r.pipeline seek_position then
              [Call.g_print, Call.gst_element_set_state r.pipeline GstState.PLAYING]
            else [Call.g_print]))

/-- The seek targets of a trace: the position of each `gst_element_seek_simple`. -/
def seek_targets : List Call → List Int
  | [] => []
  | Call.gst_element_seek_simple _ t :: rest => t :: seek_targets rest
  | _ :: rest => seek_targets rest

/-- The sample on-demand session with a cached duration of `d` nanoseconds. -/
def State.on_demand_duration (d : Int) : State :=
  { State.on_demand_started with
    renderer_type_0 := some { video_renderer_s.sample_hls with duration := d } }

/-! ## `video_get_playback_info` (lines 974-1016) -/

/-- What `video_get_playback_info` stores through its three pointers.  The doubles
`*duration` and `*position` are kept as the nanosecond counts they are computed
from (the value stored is the count divided by `GST_SECOND`); `position = none` is
`*position` left at `-1.0`; `rate_playing` is `*rate = 1.0f`, otherwise `*rate` is
`0.0f`. -/
structure PlaybackInfo where
  duration : Int
  position : Option Int
  rate_playing : Bool
deriving DecidableEq, Repr

/-- The macro `GST_CLOCK_TIME_IS_VALID` on a `gint64`: the value is not the all-ones
pattern, that is not -1. -/
def GST_CLOCK_TIME_IS_VALID (t : Int) : Bool := decide (t ≠ -1)

/-- The function `video_get_playback_info`; it always returns `true`.  The test
`if (*duration)` of a `gint64` divided by `GST_SECOND` is the test that the count is
not 0. -/
def video_get_playback_info (eng : Engine) (s : State) :
    Option (State × List Call × PlaybackInfo) :=
  match s.renderer with
  | none => some (s, [], { duration := 0, position := none, rate_playing := false })
  | some i =>
    match s.renderer_type i with
    | none => none
    | some r =>
      let state := (eng.gst_element_get_state r.pipeline).2
      let rate : Bool := decide (state = GstState.PLAYING)
      let finish (s1 : State) (calls : List Call) (d : Int) :
          Option (State × List Call × PlaybackInfo) :=
        if d ≠ 0 then
          match eng.gst_element_query_position r.pipeline with
          | some pos =>
            some (s1, calls ++ [Call.gst_element_query_position r.pipeline,
                                 Call.logger_log LogLevel.LOGGER_DEBUG],
                  { duration := d
                    position := if GST_CLOCK_TIME_IS_VALID pos then some pos else none
                    rate_playing := rate })
          | none =>
            some (s1, calls ++ [Call.gst_element_query_position r.pipeline,
                                 Call.logger_log LogLevel.LOGGER_DEBUG],
                  { duration := d, position := none, rate_playing := rate })
        else
          some (s1, calls ++ [Call.logger_log LogLevel.LOGGER_DEBUG],
                { duration := d, position := none, rate_playing := rate })
      if !GST_CLOCK_TIME_IS_VALID r.duration then
        match eng.gst_element_query_duration r.pipeline with
        | none =>
          some (s, [Call.gst_element_get_state r.pipeline,
                    Call.gst_element_query_duration r.pipeline],
                { duration := 0, position := none, rate_playing := rate })
        | some d =>
          finish (s.set_renderer_type i { r with duration := d })
            [Call.gst_element_get_state r.pipeline,
             Call.gst_element_query_duration r.pipeline] d
      else
        finish s [Call.gst_element_get_state r.pipeline] r.duration

/-- The sample engine, except that the duration query succeeds with the unknown
duration -1. -/
def Engine.sample_unknown_duration : Engine :=
  { Engine.sample with gst_element_query_duration := fun _ => some (-1) }

/-- The sample engine, except that every pipeline reports the playing state. -/
def Engine.sample_playing : Engine :=
  { Engine.sample with
    gst_element_get_state := fun _ => (GstStateChangeReturn.SUCCESS, GstState.PLAYING) }

/-! ## `on_new_sample` (lines 311-355) -/

/-- The statics of the section "WebSocket Globals": `ws_context`, `ws_wsi` and
`connected`. -/
structure WebSocket where
  ws_context : Ptr
  ws_wsi : Ptr
  connected : Bool
deriving DecidableEq, Repr

/-- The values of `GstFlowReturn` that `on_new_sample` returns. -/
inductive GstFlowReturn where
  | GST_FLOW_OK
  | GST_FLOW_ERROR
deriving DecidableEq, Repr

/-- What the callees of `on_new_sample` answer during one call. -/
structure SampleAnswers where
  /-- Result of `gst_app_sink_pull_sample(sink)`: `none` for `NULL`, otherwise the
  bytes of the buffer of the sample. -/
  gst_app_sink_pull_sample : Option (List Nat)
  /-- Whether `gst_buffer_map(buffer, &map, GST_MAP_READ)` succeeds. -/
  gst_buffer_map : Bool
  /-- Whether `malloc(LWS_PRE + map.size)` returns a block. -/
  malloc : Bool
  /-- Return value of `lws_write(ws_wsi, ws_buf + LWS_PRE, map.size, LWS_WRITE_BINARY)`. -/
  lws_write : Int
deriving DecidableEq, Repr

/-- The calls `on_new_sample` issues. -/
inductive SinkCall where
  | printf
  | lws_write (wsi : Ptr) (data : List Nat)
  | free
  | gst_buffer_unmap
  | gst_sample_unref
deriving DecidableEq, Repr

/-- The function `on_new_sample`: the status it returns and the calls it issues. -/
def on_new_sample (ws : WebSocket) (ans : SampleAnswers) : GstFlowReturn × List SinkCall :=
  match ans.gst_app_sink_pull_sample with
  | none => (GstFlowReturn.GST_FLOW_ERROR, [])
  | some data =>
    if ans.gst_buffer_map then
      if ws.connected && ws.ws_wsi.isSome then
        if ans.malloc then
          let prints : List SinkCall :=
            [SinkCall.printf, SinkCall.printf]
              ++ (if 4 ≤ data.length then [SinkCall.printf] else [])
          if ans.lws_write < 0 then
            (GstFlowReturn.GST_FLOW_ERROR,
             prints ++ [SinkCall.lws_write ws.ws_wsi data, SinkCall.free,
                        SinkCall.gst_buffer_unmap, SinkCall.gst_sample_unref])
          else
            (GstFlowReturn.GST_FLOW_OK,
             prints ++ [SinkCall.lws_write ws.ws_wsi data, SinkCall.free,
                        SinkCall.gst_buffer_unmap, SinkCall.gst_sample_unref])
        else
          (GstFlowReturn.GST_FLOW_OK,
           [SinkCall.printf, SinkCall.gst_buffer_unmap, SinkCall.gst_sample_unref])
      else
        (GstFlowReturn.GST_FLOW_OK, [SinkCall.gst_buffer_unmap, SinkCall.gst_sample_unref])
    else (GstFlowReturn.GST_FLOW_OK, [SinkCall.gst_sample_unref])

/-- Whether a trace of `on_new_sample` contains a write to the side channel. -/
def SinkCall.has_write : List SinkCall → Bool
  | [] => false
  | SinkCall.lws_write _ _ :: _ => true
  | _ :: rest => SinkCall.has_write rest

/-- Arguments of a mirror session without h265 support. -/
def InitArgs.mirror_h264_only : InitArgs :=
  { InitArgs.mirror with h265_support := false }

/-! ## `make_video_sink` (lines 266-299) -/

/-- The C function `strchr` on a string without its terminator: the offset of the
first occurrence of `c`, `none` for `NULL`. -/
def strchr (s : List Char) (c : Char) : Option Nat :=
  match s with
  | [] => none
  | a :: t => if a = c then some 0 else (strchr t c).map (· + 1)

/-- The C function `strtok_r(text, delim, &text)` for a one-character `delim`, on the
string `text` points to: `none` for `NULL`, otherwise the token found and the string
`text` points to afterwards.  Leading delimiters are skipped (`strspn`), the token
runs up to the next delimiter (`strcspn`), which is overwritten by the terminator,
and `text` is left behind it, or at the terminator when the string ends with the
token. -/
def strtok_r (text : List Char) (delim : Char) : Option (List Char × List Char) :=
  match text.dropWhile (fun c => c == delim) with
  | [] => none
  | a :: t =>
    some ((a :: t).takeWhile (fun c => c != delim),
          ((a :: t).dropWhile (fun c => c != delim)).drop 1)

/-- The loop `while ((token = strtok_r(text, " ", &text)))` of `make_video_sink`;
`fuel` is the number of passes left. -/
def make_video_sink_loop (video_sink : Ptr) (fuel : Nat) (text : List Char) : List Call :=
  match fuel with
  | 0 => []
  | fuel + 1 =>
    match strtok_r text ' ' with
    | none => []
    | some (token, text1) =>
      (match strchr token '=' with
       | some k =>
         [Call.g_print,
          Call.gst_util_set_object_arg video_sink (token.take k) (token.drop (k + 1))]
       | none => [])
        ++ make_video_sink_loop video_sink fuel text1

/-- The function `make_video_sink`: the sink it returns and the calls it issues on
it.  The argument `video_sink` is what `gst_element_factory_make(videosink, ..)`
returns, `videosink_options` the characters of the option string. -/
def make_video_sink (video_sink : Ptr) (videosink_options : List Char) : Ptr × List Call :=
  match video_sink with
  | none => (none, [])
  | some h =>
    if videosink_options.length = 0 then (some h, [])
    else
      -- end = strchr(options, '!'); if (end) *end = '\0';
      let options : List Char :=
        match strchr videosink_options '!' with
        | some k => videosink_options.take k
        | none => videosink_options
      (some h, make_video_sink_loop (some h) (options.length + 1) options)

/-- The properties set in a trace: object, name and value of each
`gst_util_set_object_arg`. -/
def object_args : List Call → List (Ptr × List Char × List Char)
  | [] => []
  | Call.gst_util_set_object_arg o n v :: rest => (o, n, v) :: object_args rest
  | _ :: rest => object_args rest

/-- The pair a token stands for, in the words of the option-string rule: a token
that contains `=` is split at its first `=`, any other token gives nothing. -/
def spec_token_pair (token : List Char) : Option (List Char × List Char) :=
  if '=' ∈ token then
    some (token.takeWhile (fun c => c != '='), (token.dropWhile (fun c => c != '=')).drop 1)
  else none

/-- The properties of an option string, in the words of the option-string rule: cut
the string at its first `!`, split what is before it on spaces, and take the pair of
each token. -/
def spec_sink_properties (videosink_options : List Char) : List (List Char × List Char) :=
  ((videosink_options.takeWhile (fun c => c != '!')).splitOn ' ').filterMap spec_token_pair

/-! ## The codec-reference fix-up of `video_renderer_init` (lines 488-501) -/

/-- The loop `while ((pos = strstr(pos, needle))) { pos += 3; *pos = c; }` on the
buffer `str`; `pos` is the offset of the pointer `pos` in the buffer and `fuel` the
number of passes left. -/
def fix_references_loop (needle : List Char) (c : Char) (fuel : Nat) (str : List Char)
    (pos : Nat) : List Char :=
  match fuel with
  | 0 => str
  | fuel + 1 =>
    match strstr (str.drop pos) needle with
    | none => str
    | some k => fix_references_loop needle c fuel (str.set (pos + k + 3) c) (pos + k + 3)

/-- The fix-up of the launch description `str` for the block with the given codec:
for `h264` every `h265` is searched and its last character set to `4`, for `h265`
every `h264` is searched and its last character set to `5`. -/
def fix_references (codec : Codec) (str : List Char) : List Char :=
  match codec with
  | .h264 => fix_references_loop Codec.h265.str '4' str.length str 0
  | .h265 => fix_references_loop Codec.h264.str '5' str.length str 0
  | .hls => str

/-- Whether `needle` occurs in `s` at offset `j`. -/
def occurs_at (needle s : List Char) (j : Nat) : Bool :=
  needle.isPrefixOf (s.drop j)

/-- The character at offset `i` after the fix-up, in the words of its description:
the replacement `c` at the last character of each occurrence of `needle` in the
original string `str`, the original character everywhere else. -/
def spec_fix_char (needle : List Char) (c : Char) (str : List Char) (i : Nat) : Option Char :=
  if 3 ≤ i ∧ occurs_at needle str (i - 3) = true then some c else str[i]?

/-! ## `append_videoflip` (lines 193-248) -/

/-- The enum `videoflip_e` of `video_renderer.h`. -/
inductive videoflip_t where
  | NONE
  | LEFT
  | RIGHT
  | INVERT
  | VFLIP
  | HFLIP
deriving DecidableEq, Repr

/-- The function `append_videoflip`: the launch description after the call, for the
values `*flip` and `*rot`. -/
def append_videoflip (launch : List Char) (flip rot : videoflip_t) : List Char :=
  match flip with
  | .INVERT =>
    match rot with
    | .LEFT => launch ++ "videoflip video-direction=GST_VIDEO_ORIENTATION_90R ! ".toList
    | .RIGHT => launch ++ "videoflip video-direction=GST_VIDEO_ORIENTATION_90L ! ".toList
    | _ => launch ++ "videoflip video-direction=GST_VIDEO_ORIENTATION_180 ! ".toList
  | .HFLIP =>
    match rot with
    | .LEFT => launch ++ "videoflip video-direction=GST_VIDEO_ORIENTATION_UL_LR ! ".toList
    | .RIGHT => launch ++ "videoflip video-direction=GST_VIDEO_ORIENTATION_UR_LL ! ".toList
    | _ => launch ++ "videoflip video-direction=GST_VIDEO_ORIENTATION_HORIZ ! ".toList
  | .VFLIP =>
    match rot with
    | .LEFT => launch ++ "videoflip video-direction=GST_VIDEO_ORIENTATION_UR_LL ! ".toList
    | .RIGHT => launch ++ "videoflip video-direction=GST_VIDEO_ORIENTATION_UL_LR ! ".toList
    | _ => launch ++ "videoflip video-direction=GST_VIDEO_ORIENTATION_VERT ! ".toList
  | _ =>
    match rot with
    | .LEFT => launch ++ "videoflip video-direction=GST_VIDEO_ORIENTATION_90L ! ".toList
    | .RIGHT => launch ++ "videoflip video-direction=GST_VIDEO_ORIENTATION_90R ! ".toList
    | _ => launch

/-- The corners of the picture: upper left, upper right, lower right, lower left. -/
inductive Corner where
  | UL
  | UR
  | LR
  | LL
deriving DecidableEq, Repr

/-- A symmetry of the square, given by the corner to which the content of each
corner is moved. -/
structure Symmetry where
  ul : Corner
  ur : Corner
  lr : Corner
  ll : Corner
deriving DecidableEq, Repr

/-- The corner to which a symmetry moves the content of corner `c`. -/
def Symmetry.apply (f : Symmetry) (c : Corner) : Corner :=
  match c with
  | .UL => f.ul
  | .UR => f.ur
  | .LR => f.lr
  | .LL => f.ll

/-- The composition of two symmetries: `f` first, then `g`. -/
def Symmetry.followed_by (f g : Symmetry) : Symmetry :=
  { ul := g.apply f.ul, ur := g.apply f.ur, lr := g.apply f.lr, ll := g.apply f.ll }

/-- The identity: every corner stays. -/
def Symmetry.identity : Symmetry :=
  { ul := Corner.UL, ur := Corner.UR, lr := Corner.LR, ll := Corner.LL }

/-- The quarter turn counter-clockwise: upper left goes to lower left, lower left to
lower right, lower right to upper right, upper right to upper left. -/
def Symmetry.quarter_ccw : Symmetry :=
  { ul := Corner.LL, ll := Corner.LR, lr := Corner.UR, ur := Corner.UL }

/-- The quarter turn clockwise: upper left goes to upper right, upper right to lower
right, lower right to lower left, lower left to upper left. -/
def Symmetry.quarter_cw : Symmetry :=
  { ul := Corner.UR, ur := Corner.LR, lr := Corner.LL, ll := Corner.UL }

/-- The half turn: opposite corners are exchanged. -/
def Symmetry.half_turn : Symmetry :=
  { ul := Corner.LR, lr := Corner.UL, ur := Corner.LL, ll := Corner.UR }

/-- The horizontal mirror: left and right are exchanged. -/
def Symmetry.mirror_horizontal : Symmetry :=
  { ul := Corner.UR, ur := Corner.UL, ll := Corner.LR, lr := Corner.LL }

/-- The vertical mirror: top and bottom are exchanged. -/
def Symmetry.mirror_vertical : Symmetry :=
  { ul := Corner.LL, ll := Corner.UL, ur := Corner.LR, lr := Corner.UR }

/-- The mirror across the diagonal from upper left to lower right: these two corners
stay, the other two are exchanged. -/
def Symmetry.mirror_ul_lr : Symmetry :=
  { ul := Corner.UL, lr := Corner.LR, ur := Corner.LL, ll := Corner.UR }

/-- The mirror across the diagonal from upper right to lower left: these two corners
stay, the other two are exchanged. -/
def Symmetry.mirror_ur_ll : Symmetry :=
  { ur := Corner.UR, ll := Corner.LL, ul := Corner.LR, lr := Corner.UL }

/-- The values of `video-direction` that `append_videoflip` writes. -/
inductive VideoDirection where
  | GST_VIDEO_ORIENTATION_90L
  | GST_VIDEO_ORIENTATION_90R
  | GST_VIDEO_ORIENTATION_180
  | GST_VIDEO_ORIENTATION_HORIZ
  | GST_VIDEO_ORIENTATION_VERT
  | GST_VIDEO_ORIENTATION_UL_LR
  | GST_VIDEO_ORIENTATION_UR_LL
deriving DecidableEq, Repr

/-- The symmetry a `video-direction` value is read as. -/
def VideoDirection.symmetry : VideoDirection → Symmetry
  | .GST_VIDEO_ORIENTATION_90L => Symmetry.quarter_ccw
  | .GST_VIDEO_ORIENTATION_90R => Symmetry.quarter_cw
  | .GST_VIDEO_ORIENTATION_180 => Symmetry.half_turn
  | .GST_VIDEO_ORIENTATION_HORIZ => Symmetry.mirror_horizontal
  | .GST_VIDEO_ORIENTATION_VERT => Symmetry.mirror_vertical
  | .GST_VIDEO_ORIENTATION_UL_LR => Symmetry.mirror_ul_lr
  | .GST_VIDEO_ORIENTATION_UR_LL => Symmetry.mirror_ur_ll

/-- The text of the `videoflip` stage with a given `video-direction`. -/
def VideoDirection.stage : VideoDirection → List Char
  | .GST_VIDEO_ORIENTATION_90L => "videoflip video-direction=GST_VIDEO_ORIENTATION_90L ! ".toList
  | .GST_VIDEO_ORIENTATION_90R => "videoflip video-direction=GST_VIDEO_ORIENTATION_90R ! ".toList
  | .GST_VIDEO_ORIENTATION_180 => "videoflip video-direction=GST_VIDEO_ORIENTATION_180 ! ".toList
  | .GST_VIDEO_ORIENTATION_HORIZ =>
    "videoflip video-direction=GST_VIDEO_ORIENTATION_HORIZ ! ".toList
  | .GST_VIDEO_ORIENTATION_VERT => "videoflip video-direction=GST_VIDEO_ORIENTATION_VERT ! ".toList
  | .GST_VIDEO_ORIENTATION_UL_LR =>
    "videoflip video-direction=GST_VIDEO_ORIENTATION_UL_LR ! ".toList
  | .GST_VIDEO_ORIENTATION_UR_LL =>
    "videoflip video-direction=GST_VIDEO_ORIENTATION_UR_LL ! ".toList

/-- The symmetry the flip argument stands for: `INVERT` the half turn, `HFLIP` the
horizontal mirror, `VFLIP` the vertical mirror, anything else the identity. -/
def spec_flip_symmetry : videoflip_t → Symmetry
  | .INVERT => Symmetry.half_turn
  | .HFLIP => Symmetry.mirror_horizontal
  | .VFLIP => Symmetry.mirror_vertical
  | _ => Symmetry.identity

/-- The symmetry the rotation argument stands for: `LEFT` the quarter turn
counter-clockwise, `RIGHT` the quarter turn clockwise, anything else the identity. -/
def spec_rot_symmetry : videoflip_t → Symmetry
  | .LEFT => Symmetry.quarter_ccw
  | .RIGHT => Symmetry.quarter_cw
  | _ => Symmetry.identity

/-- The composition the two arguments stand for: flip first, then rotate. -/
def spec_videoflip_symmetry (flip rot : videoflip_t) : Symmetry :=
  (spec_flip_symmetry flip).followed_by (spec_rot_symmetry rot)

/-! ## The calls of the module -/

/-- The function `video_renderer_size`: it writes the statics `width_source`,
`height_source`, `width` and `height`, none of which another function reads, and
logs one line; the statics of `State` stay. -/
def video_renderer_size (s : State) : Option (State × List Call) :=
  some (s, [Call.logger_log LogLevel.LOGGER_DEBUG])

/-- The function `video_renderer_flush`: its body is empty. -/
def video_renderer_flush (s : State) : Option (State × List Call) :=
  some (s, [])

/-- The value `video_reset_callback` returns: `(unsigned int)TRUE`, that is 1, at its
only `return`, which is reached whenever the body before it completes. -/
def video_reset_callback_return (s : State) (loop : Ptr) : Option Nat :=
  match video_reset_callback s loop with
  | none => none
  | some _ => some 1

/-- One call into the module: `video_renderer_init` again, one of the calls of `Op`,
or one of the remaining functions.  After a second `video_renderer_init` in mirror
mode the pointer `renderer` of the source still points to the block of the first one,
while the slot index of `State` then stands for the new block of that slot; the flag
`video_terminate` is read from neither.  The function `waiting_for_x11_window` reads
`hls_video` and answers `false`, writing nothing.  The function `video_renderer_listen` only
registers `gstreamer_pipeline_bus_callback` as the watch of a bus; the calls of that
watch are the `bus_callback` of `Op`. -/
inductive ModuleOp where
  | init (args : InitArgs) (eng : Engine)
  | op (o : Op)
  | seek (eng : Engine) (pos : Int)
  | playback_info (eng : Engine)
  | size
  | flush
  | waiting_for_x11_window
  | destroy (eng : Engine)

/-- Executes one call into the module.  After `video_renderer_destroy` the statics
are as before; the blocks they point to are freed. -/
def ModuleOp.exec (m : ModuleOp) (s : State) : Option (State × List Call) :=
  match m with
  | .init args eng => video_renderer_init args eng s
  | .op o => o.exec s
  | .seek eng pos => video_renderer_seek eng s pos
  | .playback_info eng =>
    match video_get_playback_info eng s with
    | none => none
    | some (s1, calls, _) => some (s1, calls)
  | .size => video_renderer_size s
  | .flush => video_renderer_flush s
  | .waiting_for_x11_window => some (s, [])
  | .destroy eng => some (s, video_renderer_destroy eng s)

/-- Executes a sequence of calls into the module from `s`, collecting the calls
issued. -/
def run_module (ops : List ModuleOp) (s : State) : Option (State × List Call) :=
  match ops with
  | [] => some (s, [])
  | m :: rest =>
    match m.exec s with
    | none => none
    | some (s1, c1) =>
      match run_module rest s1 with
      | none => none
      | some (s2, c2) => some (s2, c1 ++ c2)

/-! ## The sample states are reached -/

/-- The sample mirror states are the ones the code reaches from program start. -/
theorem sample_mirror_reached :
    (session InitArgs.mirror Engine.sample [Op.start Engine.sample]).map Prod.fst
        = some State.mirror_started
    ∧ (session InitArgs.mirror Engine.sample
        [Op.start Engine.sample, Op.choose_codec Engine.sample false]).map Prod.fst
        = some State.mirror_h264 := by
  constructor <;> rfl

/-- The sample on-demand state is the one the code reaches from program start. -/
theorem sample_on_demand_reached :
    (session InitArgs.on_demand Engine.sample [Op.start Engine.sample]).map Prod.fst
        = some State.on_demand_started := by
  rfl

/-! ## Codec switch -/

/-- The early return of `video_renderer_choose_codec`: the requested block is the
active one. -/
theorem choose_codec_same (eng : Engine) (s : State) (c : Bool)
    (hmirror : s.hls_video = false)
    (hsame : s.renderer = if c then s.renderer_type_ptr 1 else s.renderer_type_ptr 0) :
    video_renderer_choose_codec eng s c = some (s, []) := by
  unfold video_renderer_choose_codec
  simp [hmirror, hsame]

/-- After a successful `video_renderer_choose_codec` the requested block is the
active one and the session is still in mirror mode. -/
theorem choose_codec_selects (eng : Engine) (s s1 : State) (c : Bool) (calls : List Call)
    (h : video_renderer_choose_codec eng s c = some (s1, calls)) :
    s1.hls_video = false
    ∧ s1.renderer = if c then s1.renderer_type_ptr 1 else s1.renderer_type_ptr 0 := by
  obtain ⟨bt, fp, ds, av, hv, ld, vt, rd, r0, r1, n⟩ := s
  cases hv <;> cases c <;> rcases rd with _ | _ | _ | k <;> cases r0 <;> cases r1 <;>
    simp [video_renderer_choose_codec, State.renderer_type_ptr, State.renderer_type,
      State.deref, State.set_renderer_type] at h <;>
    obtain ⟨rfl, rfl⟩ := h <;>
    simp [State.renderer_type_ptr, State.renderer_type]

/-- In mirror mode, with a valid `renderer` and an existing requested block,
`video_renderer_choose_codec` returns. -/
theorem choose_codec_returns (eng : Engine) (s : State) (c : Bool)
    (hmirror : s.hls_video = false)
    (hinst : (s.renderer_type (if c then 1 else 0)).isSome = true)
    (hvalid : s.renderer_valid = true) :
    ∃ s1 calls, video_renderer_choose_codec eng s c = some (s1, calls) := by
  obtain ⟨bt, fp, ds, av, hv, ld, vt, rd, r0, r1, n⟩ := s
  simp only at hmirror
  subst hmirror
  cases c <;> rcases rd with _ | _ | _ | k <;> cases r0 <;> cases r1 <;>
    simp [State.renderer_type, State.renderer_valid] at hinst hvalid <;>
    simp [video_renderer_choose_codec, State.renderer_type_ptr, State.renderer_type,
      State.deref, State.set_renderer_type]

/-- C1: in a mirror-mode state, for a codec choice whose instance exists, a second
`video_renderer_choose_codec` with the same choice returns the state of the first
call and issues no call at all (no end-of-stream, no bus flushing, no state request,
no read of the clock base), whatever the engine answers; two calls in a row give the
same state and trace as one. -/
theorem choose_codec_twice_is_once (eng1 eng2 : Engine) (s : State) (c : Bool)
    (hmirror : s.hls_video = false)
    (hinst : (s.renderer_type (if c then 1 else 0)).isSome = true)
    (hvalid : s.renderer_valid = true) :
    ∃ s1 calls,
      video_renderer_choose_codec eng1 s c = some (s1, calls)
      ∧ video_renderer_choose_codec eng2 s1 c = some (s1, [])
      ∧ run [Op.choose_codec eng1 c, Op.choose_codec eng2 c] s = some (s1, calls)
      ∧ run [Op.choose_codec eng1 c] s = some (s1, calls) := by
  obtain ⟨s1, calls, h1⟩ := choose_codec_returns eng1 s c hmirror hinst hvalid
  obtain ⟨hm1, hsel⟩ := choose_codec_selects eng1 s s1 c calls h1
  have h2 := choose_codec_same eng2 s1 c hm1 hsel
  refine ⟨s1, calls, h1, h2, ?_, ?_⟩
  · simp [run, Op.exec, h1, h2]
  · simp [run, Op.exec, h1]

/-- Witness of C1 on the sample mirror session with h264 active and h265 requested. -/
theorem choose_codec_twice_is_once_witness :
    State.mirror_h264.hls_video = false
    ∧ (State.mirror_h264.renderer_type (if true then 1 else 0)).isSome = true
    ∧ State.mirror_h264.renderer_valid = true
    ∧ ∃ s1 calls,
      video_renderer_choose_codec Engine.sample State.mirror_h264 true = some (s1, calls)
      ∧ video_renderer_choose_codec Engine.sample s1 true = some (s1, [])
      ∧ run [Op.choose_codec Engine.sample true, Op.choose_codec Engine.sample true]
          State.mirror_h264 = some (s1, calls)
      ∧ run [Op.choose_codec Engine.sample true] State.mirror_h264 = some (s1, calls) :=
  ⟨by decide, by decide, by decide,
   choose_codec_twice_is_once Engine.sample Engine.sample State.mirror_h264 true
     (by decide) (by decide) (by decide)⟩

/-- C2: in a two-codec mirror-mode state, `video_renderer_choose_codec` for block B
(slot 1 if `c`, else slot 0) while the other block A is active makes B active, sets
the clock base to the 64-bit base time the engine reports for B's endpoint, sets A's
pending flag and changes nothing else; the calls are the read of B's base time, one
end-of-stream on A's endpoint, A's bus set flushing and one null-state request on A's
pipeline, so no state request goes to B's pipeline and nothing is released.  With no
active block only `renderer` and the clock base change and only the base time is
read. -/
theorem choose_codec_swap (eng : Engine) (s : State) (c : Bool) (A B : video_renderer_s)
    (hmirror : s.hls_video = false)
    (hA : s.renderer_type (if c then 0 else 1) = some A)
    (hB : s.renderer_type (if c then 1 else 0) = some B)
    (hpipe : A.pipeline ≠ B.pipeline) :
    (s.renderer = some (if c then 0 else 1) →
      ∃ s1 calls,
        video_renderer_choose_codec eng s c = some (s1, calls)
        ∧ s1 = ({ s with
                   renderer := some (if c then 1 else 0)
                   gst_video_pipeline_base_time :=
                     eng.gst_element_get_base_time B.appsrc % 2 ^ 64 }).set_renderer_type
                 (if c then 0 else 1) { A with state_pending := true }
        ∧ calls = [Call.gst_element_get_base_time B.appsrc,
                   Call.gst_app_src_end_of_stream A.appsrc,
                   Call.gst_bus_set_flushing A.bus true,
                   Call.gst_element_set_state A.pipeline GstState.NULL]
        ∧ s1.renderer = some (if c then 1 else 0)
        ∧ s1.gst_video_pipeline_base_time = eng.gst_element_get_base_time B.appsrc % 2 ^ 64
        ∧ s1.renderer_type (if c then 0 else 1) = some { A with state_pending := true }
        ∧ s1.renderer_type (if c then 1 else 0) = some B
        ∧ (∀ st, Call.gst_element_set_state B.pipeline st ∉ calls)
        ∧ (∀ o, Call.gst_object_unref o ∉ calls))
    ∧ (s.renderer = none →
        video_renderer_choose_codec eng s c
          = some ({ s with
                     renderer := some (if c then 1 else 0)
                     gst_video_pipeline_base_time :=
                       eng.gst_element_get_base_time B.appsrc % 2 ^ 64 },
                  [Call.gst_element_get_base_time B.appsrc])) := by
  obtain ⟨bt, fp, ds, av, hv, ld, vt, rd, r0, r1, n⟩ := s
  simp only at hmirror
  subst hmirror
  cases c <;> simp [State.renderer_type] at hA hB <;> subst hA <;> subst hB <;>
    refine ⟨fun hr => ?_, fun hr => ?_⟩ <;> simp only at hr <;> subst hr
  all_goals first
    | (refine ⟨_, _, ?_, rfl, rfl, ?_⟩ <;>
        simp [video_renderer_choose_codec, State.renderer_type_ptr, State.renderer_type,
          State.deref, State.set_renderer_type, Ne.symm hpipe])
    | simp [video_renderer_choose_codec, State.renderer_type_ptr, State.renderer_type,
        State.deref, State.set_renderer_type]

/-- Witness of C2 on the sample mirror session: h264 active, h265 requested. -/
theorem choose_codec_swap_witness :
    State.mirror_h264.hls_video = false
    ∧ State.mirror_h264.renderer_type (if true then 0 else 1) = some video_renderer_s.sample_h264
    ∧ State.mirror_h264.renderer_type (if true then 1 else 0) = some video_renderer_s.sample_h265
    ∧ video_renderer_s.sample_h264.pipeline ≠ video_renderer_s.sample_h265.pipeline
    ∧ State.mirror_h264.renderer = some (if true then 0 else 1)
    ∧ video_renderer_choose_codec Engine.sample State.mirror_h264 true
        = some ({ State.mirror_h264 with
                   renderer := some 1
                   gst_video_pipeline_base_time := 1021
                   renderer_type_0 :=
                     some { video_renderer_s.sample_h264 with state_pending := true } },
                [Call.gst_element_get_base_time (some 21),
                 Call.gst_app_src_end_of_stream (some 20),
                 Call.gst_bus_set_flushing (some 110) true,
                 Call.gst_element_set_state (some 10) GstState.NULL]) := by
  have h := (choose_codec_swap Engine.sample State.mirror_h264 true
    video_renderer_s.sample_h264 video_renderer_s.sample_h265
    (by decide) (by decide) (by decide) (by decide)).1 (by decide)
  obtain ⟨s1, calls, hrun, hs1, hcalls, _⟩ := h
  refine ⟨by decide, by decide, by decide, by decide, by decide, ?_⟩
  rw [hrun, hs1, hcalls]
  rfl

/-! ## Frame injection -/

/-- C4 (evaluation): in the sample on-demand session, whose single block has no
endpoint, `video_renderer_render_buffer` with a payload whose first byte is 0 calls
`gst_app_src_push_buffer` with a `NULL` endpoint. -/
theorem render_buffer_on_demand_pushes :
    (session InitArgs.on_demand Engine.sample [Op.start Engine.sample]).map Prod.fst
        = some State.on_demand_started
    ∧ State.on_demand_started.hls_video = true
    ∧ State.on_demand_started.deref State.on_demand_started.renderer
        = some video_renderer_s.sample_hls
    ∧ video_renderer_s.sample_hls.appsrc = none
    ∧ video_renderer_render_buffer State.on_demand_started [0, 1, 2] 5000
        = some (State.on_demand_started,
            [Call.gst_app_src_push_buffer none
              { data := [0, 1, 2], pts := GST_CLOCK_TIME_NONE }]) := by
  refine ⟨rfl, rfl, rfl, rfl, rfl⟩

/-- The two `if (do_sync)` branches of `video_renderer_render_buffer`, in a state
with `do_sync` set (no session reaches one: `do_sync` is never assigned), for an
active block with an endpoint, a payload whose first byte is 0 and a 64-bit timestamp
`ntp_time`: if the clock base is at most `ntp_time`, one buffer is pushed with
presentation time `ntp_time - base`; if `ntp_time` is below the base nothing is
pushed, one error is logged and the state is unchanged. -/
theorem render_buffer_do_sync_branch (s : State) (i : Nat) (r : video_renderer_s) (a : Nat)
    (rest : List Nat) (ntp_time : Nat)
    (hsync : s.do_sync = true)
    (hactive : s.renderer = some i)
    (hr : s.renderer_type i = some r)
    (hsrc : r.appsrc = some a)
    (hu64 : ntp_time < 2 ^ 64) :
    (s.gst_video_pipeline_base_time ≤ ntp_time →
      video_renderer_render_buffer s (0 :: rest) ntp_time
          = some ({ s with first_packet := false },
              (if s.first_packet then [Call.logger_log LogLevel.LOGGER_INFO] else [])
                ++ [Call.gst_app_src_push_buffer (some a)
                      { data := 0 :: rest, pts := ntp_time - s.gst_video_pipeline_base_time }])
      ∧ ntp_time - s.gst_video_pipeline_base_time + s.gst_video_pipeline_base_time = ntp_time
      ∧ ntp_time - s.gst_video_pipeline_base_time < 2 ^ 64)
    ∧ (ntp_time < s.gst_video_pipeline_base_time →
        video_renderer_render_buffer s (0 :: rest) ntp_time
          = some (s, [Call.logger_log LogLevel.LOGGER_ERR])) := by
  have hmod : ntp_time % 18446744073709551616 = ntp_time :=
    Nat.mod_eq_of_lt (by norm_num at hu64; exact hu64)
  obtain ⟨bt, fp, ds, av, hv, ld, vt, rd, r0, r1, n⟩ := s
  simp only at hsync hactive
  subst hsync
  subst hactive
  refine ⟨fun hle => ⟨?_, Nat.sub_add_cancel hle, by omega⟩, fun hlt => ?_⟩
  · have hnlt : ¬ ntp_time < bt := Nat.not_lt.mpr hle
    rcases i with _ | _ | k <;> simp [State.renderer_type] at hr <;> subst hr <;>
      simp [video_renderer_render_buffer, hmod, hnlt, State.deref, State.renderer_type, hsrc]
  · simp only at hlt
    simp [video_renderer_render_buffer, hmod, hlt]

/-- C7: for a payload whose first byte is non-zero, `video_renderer_render_buffer`
returns the state unchanged and its only call is one error log (nothing is pushed);
so a frame with first byte 0 that follows is handled exactly as without the bad
frame, the session trace differing by that one log entry. -/
theorem render_buffer_bad_flag (s : State) (d0 : Nat) (rest : List Nat) (ntp_time : Nat)
    (hbad : d0 ≠ 0) :
    video_renderer_render_buffer s (d0 :: rest) ntp_time
        = some (s, [Call.logger_log LogLevel.LOGGER_ERR])
    ∧ ∀ (good : List Nat) (ntp2 : Nat),
        run [Op.render_buffer (d0 :: rest) ntp_time, Op.render_buffer (0 :: good) ntp2] s
          = (run [Op.render_buffer (0 :: good) ntp2] s).map
              (fun p => (p.1, Call.logger_log LogLevel.LOGGER_ERR :: p.2)) := by
  have h1 : video_renderer_render_buffer s (d0 :: rest) ntp_time
      = some (s, [Call.logger_log LogLevel.LOGGER_ERR]) := by
    unfold video_renderer_render_buffer
    by_cases hc : (s.do_sync && decide (ntp_time % 2 ^ 64 < s.gst_video_pipeline_base_time)) = true
    · rw [if_pos hc]
    · rw [if_neg hc]
      simp [hbad]
  refine ⟨h1, fun good ntp2 => ?_⟩
  simp only [run, Op.exec, h1]
  cases video_renderer_render_buffer s (0 :: good) ntp2 with
  | none => rfl
  | some p => rfl

/-- Witness of C7: a frame with decryption flag 1 in the sample mirror session. -/
theorem render_buffer_bad_flag_witness :
    (1 : Nat) ≠ 0
    ∧ video_renderer_render_buffer State.mirror_h264 [1, 2, 3] 5000
        = some (State.mirror_h264, [Call.logger_log LogLevel.LOGGER_ERR]) :=
  ⟨by decide, (render_buffer_bad_flag State.mirror_h264 1 [2, 3] 5000 (by decide)).1⟩

/-! ## Bus events -/

/-- Reading a slot other than the one written. -/
theorem renderer_type_set_other (s : State) (i j : Nat) (r : video_renderer_s) (h : j ≠ i) :
    (s.set_renderer_type i r).renderer_type j = s.renderer_type j := by
  rcases i with _ | _ | i <;> rcases j with _ | _ | j <;>
    simp_all [State.set_renderer_type, State.renderer_type]

/-- Reading the slot written, when it held a block. -/
theorem renderer_type_set_same (s : State) (i : Nat) (r0 r : video_renderer_s)
    (h : s.renderer_type i = some r0) :
    (s.set_renderer_type i r).renderer_type i = some r := by
  rcases i with _ | _ | i <;> simp_all [State.set_renderer_type, State.renderer_type]

/-- Writing a slot leaves `renderer` alone. -/
theorem renderer_set_renderer_type (s : State) (i : Nat) (r : video_renderer_s) :
    (s.set_renderer_type i r).renderer = s.renderer := by
  rcases i with _ | _ | i <;> rfl

/-- The scan of the callback finds the owning slot. -/
theorem bus_callback_find_owner (s : State) (bus : Ptr) (i : Nat)
    (hown : s.bus_owner bus i = true) :
    bus_callback_find s bus s.n_renderers 0 = some (some i) := by
  obtain ⟨bt, fp, ds, av, hv, ld, vt, rd, r0, r1, n⟩ := s
  rcases i with _ | _ | i
  · rcases n with _ | n
    · simp [State.bus_owner] at hown
    · cases r0 <;> simp_all [State.bus_owner, State.renderer_type, bus_callback_find]
  · rcases n with _ | _ | n
    · simp [State.bus_owner] at hown
    · simp [State.bus_owner] at hown
    · cases r0 <;> cases r1 <;>
        simp_all [State.bus_owner, State.renderer_type, bus_callback_find, List.range_succ]
  · simp [State.bus_owner, State.renderer_type] at hown

/-- Writing back the owning slot with the same bus keeps the owner. -/
theorem bus_owner_set (s : State) (bus : Ptr) (i : Nat) (r r2 : video_renderer_s)
    (hown : s.bus_owner bus i = true) (hr : s.renderer_type i = some r)
    (hbus : r2.bus = r.bus) :
    (s.set_renderer_type i r2).bus_owner bus i = true := by
  obtain ⟨bt, fp, ds, av, hv, ld, vt, rd, r0, r1, n⟩ := s
  rcases i with _ | _ | i
  · simp_all [State.bus_owner, State.renderer_type, State.set_renderer_type]
  · cases r0 <;>
      simp_all [State.bus_owner, State.renderer_type, State.set_renderer_type, List.range_succ]
  · simp [State.renderer_type] at hr

/-- The bus of the owning block is the bus of the event. -/
theorem bus_owner_bus (s : State) (bus : Ptr) (i : Nat) (r : video_renderer_s)
    (hown : s.bus_owner bus i = true) (hr : s.renderer_type i = some r) : r.bus = bus := by
  simp [State.bus_owner, hr] at hown
  exact hown.1.2

/-- The callback on the bus of slot `i`: the debug output, then the `switch`. -/
theorem bus_callback_owner (eng : Engine) (s : State) (bus : Ptr) (i : Nat)
    (r : video_renderer_s) (message : GstMessage) (loop : Ptr)
    (hown : s.bus_owner bus i = true)
    (hr : s.renderer_type i = some r) :
    gstreamer_pipeline_bus_callback eng s bus message loop
      = some ((bus_callback_switch eng s i r bus message loop).1,
          ((if s.logger_debug then [Call.g_print] else [])
            ++ (if s.logger_debug && s.hls_video then
                  [Call.gst_element_query_position r.pipeline, Call.g_print]
                else []))
          ++ (bus_callback_switch eng s i r bus message loop).2) := by
  simp only [gstreamer_pipeline_bus_callback, bus_callback_find_owner s bus i hown, hr]

/-- C8: for an error event on the bus of slot `i` with block `r`, the callback
returns; the new state is the old one with `terminate` set in block `i` (so
`renderer` and every other block are unchanged); and its commands are, in order,
end-of-stream on `r`'s endpoint exactly when `r` has one, `r`'s bus set flushing,
one ready-state request for `r`'s pipeline and one request to quit the loop. -/
theorem bus_error_event (eng : Engine) (s : State) (bus : Ptr) (i : Nat)
    (r : video_renderer_s) (message : GstMessage) (loop : Ptr)
    (hown : s.bus_owner bus i = true)
    (hr : s.renderer_type i = some r)
    (htype : message.type = GstMessageType.GST_MESSAGE_ERROR) :
    ∃ s1 calls,
      gstreamer_pipeline_bus_callback eng s bus message loop = some (s1, calls)
      ∧ s1 = s.set_renderer_type i { r with terminate := true }
      ∧ calls.filter Call.is_command
          = (if r.appsrc.isSome then [Call.gst_app_src_end_of_stream r.appsrc] else [])
            ++ [Call.gst_bus_set_flushing r.bus true,
                Call.gst_element_set_state r.pipeline GstState.READY,
                Call.g_main_loop_quit loop]
      ∧ s1.renderer_type i = some { r with terminate := true }
      ∧ (∀ j, j ≠ i → s1.renderer_type j = s.renderer_type j)
      ∧ s1.renderer = s.renderer := by
  have hbus := bus_owner_bus s bus i r hown hr
  refine ⟨_, _, bus_callback_owner eng s bus i r message loop hown hr, ?_, ?_, ?_, ?_, ?_⟩
  · simp [bus_callback_switch, htype]
  · subst hbus
    simp only [bus_callback_switch, htype]
    split_ifs <;> simp [Call.is_command, List.filter]
  · simp only [bus_callback_switch, htype]
    exact renderer_type_set_same s i r _ hr
  · intro j hj
    simp only [bus_callback_switch, htype]
    exact renderer_type_set_other s i j _ hj
  · simp only [bus_callback_switch, htype]
    exact renderer_set_renderer_type s i _

/-- Witness of C8: an error on the bus of the h265 block of the sample mirror
session. -/
theorem bus_error_event_witness :
    State.mirror_h264.bus_owner (some 111) 1 = true
    ∧ State.mirror_h264.renderer_type 1 = some video_renderer_s.sample_h265
    ∧ (GstMessage.sample GstMessageType.GST_MESSAGE_ERROR 0).type
        = GstMessageType.GST_MESSAGE_ERROR
    ∧ ∃ s1 calls,
      gstreamer_pipeline_bus_callback Engine.sample State.mirror_h264 (some 111)
          (GstMessage.sample GstMessageType.GST_MESSAGE_ERROR 0) (some 7) = some (s1, calls)
      ∧ s1 = State.mirror_h264.set_renderer_type 1
              { video_renderer_s.sample_h265 with terminate := true }
      ∧ calls.filter Call.is_command
          = (if video_renderer_s.sample_h265.appsrc.isSome
              then [Call.gst_app_src_end_of_stream video_renderer_s.sample_h265.appsrc]
              else [])
            ++ [Call.gst_bus_set_flushing video_renderer_s.sample_h265.bus true,
                Call.gst_element_set_state video_renderer_s.sample_h265.pipeline GstState.READY,
                Call.g_main_loop_quit (some 7)]
      ∧ s1.renderer_type 1 = some { video_renderer_s.sample_h265 with terminate := true }
      ∧ (∀ j, j ≠ 1 → s1.renderer_type j = State.mirror_h264.renderer_type j)
      ∧ s1.renderer = State.mirror_h264.renderer :=
  ⟨by decide, by decide, by decide,
   bus_error_event Engine.sample State.mirror_h264 (some 111) 1 video_renderer_s.sample_h265
     (GstMessage.sample GstMessageType.GST_MESSAGE_ERROR 0) (some 7)
     (by decide) (by decide) (by decide)⟩

/-- C9: for an end-of-stream event on the bus of slot `i` with block `r`: in
on-demand mode the callback sets `terminate` in block `i` and its commands are
`r`'s bus set flushing, one ready-state request for `r`'s pipeline and one request
to quit the loop; in mirror mode it returns the state unchanged, calls no engine
function and does not ask the loop to quit. -/
theorem bus_eos_event (eng : Engine) (s : State) (bus : Ptr) (i : Nat)
    (r : video_renderer_s) (message : GstMessage) (loop : Ptr)
    (hown : s.bus_owner bus i = true)
    (hr : s.renderer_type i = some r)
    (htype : message.type = GstMessageType.GST_MESSAGE_EOS) :
    (s.hls_video = true →
      ∃ s1 calls,
        gstreamer_pipeline_bus_callback eng s bus message loop = some (s1, calls)
        ∧ s1 = s.set_renderer_type i { r with terminate := true }
        ∧ calls.filter Call.is_command
            = [Call.gst_bus_set_flushing r.bus true,
               Call.gst_element_set_state r.pipeline GstState.READY,
               Call.g_main_loop_quit loop]
        ∧ s1.renderer_type i = some { r with terminate := true })
    ∧ (s.hls_video = false →
      ∃ calls,
        gstreamer_pipeline_bus_callback eng s bus message loop = some (s, calls)
        ∧ calls.filter Call.is_engine_call = []
        ∧ calls.filter Call.is_command = []
        ∧ ∀ l, Call.g_main_loop_quit l ∉ calls) := by
  have hbus := bus_owner_bus s bus i r hown hr
  have hcb := bus_callback_owner eng s bus i r message loop hown hr
  subst hbus
  constructor
  · intro hhls
    refine ⟨_, _, hcb, ?_, ?_, ?_⟩
    · simp [bus_callback_switch, htype, hhls]
    · simp only [bus_callback_switch, htype, hhls]
      split_ifs <;> simp [Call.is_command, List.filter]
    · simp only [bus_callback_switch, htype, hhls, if_true]
      exact renderer_type_set_same s i r _ hr
  · intro hhls
    simp only [bus_callback_switch, htype, hhls] at hcb
    refine ⟨_, hcb, ?_, ?_, ?_⟩ <;>
      split_ifs <;> simp_all [Call.is_command, Call.is_engine_call, List.filter]

/-- Witness of C9: end-of-stream on the bus of the sample on-demand session. -/
theorem bus_eos_event_witness :
    State.on_demand_started.bus_owner (some 110) 0 = true
    ∧ State.on_demand_started.renderer_type 0 = some video_renderer_s.sample_hls
    ∧ (GstMessage.sample GstMessageType.GST_MESSAGE_EOS 0).type
        = GstMessageType.GST_MESSAGE_EOS
    ∧ State.on_demand_started.hls_video = true
    ∧ ∃ s1 calls,
        gstreamer_pipeline_bus_callback Engine.sample State.on_demand_started (some 110)
            (GstMessage.sample GstMessageType.GST_MESSAGE_EOS 0) (some 7) = some (s1, calls)
        ∧ s1 = State.on_demand_started.set_renderer_type 0
                { video_renderer_s.sample_hls with terminate := true }
        ∧ calls.filter Call.is_command
            = [Call.gst_bus_set_flushing video_renderer_s.sample_hls.bus true,
               Call.gst_element_set_state video_renderer_s.sample_hls.pipeline GstState.READY,
               Call.g_main_loop_quit (some 7)]
        ∧ s1.renderer_type 0 = some { video_renderer_s.sample_hls with terminate := true } :=
  ⟨by decide, by decide, by decide, by decide,
   (bus_eos_event Engine.sample State.on_demand_started (some 110) 0
     video_renderer_s.sample_hls (GstMessage.sample GstMessageType.GST_MESSAGE_EOS 0) (some 7)
     (by decide) (by decide) (by decide)).1 (by decide)⟩

/-- The state requests of two traces in sequence. -/
theorem state_requests_append (a b : List Call) :
    state_requests (a ++ b) = state_requests a ++ state_requests b := by
  induction a with
  | nil => rfl
  | cons c a ih => cases c <;> simp [state_requests, ih]

/-- Writing a slot leaves `hls_video` alone. -/
theorem hls_video_set_renderer_type (s : State) (i : Nat) (r : video_renderer_s) :
    (s.set_renderer_type i r).hls_video = s.hls_video := by
  rcases i with _ | _ | i <;> rfl

/-- One buffering event with a non-negative percentage in on-demand mode. -/
theorem bus_buffering_step (eng : Engine) (s : State) (bus : Ptr) (i : Nat)
    (r : video_renderer_s) (message : GstMessage) (loop : Ptr)
    (hown : s.bus_owner bus i = true)
    (hr : s.renderer_type i = some r)
    (htype : message.type = GstMessageType.GST_MESSAGE_BUFFERING)
    (hhls : s.hls_video = true)
    (hp : 0 ≤ message.percent) :
    ∃ calls,
      gstreamer_pipeline_bus_callback eng s bus message loop
        = some (s.set_renderer_type i { r with buffering_level := message.percent }, calls)
      ∧ state_requests calls
          = [(r.pipeline, if message.percent < 100 then GstState.PAUSED else GstState.PLAYING)]
      := by
  have hcb := bus_callback_owner eng s bus i r message loop hown hr
  simp only [bus_callback_switch, htype, hhls, hp, if_true] at hcb
  refine ⟨_, hcb, ?_⟩
  split_ifs <;> simp [state_requests]

/-- C10: in on-demand mode a buffering event with percentage `p >= 0` on the bus of
slot `i` with block `r` stores `p` in the block's `buffering_level` and issues exactly
one state request, to `r`'s pipeline: paused if `p < 100`, playing otherwise; the
events 40, 70, 100 in sequence yield the requests paused, paused, playing.  In mirror
mode a buffering event leaves the state unchanged and issues no state request and no
engine call. -/
theorem bus_buffering_event (eng eng2 eng3 : Engine) (s : State) (bus : Ptr) (i : Nat)
    (r : video_renderer_s) (message : GstMessage) (loop : Ptr)
    (hown : s.bus_owner bus i = true)
    (hr : s.renderer_type i = some r)
    (htype : message.type = GstMessageType.GST_MESSAGE_BUFFERING) :
    (s.hls_video = true → 0 ≤ message.percent →
      ∃ s1 calls,
        gstreamer_pipeline_bus_callback eng s bus message loop = some (s1, calls)
        ∧ s1 = s.set_renderer_type i { r with buffering_level := message.percent }
        ∧ s1.renderer_type i = some { r with buffering_level := message.percent }
        ∧ state_requests calls
            = [(r.pipeline,
                if message.percent < 100 then GstState.PAUSED else GstState.PLAYING)])
    ∧ (s.hls_video = true →
      ∃ s3 calls,
        run [Op.bus_callback eng bus { message with percent := 40 } loop,
             Op.bus_callback eng2 bus { message with percent := 70 } loop,
             Op.bus_callback eng3 bus { message with percent := 100 } loop] s
          = some (s3, calls)
        ∧ state_requests calls
            = [(r.pipeline, GstState.PAUSED), (r.pipeline, GstState.PAUSED),
               (r.pipeline, GstState.PLAYING)]
        ∧ s3.renderer_type i = some { r with buffering_level := 100 })
    ∧ (s.hls_video = false →
      ∃ calls,
        gstreamer_pipeline_bus_callback eng s bus message loop = some (s, calls)
        ∧ state_requests calls = []
        ∧ calls.filter Call.is_engine_call = []) := by
  refine ⟨fun hhls hp => ?_, fun hhls => ?_, fun hhls => ?_⟩
  · obtain ⟨calls, hcb, hreq⟩ := bus_buffering_step eng s bus i r message loop hown hr htype hhls hp
    exact ⟨_, calls, hcb, rfl, renderer_type_set_same s i r _ hr, hreq⟩
  · obtain ⟨c1, h1, q1⟩ := bus_buffering_step eng s bus i r { message with percent := 40 } loop
      hown hr htype hhls (by norm_num)
    have hown1 := bus_owner_set s bus i r { r with buffering_level := 40 } hown hr rfl
    have hr1 := renderer_type_set_same s i r { r with buffering_level := 40 } hr
    have hhls1 := (hls_video_set_renderer_type s i { r with buffering_level := 40 }).trans hhls
    obtain ⟨c2, h2, q2⟩ := bus_buffering_step eng2 _ bus i _ { message with percent := 70 } loop
      hown1 hr1 htype hhls1 (by norm_num)
    have hown2 := bus_owner_set _ bus i _ { r with buffering_level := 70 } hown1 hr1 rfl
    have hr2 := renderer_type_set_same _ i _ { r with buffering_level := 70 } hr1
    have hhls2 := (hls_video_set_renderer_type (s.set_renderer_type i
      { r with buffering_level := 40 }) i { r with buffering_level := 70 }).trans hhls1
    obtain ⟨c3, h3, q3⟩ := bus_buffering_step eng3 _ bus i _ { message with percent := 100 } loop
      hown2 hr2 htype hhls2 (by norm_num)
    have hr3 := renderer_type_set_same _ i _ { r with buffering_level := 100 } hr2
    simp only at h1 h2 h3 q1 q2 q3
    norm_num at q1 q2 q3
    refine ⟨_, c1 ++ (c2 ++ (c3 ++ [])), ?_, ?_, hr3⟩
    · simp only [run, Op.exec, h1, h2, h3]
    · simp [state_requests_append, q1, q2, q3, state_requests]
  · have hcb := bus_callback_owner eng s bus i r message loop hown hr
    simp only [bus_callback_switch, htype, hhls] at hcb
    refine ⟨_, hcb, ?_, ?_⟩ <;>
      split_ifs <;> simp_all [state_requests, Call.is_engine_call, List.filter]

/-- Witness of C10: buffering events on the bus of the sample on-demand session. -/
theorem bus_buffering_event_witness :
    State.on_demand_started.bus_owner (some 110) 0 = true
    ∧ State.on_demand_started.renderer_type 0 = some video_renderer_s.sample_hls
    ∧ (GstMessage.sample GstMessageType.GST_MESSAGE_BUFFERING 55).type
        = GstMessageType.GST_MESSAGE_BUFFERING
    ∧ State.on_demand_started.hls_video = true
    ∧ ∃ s3 calls,
        run [Op.bus_callback Engine.sample (some 110)
               (GstMessage.sample GstMessageType.GST_MESSAGE_BUFFERING 40) (some 7),
             Op.bus_callback Engine.sample (some 110)
               (GstMessage.sample GstMessageType.GST_MESSAGE_BUFFERING 70) (some 7),
             Op.bus_callback Engine.sample (some 110)
               (GstMessage.sample GstMessageType.GST_MESSAGE_BUFFERING 100) (some 7)]
            State.on_demand_started
          = some (s3, calls)
        ∧ state_requests calls
            = [(some 10, GstState.PAUSED), (some 10, GstState.PAUSED),
               (some 10, GstState.PLAYING)]
        ∧ s3.renderer_type 0 = some { video_renderer_s.sample_hls with buffering_level := 100 } :=
  ⟨by decide, by decide, by decide, by decide,
   (bus_buffering_event Engine.sample Engine.sample Engine.sample State.on_demand_started
     (some 110) 0 video_renderer_s.sample_hls
     (GstMessage.sample GstMessageType.GST_MESSAGE_BUFFERING 55) (some 7)
     (by decide) (by decide) (by decide)).2.1 (by decide)⟩

/-! ## What every call preserves -/

/-- Writing a slot leaves `do_sync` alone. -/
theorem do_sync_set_renderer_type (s : State) (i : Nat) (r : video_renderer_s) :
    (s.set_renderer_type i r).do_sync = s.do_sync := by
  rcases i with _ | _ | i <;> rfl

/-- Writing back a block with the same endpoint keeps the endpoints. -/
theorem endpoints_set_renderer_type (s : State) (i : Nat) (r r2 : video_renderer_s)
    (hr : s.renderer_type i = some r) (h : r2.appsrc = r.appsrc) :
    (s.set_renderer_type i r2).endpoints = s.endpoints := by
  rcases i with _ | _ | i <;>
    simp_all [State.set_renderer_type, State.renderer_type, State.endpoints]

/-- The `switch` of the callback pushes nothing and keeps `do_sync`, `renderer` and
the endpoints. -/
theorem bus_callback_switch_frame (eng : Engine) (s : State) (type : Nat)
    (r : video_renderer_s) (bus : Ptr) (message : GstMessage) (loop : Ptr)
    (hr : s.renderer_type type = some r) :
    (bus_callback_switch eng s type r bus message loop).1.do_sync = s.do_sync
    ∧ (bus_callback_switch eng s type r bus message loop).1.renderer = s.renderer
    ∧ (bus_callback_switch eng s type r bus message loop).1.endpoints = s.endpoints
    ∧ ∀ a b, Call.gst_app_src_push_buffer a b
        ∉ (bus_callback_switch eng s type r bus message loop).2 := by
  have hend : ∀ r2 : video_renderer_s, r2.appsrc = r.appsrc →
      (s.set_renderer_type type r2).endpoints = s.endpoints :=
    fun r2 h => endpoints_set_renderer_type s type r r2 hr h
  unfold bus_callback_switch
  cases message.type <;> simp only [] <;> (try split_ifs) <;>
    simp [do_sync_set_renderer_type, renderer_set_renderer_type, hend]

/-- The frame of `gstreamer_pipeline_bus_callback`. -/
theorem bus_callback_frame (eng : Engine) (s s1 : State) (bus : Ptr) (message : GstMessage)
    (loop : Ptr) (calls : List Call)
    (h : gstreamer_pipeline_bus_callback eng s bus message loop = some (s1, calls)) :
    Frame s s1 calls ∧ s1.renderer = s.renderer := by
  unfold gstreamer_pipeline_bus_callback at h
  rcases hf : bus_callback_find s bus s.n_renderers 0 with _ | _ | type
  · simp [hf] at h
  · simp [hf] at h
  · rcases hr : s.renderer_type type with _ | r
    · simp [hf, hr] at h
    · obtain ⟨h1, h2, h3, h4⟩ := bus_callback_switch_frame eng s type r bus message loop hr
      simp only [hf, hr, Option.some.injEq, Prod.mk.injEq] at h
      obtain ⟨rfl, rfl⟩ := h
      refine ⟨⟨h1, h3, ?_⟩, h2⟩
      intro a b hmem
      exfalso
      simp only [List.mem_append] at hmem
      rcases hmem with hmem | hmem
      · rcases hmem with hmem | hmem <;> split_ifs at hmem <;> simp at hmem
      · exact h4 a b hmem

/-- The frame of `video_renderer_render_buffer`. -/
theorem render_buffer_frame (s s1 : State) (data : List Nat) (ntp_time : Nat)
    (calls : List Call)
    (h : video_renderer_render_buffer s data ntp_time = some (s1, calls)) :
    Frame s s1 calls ∧ s1.renderer = s.renderer := by
  unfold video_renderer_render_buffer at h
  simp only [] at h
  by_cases hc : (s.do_sync && decide (ntp_time % 2 ^ 64 < s.gst_video_pipeline_base_time)) = true
  · rw [if_pos hc] at h
    simp only [Option.some.injEq, Prod.mk.injEq] at h
    obtain ⟨rfl, rfl⟩ := h
    simp [Frame]
  · rw [if_neg hc] at h
    cases data with
    | nil => simp at h
    | cons d0 rest =>
      simp only [] at h
      by_cases hd : d0 ≠ 0
      · rw [if_pos hd] at h
        simp only [Option.some.injEq, Prod.mk.injEq] at h
        obtain ⟨rfl, rfl⟩ := h
        simp [Frame]
      · rw [if_neg hd] at h
        have hderef : ({ s with first_packet := false } : State).deref s.renderer
            = s.deref s.renderer := rfl
        rw [hderef] at h
        rcases hr : s.deref s.renderer with _ | r
        · simp [hr] at h
        · simp only [hr, Option.some.injEq, Prod.mk.injEq] at h
          obtain ⟨rfl, rfl⟩ := h
          refine ⟨⟨rfl, rfl, ?_⟩, rfl⟩
          intro a b hmem
          simp only [List.mem_append, List.mem_singleton, Call.gst_app_src_push_buffer.injEq]
            at hmem
          rcases hmem with hmem | ⟨rfl, rfl⟩
          · exfalso
            by_cases hfp : s.first_packet = true
            · simp [hfp] at hmem
            · simp [hfp] at hmem
          · exact ⟨⟨r, hr, rfl⟩, fun hs => by simp [hs]⟩

/-- The frame of `video_renderer_stop`. -/
theorem stop_frame (s s1 : State) (calls : List Call)
    (h : video_renderer_stop s = some (s1, calls)) :
    Frame s s1 calls ∧ s1.renderer = s.renderer := by
  unfold video_renderer_stop at h
  split at h
  · simp only [Option.some.injEq, Prod.mk.injEq] at h
    obtain ⟨rfl, rfl⟩ := h
    simp [Frame]
  · split at h
    · simp at h
    · simp only [Option.some.injEq, Prod.mk.injEq] at h
      obtain ⟨rfl, rfl⟩ := h
      refine ⟨⟨rfl, rfl, ?_⟩, rfl⟩
      intro a b hmem
      exfalso
      simp only [List.mem_append] at hmem
      rcases hmem with hmem | hmem
      · split_ifs at hmem <;> simp at hmem
      · simp at hmem

/-- The frame of `video_renderer_pause`. -/
theorem pause_frame (s s1 : State) (calls : List Call)
    (h : video_renderer_pause s = some (s1, calls)) :
    Frame s s1 calls ∧ s1.renderer = s.renderer := by
  unfold video_renderer_pause at h
  split at h
  · simp only [Option.some.injEq, Prod.mk.injEq] at h
    obtain ⟨rfl, rfl⟩ := h
    simp [Frame]
  · split at h
    · simp at h
    · simp only [Option.some.injEq, Prod.mk.injEq] at h
      obtain ⟨rfl, rfl⟩ := h
      simp [Frame]

/-- The frame of `video_renderer_resume`. -/
theorem resume_frame (eng : Engine) (s s1 : State) (calls : List Call)
    (h : video_renderer_resume eng s = some (s1, calls)) :
    Frame s s1 calls ∧ s1.renderer = s.renderer := by
  unfold video_renderer_resume at h
  split at h
  · simp only [Option.some.injEq, Prod.mk.injEq] at h
    obtain ⟨rfl, rfl⟩ := h
    simp [Frame]
  · split at h
    · simp at h
    · simp only [] at h
      split_ifs at h <;>
        simp only [Option.some.injEq, Prod.mk.injEq] at h <;>
        obtain ⟨rfl, rfl⟩ := h <;>
        simp [Frame, State.endpoints]

/-- The frame of `video_reset_callback`. -/
theorem reset_callback_frame (s s1 : State) (loop : Ptr) (calls : List Call)
    (h : video_reset_callback s loop = some (s1, calls)) :
    Frame s s1 calls ∧ s1.renderer = s.renderer := by
  unfold video_reset_callback at h
  simp only [] at h
  split_ifs at h
  · split at h
    · simp at h
    · simp only [Option.some.injEq, Prod.mk.injEq] at h
      obtain ⟨rfl, rfl⟩ := h
      refine ⟨⟨rfl, rfl, ?_⟩, rfl⟩
      intro a b hmem
      exfalso
      simp only [List.mem_append] at hmem
      rcases hmem with hmem | hmem
      · split_ifs at hmem <;> simp at hmem
      · simp at hmem
  · simp only [Option.some.injEq, Prod.mk.injEq] at h
    obtain ⟨rfl, rfl⟩ := h
    simp [Frame]

/-- The frame of `video_renderer_choose_codec`; the active block stays or becomes the
requested one. -/
theorem choose_codec_frame (eng : Engine) (s s1 : State) (c : Bool) (calls : List Call)
    (h : video_renderer_choose_codec eng s c = some (s1, calls)) :
    Frame s s1 calls
    ∧ (s1.renderer = s.renderer ∨ s1.renderer = some (if c then 1 else 0)) := by
  obtain ⟨bt, fp, ds, av, hv, ld, vt, rd, r0, r1, n⟩ := s
  cases hv <;> cases c <;> rcases rd with _ | _ | _ | k <;> cases r0 <;> cases r1 <;>
    simp [video_renderer_choose_codec, State.renderer_type_ptr, State.renderer_type,
      State.deref, State.set_renderer_type] at h <;>
    obtain ⟨rfl, rfl⟩ := h <;>
    simp [Frame, State.endpoints]

/-- One pass of the loop of `video_renderer_start` pushes nothing and keeps
`do_sync`, `renderer` and the endpoints. -/
theorem start_one_frame (eng : Engine) (i : Nat) (acc res : State × List Call)
    (h : video_renderer_start_one eng i acc = some res) :
    res.1.do_sync = acc.1.do_sync
    ∧ res.1.endpoints = acc.1.endpoints
    ∧ res.1.renderer = acc.1.renderer
    ∧ ∀ a b, Call.gst_app_src_push_buffer a b ∈ res.2 →
        Call.gst_app_src_push_buffer a b ∈ acc.2 := by
  unfold video_renderer_start_one at h
  rcases hr : acc.1.renderer_type i with _ | r
  · simp [hr] at h
  · simp only [hr, Option.some.injEq] at h
    subst h
    have hr1 : ∀ t : State, t.renderer_type_0 = acc.1.renderer_type_0 →
        t.renderer_type_1 = acc.1.renderer_type_1 → t.renderer_type i = some r := by
      intro t h0 h1
      rw [← hr]
      rcases i with _ | _ | i <;> simp [State.renderer_type, h0, h1]
    by_cases ha : r.appsrc.isSome = true
    · simp only [ha, if_true]
      have e := endpoints_set_renderer_type
        ({ acc.1 with gst_video_pipeline_base_time :=
            eng.gst_element_get_base_time r.appsrc % 2 ^ 64 }) i r
        { r with bus := eng.gst_element_get_bus r.pipeline } (hr1 _ rfl rfl) rfl
      refine ⟨do_sync_set_renderer_type _ i _, e, renderer_set_renderer_type _ i _, ?_⟩
      intro a b hmem
      simpa using hmem
    · simp only [ha, if_false]
      refine ⟨do_sync_set_renderer_type _ i _,
        endpoints_set_renderer_type _ i r _ hr rfl,
        renderer_set_renderer_type _ i _, ?_⟩
      intro a b hmem
      simpa using hmem

/-- The loop of `video_renderer_start` pushes nothing and keeps `do_sync`, `renderer`
and the endpoints. -/
theorem start_loop_frame (eng : Engine) (fuel : Nat) :
    ∀ (i : Nat) (acc res : State × List Call),
      video_renderer_start_loop eng fuel i acc = some res →
      res.1.do_sync = acc.1.do_sync
      ∧ res.1.endpoints = acc.1.endpoints
      ∧ res.1.renderer = acc.1.renderer
      ∧ ∀ a b, Call.gst_app_src_push_buffer a b ∈ res.2 →
          Call.gst_app_src_push_buffer a b ∈ acc.2 := by
  induction fuel with
  | zero =>
    intro i acc res h
    simp only [video_renderer_start_loop, Option.some.injEq] at h
    subst h
    exact ⟨rfl, rfl, rfl, fun _ _ hm => hm⟩
  | succ fuel ih =>
    intro i acc res h
    unfold video_renderer_start_loop at h
    rcases h1 : video_renderer_start_one eng i acc with _ | acc1
    · simp [h1] at h
    · simp only [h1] at h
      obtain ⟨a1, a2, a3, a4⟩ := start_one_frame eng i acc acc1 h1
      obtain ⟨b1, b2, b3, b4⟩ := ih (i + 1) acc1 res h
      exact ⟨b1.trans a1, b2.trans a2, b3.trans a3, fun a b hm => a4 a b (b4 a b hm)⟩

/-- The frame of `video_renderer_start`; the active block stays or becomes `NULL`. -/
theorem start_frame (eng : Engine) (s s1 : State) (calls : List Call)
    (h : video_renderer_start eng s = some (s1, calls)) :
    Frame s s1 calls ∧ (s1.renderer = s.renderer ∨ s1.renderer = none) := by
  unfold video_renderer_start at h
  by_cases hhls : s.hls_video = true
  · rw [if_pos hhls] at h
    rcases hrd : s.renderer with _ | i
    · simp [hrd] at h
    · rcases hr : s.renderer_type i with _ | r
      · simp [hrd, hr] at h
      · simp only [hrd, hr, Option.some.injEq, Prod.mk.injEq] at h
        obtain ⟨rfl, rfl⟩ := h
        refine ⟨⟨do_sync_set_renderer_type s i _, endpoints_set_renderer_type s i r _ hr rfl, ?_⟩,
          Or.inl ((renderer_set_renderer_type s i _).trans hrd)⟩
        intro a b hmem
        simp at hmem
  · rw [if_neg hhls] at h
    rcases hl : video_renderer_start_loop eng s.n_renderers 0 (s, []) with _ | res
    · simp [hl] at h
    · obtain ⟨t, c⟩ := res
      simp only [hl, Option.some.injEq, Prod.mk.injEq] at h
      obtain ⟨rfl, rfl⟩ := h
      obtain ⟨b1, b2, b3, b4⟩ := start_loop_frame eng s.n_renderers 0 (s, []) (t, c) hl
      refine ⟨⟨b1, b2, ?_⟩, Or.inr rfl⟩
      intro a b hmem
      have := b4 a b hmem
      simp at this

/-- Executing one call respects the frame; the active block stays, becomes `NULL`, or
becomes the block requested by a `video_renderer_choose_codec`. -/
theorem exec_frame (op : Op) (s s1 : State) (calls : List Call)
    (h : op.exec s = some (s1, calls)) :
    Frame s s1 calls
    ∧ (s1.renderer = s.renderer ∨ s1.renderer = none
        ∨ ∃ eng c, op = Op.choose_codec eng c ∧ s1.renderer = some (if c then 1 else 0)) := by
  cases op with
  | start eng =>
    obtain ⟨hf, hr⟩ := start_frame eng s s1 calls h
    exact ⟨hf, hr.elim Or.inl (fun x => Or.inr (Or.inl x))⟩
  | stop => exact ⟨(stop_frame s s1 calls h).1, Or.inl (stop_frame s s1 calls h).2⟩
  | pause => exact ⟨(pause_frame s s1 calls h).1, Or.inl (pause_frame s s1 calls h).2⟩
  | resume eng =>
    exact ⟨(resume_frame eng s s1 calls h).1, Or.inl (resume_frame eng s s1 calls h).2⟩
  | choose_codec eng c =>
    obtain ⟨hf, hr⟩ := choose_codec_frame eng s s1 c calls h
    exact ⟨hf, hr.elim Or.inl (fun x => Or.inr (Or.inr ⟨eng, c, rfl, x⟩))⟩
  | render_buffer data ntp_time =>
    exact ⟨(render_buffer_frame s s1 data ntp_time calls h).1,
      Or.inl (render_buffer_frame s s1 data ntp_time calls h).2⟩
  | bus_callback eng bus message loop =>
    exact ⟨(bus_callback_frame eng s s1 bus message loop calls h).1,
      Or.inl (bus_callback_frame eng s s1 bus message loop calls h).2⟩
  | reset_callback loop =>
    exact ⟨(reset_callback_frame s s1 loop calls h).1,
      Or.inl (reset_callback_frame s s1 loop calls h).2⟩

/-! ## Whole sessions -/

/-- The tail of a pass of `video_renderer_init` pushes nothing and keeps `do_sync`. -/
theorem init_ready_frame (eng : Engine) (i : Nat) (r : video_renderer_s)
    (acc : State × List Call) :
    (video_renderer_init_ready eng i r acc).1.do_sync = acc.1.do_sync
    ∧ ∀ a b, Call.gst_app_src_push_buffer a b ∈ (video_renderer_init_ready eng i r acc).2 →
        Call.gst_app_src_push_buffer a b ∈ acc.2 := by
  unfold video_renderer_init_ready
  simp only []
  split_ifs <;>
    refine ⟨by simp [do_sync_set_renderer_type], fun a b hmem => by simpa using hmem⟩

/-- One pass of the loop of `video_renderer_init` pushes nothing and keeps `do_sync`. -/
theorem init_one_frame (args : InitArgs) (eng : Engine) (i : Nat)
    (acc res : State × List Call)
    (h : video_renderer_init_one args eng i acc = some res) :
    res.1.do_sync = acc.1.do_sync
    ∧ ∀ a b, Call.gst_app_src_push_buffer a b ∈ res.2 →
        Call.gst_app_src_push_buffer a b ∈ acc.2 := by
  unfold video_renderer_init_one at h
  by_cases hi : 2 ≤ i
  · simp [hi] at h
  · rw [if_neg hi] at h
    by_cases hhls : acc.1.hls_video = true
    · rw [if_pos hhls] at h
      rcases hp : eng.gst_element_factory_make with _ | p
      · simp [hp] at h
      · simp only [hp, Option.some.injEq] at h
        subst h
        obtain ⟨h1, h2⟩ := init_ready_frame eng i
          { appsrc := none, pipeline := some p, bus := none, codec := Codec.hls,
            autovideo := acc.1.auto_videosink, state_pending := false, id := i,
            terminate := false, duration := 0, buffering_level := 0 }
          (acc.1, acc.2 ++
            (if strcmp_ne args.videosink "autovideosink".toList then
              (if eng.make_video_sink.isNone then [Call.logger_log LogLevel.LOGGER_ERR]
               else [Call.logger_log LogLevel.LOGGER_DEBUG])
             else []))
        refine ⟨h1, fun a b hmem => ?_⟩
        have h3 := h2 a b hmem
        simp only [List.mem_append] at h3
        rcases h3 with h3 | h3
        · exact h3
        · split_ifs at h3 <;> simp at h3
    · rw [if_neg hhls] at h
      rcases hp : eng.gst_parse_launch i with _ | p
      · simp [hp] at h
      · rcases ha : eng.gst_bin_get_by_name i with _ | e
        · simp [hp, ha] at h
        · simp only [hp, ha, Option.some.injEq] at h
          subst h
          obtain ⟨h1, h2⟩ := init_ready_frame eng i
            { appsrc := some e, pipeline := some p, bus := none,
              codec := if i = 0 then Codec.h264 else Codec.h265,
              autovideo := acc.1.auto_videosink, state_pending := false, id := i,
              terminate := false, duration := 0, buffering_level := 0 }
            (acc.1, acc.2 ++ [Call.logger_log LogLevel.LOGGER_DEBUG])
          refine ⟨h1, fun a b hmem => ?_⟩
          have h3 := h2 a b hmem
          simpa using h3

/-- The loop of `video_renderer_init` pushes nothing and keeps `do_sync`. -/
theorem init_loop_frame (args : InitArgs) (eng : Engine) (fuel : Nat) :
    ∀ (i : Nat) (acc res : State × List Call),
      video_renderer_init_loop args eng fuel i acc = some res →
      res.1.do_sync = acc.1.do_sync
      ∧ ∀ a b, Call.gst_app_src_push_buffer a b ∈ res.2 →
          Call.gst_app_src_push_buffer a b ∈ acc.2 := by
  induction fuel with
  | zero =>
    intro i acc res h
    simp only [video_renderer_init_loop, Option.some.injEq] at h
    subst h
    exact ⟨rfl, fun _ _ hm => hm⟩
  | succ fuel ih =>
    intro i acc res h
    unfold video_renderer_init_loop at h
    rcases h1 : video_renderer_init_one args eng i acc with _ | acc1
    · simp [h1] at h
    · simp only [h1] at h
      obtain ⟨a1, a2⟩ := init_one_frame args eng i acc acc1 h1
      obtain ⟨b1, b2⟩ := ih (i + 1) acc1 res h
      exact ⟨b1.trans a1, fun a b hm => a2 a b (b2 a b hm)⟩

/-- The function `video_renderer_init` never writes `do_sync` and pushes nothing. -/
theorem init_keeps_do_sync (args : InitArgs) (eng : Engine) (s s0 : State)
    (c0 : List Call) (h : video_renderer_init args eng s = some (s0, c0)) :
    s0.do_sync = s.do_sync ∧ ∀ a b, Call.gst_app_src_push_buffer a b ∉ c0 := by
  unfold video_renderer_init at h
  obtain ⟨h1, h2⟩ := init_loop_frame args eng _ 0 _ (s0, c0) h
  refine ⟨h1, fun a b hmem => ?_⟩
  have := h2 a b hmem
  simp at this

/-- No call after `video_renderer_init` writes `do_sync`; while it is off every
pushed buffer is without presentation time. -/
theorem run_keeps_do_sync (ops : List Op) :
    ∀ (s s1 : State) (calls : List Call), run ops s = some (s1, calls) →
      s1.do_sync = s.do_sync
      ∧ (s.do_sync = false → ∀ a b, Call.gst_app_src_push_buffer a b ∈ calls →
          b.pts = GST_CLOCK_TIME_NONE) := by
  induction ops with
  | nil =>
    intro s s1 calls h
    simp only [run, Option.some.injEq, Prod.mk.injEq] at h
    obtain ⟨rfl, rfl⟩ := h
    exact ⟨rfl, fun _ a b hm => by simp at hm⟩
  | cons op rest ih =>
    intro s s1 calls h
    unfold run at h
    rcases h1 : op.exec s with _ | ⟨t, c1⟩
    · simp [h1] at h
    · rcases h2 : run rest t with _ | ⟨u, c2⟩
      · simp [h1, h2] at h
      · simp only [h1, h2, Option.some.injEq, Prod.mk.injEq] at h
        obtain ⟨rfl, rfl⟩ := h
        obtain ⟨⟨f1, _, f3⟩, _⟩ := exec_frame op s t c1 h1
        obtain ⟨g1, g2⟩ := ih t u c2 h2
        refine ⟨g1.trans f1, fun hs a b hmem => ?_⟩
        rcases List.mem_append.mp hmem with hm | hm
        · exact (f3 a b hm).2 hs
        · exact g2 (f1.trans hs) a b hm

/-- C6 (what the code does): in every session, whatever `video_sync` is given to
`video_renderer_init`, `do_sync` stays off and every buffer pushed carries no
presentation time (`GST_BUFFER_PTS` is left at `GST_CLOCK_TIME_NONE`). -/
theorem session_pushes_without_pts (args : InitArgs) (eng : Engine) (ops : List Op)
    (s : State) (calls : List Call)
    (h : session args eng ops = some (s, calls)) :
    s.do_sync = false
    ∧ ∀ a b, Call.gst_app_src_push_buffer a b ∈ calls → b.pts = GST_CLOCK_TIME_NONE := by
  unfold session at h
  rcases h0 : video_renderer_init args eng State.initial with _ | ⟨s0, c0⟩
  · simp [h0] at h
  · rcases h1 : run ops s0 with _ | ⟨s1, c1⟩
    · simp [h0, h1] at h
    · simp only [h0, h1, Option.some.injEq, Prod.mk.injEq] at h
      obtain ⟨rfl, rfl⟩ := h
      obtain ⟨i1, i2⟩ := init_keeps_do_sync args eng State.initial s0 c0 h0
      have hs0 : s0.do_sync = false := i1
      obtain ⟨r1, r2⟩ := run_keeps_do_sync ops s0 s1 c1 h1
      refine ⟨r1.trans hs0, fun a b hmem => ?_⟩
      rcases List.mem_append.mp hmem with hm | hm
      · exact absurd hm (i2 a b)
      · exact r2 hs0 a b hm

/-- Witness of C6: a mirror session initialised with `video_sync = true`; the frame
with timestamp 5000 is pushed to the h264 endpoint without presentation time, though
the clock base is 1020. -/
theorem session_pushes_without_pts_witness :
    InitArgs.mirror.video_sync = true
    ∧ ∃ s calls,
        session InitArgs.mirror Engine.sample
          [Op.start Engine.sample, Op.choose_codec Engine.sample false,
           Op.render_buffer [0, 1, 2] 5000] = some (s, calls)
        ∧ s.gst_video_pipeline_base_time = 1020
        ∧ pushed_buffers calls
            = [(some 20, { data := [0, 1, 2], pts := GST_CLOCK_TIME_NONE })]
        ∧ s.do_sync = false
        ∧ ∀ a b, Call.gst_app_src_push_buffer a b ∈ calls → b.pts = GST_CLOCK_TIME_NONE := by
  refine ⟨rfl, _, _, rfl, rfl, rfl, ?_⟩
  exact session_pushes_without_pts InitArgs.mirror Engine.sample
    [Op.start Engine.sample, Op.choose_codec Engine.sample false,
     Op.render_buffer [0, 1, 2] 5000] _ _ rfl

/-- C5 (what the code does): in every state `s` a session reaches, whatever
`video_sync` was given to `video_renderer_init`, `do_sync` is off, and with an active
block `video_renderer_render_buffer` accepts a payload whose first byte is 0 at every
timestamp, also one below the clock base: it pushes exactly one buffer, to the
endpoint of the active block, without presentation time, logs no error, and clears
`first_packet`. -/
theorem session_accepts_frame_below_base (args : InitArgs) (eng : Engine) (ops : List Op)
    (s : State) (calls : List Call) (r : video_renderer_s) (rest : List Nat)
    (ntp_time : Nat)
    (h : session args eng ops = some (s, calls))
    (hr : s.deref s.renderer = some r) :
    s.do_sync = false
    ∧ video_renderer_render_buffer s (0 :: rest) ntp_time
        = some ({ s with first_packet := false },
            (if s.first_packet then [Call.logger_log LogLevel.LOGGER_INFO] else [])
              ++ [Call.gst_app_src_push_buffer r.appsrc
                    { data := 0 :: rest, pts := GST_CLOCK_TIME_NONE }])
    ∧ ∀ s1 out, video_renderer_render_buffer s (0 :: rest) ntp_time = some (s1, out) →
        pushed_buffers out = [(r.appsrc, { data := 0 :: rest, pts := GST_CLOCK_TIME_NONE })]
        ∧ Call.logger_log LogLevel.LOGGER_ERR ∉ out := by
  have hsync : s.do_sync = false := by
    unfold session at h
    rcases h0 : video_renderer_init args eng State.initial with _ | ⟨s0, c0⟩
    · simp [h0] at h
    · rcases h1 : run ops s0 with _ | ⟨s1, c1⟩
      · simp [h0, h1] at h
      · simp only [h0, h1, Option.some.injEq, Prod.mk.injEq] at h
        obtain ⟨rfl, _⟩ := h
        have hs0 : s0.do_sync = false := (init_keeps_do_sync args eng State.initial s0 c0 h0).1
        exact (run_keeps_do_sync ops s0 s1 c1 h1).1.trans hs0
  have hres : video_renderer_render_buffer s (0 :: rest) ntp_time
      = some ({ s with first_packet := false },
          (if s.first_packet then [Call.logger_log LogLevel.LOGGER_INFO] else [])
            ++ [Call.gst_app_src_push_buffer r.appsrc
                  { data := 0 :: rest, pts := GST_CLOCK_TIME_NONE }]) := by
    obtain ⟨bt, fp, ds, av, hv, ld, vt, rd, r0, r1, n⟩ := s
    simp only at hsync
    subst hsync
    have hd : State.deref
        { gst_video_pipeline_base_time := bt, first_packet := false, do_sync := false,
          auto_videosink := av, hls_video := hv, logger_debug := ld, video_terminate := vt,
          renderer := rd, renderer_type_0 := r0, renderer_type_1 := r1, n_renderers := n }
        rd = some r := by
      rw [← hr]
      rfl
    simp only [video_renderer_render_buffer, Bool.false_and, Bool.false_eq_true,
      if_false, ne_eq, not_true_eq_false, hd]
  refine ⟨hsync, hres, ?_⟩
  intro s1 out hout
  rw [hres] at hout
  simp only [Option.some.injEq, Prod.mk.injEq] at hout
  obtain ⟨_, rfl⟩ := hout
  cases s.first_packet <;> simp [pushed_buffers]

/-- C5 (failing input): a mirror session initialised with `video_sync = true`, started,
with h264 chosen, clock base 1020; the frame with timestamp 5, below the base, is
pushed to the h264 endpoint (20) without presentation time and no error is logged. -/
theorem session_accepts_frame_below_base_witness :
    InitArgs.mirror.video_sync = true
    ∧ ∃ s calls r,
        session InitArgs.mirror Engine.sample
          [Op.start Engine.sample, Op.choose_codec Engine.sample false] = some (s, calls)
        ∧ s.deref s.renderer = some r
        ∧ s.gst_video_pipeline_base_time = 1020
        ∧ r.appsrc = some 20
        ∧ s.do_sync = false
        ∧ video_renderer_render_buffer s [0, 1, 2] 5
            = some ({ s with first_packet := false },
                (if s.first_packet then [Call.logger_log LogLevel.LOGGER_INFO] else [])
                  ++ [Call.gst_app_src_push_buffer r.appsrc
                        { data := [0, 1, 2], pts := GST_CLOCK_TIME_NONE }])
        ∧ ∀ s1 out, video_renderer_render_buffer s [0, 1, 2] 5 = some (s1, out) →
            pushed_buffers out
              = [(r.appsrc, { data := [0, 1, 2], pts := GST_CLOCK_TIME_NONE })]
            ∧ Call.logger_log LogLevel.LOGGER_ERR ∉ out := by
  refine ⟨rfl, _, _, _, rfl, rfl, rfl, rfl, ?_⟩
  exact session_accepts_frame_below_base InitArgs.mirror Engine.sample
    [Op.start Engine.sample, Op.choose_codec Engine.sample false] _ _ _ [1, 2] 5 rfl rfl

/-- C3 (counterexample): in the sample mirror session the calls start, choose h264,
choose h265, choose h264, render one frame push a buffer to the h264 endpoint (20)
after end-of-stream was signalled to it by the first swap, and no ready-state request
for its pipeline (10) lies in between. -/
theorem push_after_eos_counterexample :
    ∃ s calls,
      session InitArgs.mirror Engine.sample
        [Op.start Engine.sample, Op.choose_codec Engine.sample false,
         Op.choose_codec Engine.sample true, Op.choose_codec Engine.sample false,
         Op.render_buffer [0, 1, 2] 5000] = some (s, calls)
      ∧ (s.renderer_type 0).map (fun r => (r.appsrc, r.pipeline)) = some (some 20, some 10)
      ∧ push_after_eos (some 20) (some 10) false calls = true :=
  ⟨_, _, rfl, rfl, rfl⟩

/-- The endpoints determine the endpoint of each slot. -/
theorem endpoint_at_of_endpoints (s t : State) (h : t.endpoints = s.endpoints) (j : Nat) :
    t.endpoint_at j = s.endpoint_at j := by
  simp only [State.endpoints, Prod.mk.injEq] at h
  rcases j with _ | _ | j <;> simp [State.endpoint_at, State.renderer_type, h.1, h.2]

/-- While slot `a` is not active and no `video_renderer_choose_codec` selects it, no
buffer is pushed to an endpoint `p` that no other slot has. -/
theorem run_no_push_inactive (a : Nat) (p : Ptr) (ops : List Op) :
    ∀ (s s2 : State) (calls : List Call),
      s.renderer ≠ some a →
      (∀ j, j ≠ a → s.endpoint_at j ≠ some p) →
      (∀ op ∈ ops, ∀ e c, op = Op.choose_codec e c → (if c then 1 else 0) ≠ a) →
      run ops s = some (s2, calls) →
      ∀ b, Call.gst_app_src_push_buffer p b ∉ calls := by
  induction ops with
  | nil =>
    intro s s2 calls _ _ _ h
    simp only [run, Option.some.injEq, Prod.mk.injEq] at h
    obtain ⟨rfl, rfl⟩ := h
    simp
  | cons op rest ih =>
    intro s s2 calls hna hep hops h b hmem
    unfold run at h
    rcases h1 : op.exec s with _ | ⟨t, c1⟩
    · simp [h1] at h
    · rcases h2 : run rest t with _ | ⟨u, c2⟩
      · simp [h1, h2] at h
      · simp only [h1, h2, Option.some.injEq, Prod.mk.injEq] at h
        obtain ⟨rfl, rfl⟩ := h
        obtain ⟨⟨_, f2, f3⟩, f4⟩ := exec_frame op s t c1 h1
        rcases List.mem_append.mp hmem with hm | hm
        · obtain ⟨⟨r, hr, hrp⟩, _⟩ := f3 p b hm
          rcases hrd : s.renderer with _ | j
          · simp [State.deref, hrd] at hr
          · have hj : j ≠ a := fun hja => hna (by rw [hrd, hja])
            apply hep j hj
            simp only [State.deref, hrd] at hr
            simp [State.endpoint_at, hr, hrp]
        · have hna2 : t.renderer ≠ some a := by
            rcases f4 with f | f | ⟨e, c, hop, f⟩
            · rw [f]; exact hna
            · rw [f]; simp
            · rw [f]
              intro hc
              exact hops op (List.mem_cons_self _ _) e c hop (Option.some.inj hc)
          have hep2 : ∀ j, j ≠ a → t.endpoint_at j ≠ some p := by
            intro j hj
            rw [endpoint_at_of_endpoints s t f2 j]
            exact hep j hj
          exact ih t u c2 hna2 hep2
            (fun o ho => hops o (List.mem_cons_of_mem _ ho)) h2 b hm

/-- C3 (amended): let block A be active in slot `a` (0 if `c`, else 1) and let
`video_renderer_choose_codec` switch to the other slot, whose endpoint differs from
A's.  Then end-of-stream is signalled to A's endpoint, and in every sequence of calls
that follows and contains no `video_renderer_choose_codec` selecting slot `a` again,
no buffer is pushed to A's endpoint. -/
theorem drained_block_gets_no_buffer (eng : Engine) (s0 s s2 : State) (c : Bool)
    (A : video_renderer_s) (calls0 calls : List Call) (ops : List Op)
    (hactive : s0.renderer = some (if c then 0 else 1))
    (hA : s0.renderer_type (if c then 0 else 1) = some A)
    (hdistinct : s0.endpoint_at (if c then 1 else 0) ≠ some A.appsrc)
    (hswap : video_renderer_choose_codec eng s0 c = some (s, calls0))
    (hops : ∀ op ∈ ops, ∀ e, op ≠ Op.choose_codec e (!c))
    (hrun : run ops s = some (s2, calls)) :
    Call.gst_app_src_end_of_stream A.appsrc ∈ calls0
    ∧ ∀ b, Call.gst_app_src_push_buffer A.appsrc b ∉ calls := by
  obtain ⟨⟨_, f2, _⟩, _⟩ := choose_codec_frame eng s0 s c calls0 hswap
  obtain ⟨_, hsel⟩ := choose_codec_selects eng s0 s c calls0 hswap
  constructor
  · obtain ⟨bt, fp, ds, av, hv, ld, vt, rd, r0, r1, n⟩ := s0
    simp only at hactive
    subst hactive
    cases hv <;> cases c <;> cases r0 <;> cases r1 <;>
      simp [State.renderer_type] at hA <;>
      simp [video_renderer_choose_codec, State.renderer_type_ptr, State.renderer_type,
        State.deref, State.set_renderer_type] at hswap <;>
      obtain ⟨rfl, rfl⟩ := hswap <;>
      simp [hA]
  · have hna : s.renderer ≠ some (if c then 0 else 1) := by
      rw [hsel]
      cases c <;> simp [State.renderer_type_ptr] <;> split <;> simp
    have hep : ∀ j, j ≠ (if c then 0 else 1) → s.endpoint_at j ≠ some A.appsrc := by
      intro j hj
      rw [endpoint_at_of_endpoints s0 s f2 j]
      rcases j with _ | _ | j
      · cases c
        · exact hdistinct
        · exact absurd rfl hj
      · cases c
        · exact absurd rfl hj
        · exact hdistinct
      · simp [State.endpoint_at, State.renderer_type]
    refine run_no_push_inactive (if c then 0 else 1) A.appsrc ops s s2 calls hna hep ?_ hrun
    intro op hop e c2 hc2
    have := hops op hop e
    subst hc2
    cases c <;> cases c2 <;> simp_all

/-- Witness of C3 (amended): in the sample mirror session h264 is active and h265 is
requested; the frames, the stop and the repeated choice of h265 that follow push to
the h265 endpoint (21) only. -/
theorem drained_block_gets_no_buffer_witness :
    State.mirror_h264.renderer = some (if true then 0 else 1)
    ∧ State.mirror_h264.renderer_type (if true then 0 else 1)
        = some video_renderer_s.sample_h264
    ∧ State.mirror_h264.endpoint_at (if true then 1 else 0)
        ≠ some video_renderer_s.sample_h264.appsrc
    ∧ ∃ s calls0 s2 calls,
        video_renderer_choose_codec Engine.sample State.mirror_h264 true = some (s, calls0)
        ∧ run [Op.render_buffer [0, 9] 6000, Op.stop, Op.choose_codec Engine.sample true,
               Op.render_buffer [0, 8] 7000] s = some (s2, calls)
        ∧ pushed_buffers calls
            = [(some 21, { data := [0, 9], pts := GST_CLOCK_TIME_NONE }),
               (some 21, { data := [0, 8], pts := GST_CLOCK_TIME_NONE })]
        ∧ Call.gst_app_src_end_of_stream video_renderer_s.sample_h264.appsrc ∈ calls0
        ∧ ∀ b, Call.gst_app_src_push_buffer video_renderer_s.sample_h264.appsrc b ∉ calls := by
  refine ⟨by decide, by decide, by decide, _, _, _, _, rfl, rfl, rfl, ?_⟩
  refine drained_block_gets_no_buffer Engine.sample State.mirror_h264 _ _ true
    video_renderer_s.sample_h264 _ _
    [Op.render_buffer [0, 9] 6000, Op.stop, Op.choose_codec Engine.sample true,
     Op.render_buffer [0, 8] 7000]
    (by decide) (by decide) (by decide) rfl ?_ rfl
  intro op hop e
  simp only [List.mem_cons, List.mem_singleton, List.not_mem_nil, or_false] at hop
  rcases hop with rfl | rfl | rfl | rfl <;> simp

/-! ## Sequences of buffering events -/

/-- One buffering event with a negative percentage in on-demand mode: nothing
happens. -/
theorem bus_buffering_step_neg (eng : Engine) (s : State) (bus : Ptr) (i : Nat)
    (r : video_renderer_s) (message : GstMessage) (loop : Ptr)
    (hown : s.bus_owner bus i = true)
    (hr : s.renderer_type i = some r)
    (htype : message.type = GstMessageType.GST_MESSAGE_BUFFERING)
    (hhls : s.hls_video = true)
    (hp : ¬ 0 ≤ message.percent) :
    ∃ calls,
      gstreamer_pipeline_bus_callback eng s bus message loop = some (s, calls)
      ∧ state_requests calls = [] := by
  have hcb := bus_callback_owner eng s bus i r message loop hown hr
  simp only [bus_callback_switch, htype, hhls, hp, if_true, if_false] at hcb
  refine ⟨_, hcb, ?_⟩
  split_ifs <;> simp [state_requests]

/-- The state requests of a run of buffering events on the bus of slot `i`. -/
theorem buffering_events_requests (eng : Engine) (bus : Ptr) (i : Nat)
    (message : GstMessage) (loop : Ptr)
    (htype : message.type = GstMessageType.GST_MESSAGE_BUFFERING) (percents : List Int) :
    ∀ (s : State) (r : video_renderer_s),
      s.bus_owner bus i = true → s.renderer_type i = some r → s.hls_video = true →
      ∃ s1 calls,
        run (buffering_events eng bus message loop percents) s = some (s1, calls)
        ∧ state_requests calls = (percents.map (buffering_request r.pipeline)).flatten := by
  induction percents with
  | nil =>
    intro s r _ _ _
    exact ⟨s, [], rfl, rfl⟩
  | cons p rest ih =>
    intro s r hown hr hhls
    by_cases hp : 0 ≤ p
    · obtain ⟨c1, h1, q1⟩ := bus_buffering_step eng s bus i r { message with percent := p } loop
        hown hr htype hhls hp
      have hown1 := bus_owner_set s bus i r { r with buffering_level := p } hown hr rfl
      have hr1 := renderer_type_set_same s i r { r with buffering_level := p } hr
      have hhls1 := (hls_video_set_renderer_type s i { r with buffering_level := p }).trans hhls
      obtain ⟨s2, c2, h2, q2⟩ := ih _ _ hown1 hr1 hhls1
      refine ⟨s2, c1 ++ c2, ?_, ?_⟩
      · simp only [buffering_events, List.map_cons, run, Op.exec] at h2 ⊢
        simp only [h1, h2]
      · simp only at q1 q2
        simp [state_requests_append, q1, q2, buffering_request, hp]
    · obtain ⟨c1, h1, q1⟩ := bus_buffering_step_neg eng s bus i r { message with percent := p }
        loop hown hr htype hhls hp
      obtain ⟨s2, c2, h2, q2⟩ := ih s r hown hr hhls
      refine ⟨s2, c1 ++ c2, ?_, ?_⟩
      · simp only [buffering_events, List.map_cons, run, Op.exec] at h2 ⊢
        simp only [h1, h2]
      · simp [state_requests_append, q1, q2, buffering_request, hp]

/-- C11 (counterexample): in the sample on-demand session two buffering events with
the same percentage 40 issue two paused requests, and two events with 100 issue two
playing requests. -/
theorem buffering_repeat_counterexample :
    ∃ s1 calls,
      run (buffering_events Engine.sample (some 110)
            (GstMessage.sample GstMessageType.GST_MESSAGE_BUFFERING 0) (some 7)
            [40, 40, 100, 100]) State.on_demand_started = some (s1, calls)
      ∧ state_requests calls
          = [(some 10, GstState.PAUSED), (some 10, GstState.PAUSED),
             (some 10, GstState.PLAYING), (some 10, GstState.PLAYING)] :=
  ⟨_, _, rfl, rfl⟩

/-- C11 (amended): in on-demand mode, for every sequence of buffering events on the
bus of slot `i` with block `r`, the state requests issued are, in order, one per
event with a percentage `p >= 0`, to `r`'s pipeline: paused if `p < 100`, playing
otherwise, whatever the percentage of the event before. -/
theorem buffering_requests_per_event (eng : Engine) (s : State) (bus : Ptr) (i : Nat)
    (r : video_renderer_s) (message : GstMessage) (loop : Ptr) (percents : List Int)
    (hown : s.bus_owner bus i = true)
    (hr : s.renderer_type i = some r)
    (htype : message.type = GstMessageType.GST_MESSAGE_BUFFERING)
    (hhls : s.hls_video = true) :
    ∃ s1 calls,
      run (buffering_events eng bus message loop percents) s = some (s1, calls)
      ∧ state_requests calls = (percents.map (buffering_request r.pipeline)).flatten
      ∧ ((∀ p ∈ percents, 0 ≤ p) →
          state_requests calls
            = percents.map (fun p =>
                (r.pipeline, if p < 100 then GstState.PAUSED else GstState.PLAYING))) := by
  obtain ⟨s1, calls, h1, h2⟩ :=
    buffering_events_requests eng bus i message loop htype percents s r hown hr hhls
  refine ⟨s1, calls, h1, h2, fun hall => ?_⟩
  rw [h2]
  clear h1 h2
  induction percents with
  | nil => rfl
  | cons p rest ih =>
    have hp : 0 ≤ p := hall p (List.mem_cons_self _ _)
    have := ih (fun q hq => hall q (List.mem_cons_of_mem _ hq))
    simp only [List.map_cons, List.flatten_cons, this]
    simp [buffering_request, hp]

/-- Witness of C11 (amended): the percentages 40, 40, -1, 100, 100, 70 in the sample
on-demand session. -/
theorem buffering_requests_per_event_witness :
    State.on_demand_started.bus_owner (some 110) 0 = true
    ∧ State.on_demand_started.renderer_type 0 = some video_renderer_s.sample_hls
    ∧ (GstMessage.sample GstMessageType.GST_MESSAGE_BUFFERING 0).type
        = GstMessageType.GST_MESSAGE_BUFFERING
    ∧ State.on_demand_started.hls_video = true
    ∧ ∃ s1 calls,
      run (buffering_events Engine.sample (some 110)
            (GstMessage.sample GstMessageType.GST_MESSAGE_BUFFERING 0) (some 7)
            [40, 40, -1, 100, 100, 70]) State.on_demand_started = some (s1, calls)
      ∧ state_requests calls
          = [(some 10, GstState.PAUSED), (some 10, GstState.PAUSED),
             (some 10, GstState.PLAYING), (some 10, GstState.PLAYING),
             (some 10, GstState.PAUSED)] := by
  obtain ⟨s1, calls, h1, h2, _⟩ := buffering_requests_per_event Engine.sample
    State.on_demand_started (some 110) 0 video_renderer_s.sample_hls
    (GstMessage.sample GstMessageType.GST_MESSAGE_BUFFERING 0) (some 7)
    [40, 40, -1, 100, 100, 70] (by decide) (by decide) (by decide) (by decide)
  refine ⟨by decide, by decide, by decide, by decide, s1, calls, h1, ?_⟩
  rw [h2]
  rfl

/-! ## The cached buffering level -/

/-- The swapped sample state is the one the code reaches from program start. -/
theorem sample_swapped_reached :
    (session InitArgs.mirror Engine.sample
      [Op.start Engine.sample, Op.choose_codec Engine.sample false,
       Op.choose_codec Engine.sample true]).map Prod.fst = some State.mirror_swapped := by
  rfl

/-- C13 (counterexample): in the sample mirror session after the swap, the h264 block
has its pending flag set; a state-changed event from its pipeline while the pipeline
reports the null state leaves the flag set and requests the playing state. -/
theorem state_changed_null_counterexample :
    (State.mirror_swapped.renderer_type 0).map (fun r => r.state_pending) = some true
    ∧ (Engine.sample_null.gst_element_get_state (some 10)).2 = GstState.NULL
    ∧ ∃ s1 calls,
        gstreamer_pipeline_bus_callback Engine.sample_null State.mirror_swapped (some 110)
          (GstMessage.sample GstMessageType.GST_MESSAGE_STATE_CHANGED 0) (some 7)
          = some (s1, calls)
        ∧ (s1.renderer_type 0).map (fun r => r.state_pending) = some true
        ∧ state_requests calls = [(some 10, GstState.PLAYING)] :=
  ⟨rfl, rfl, _, _, rfl, rfl, rfl⟩

/-- C13 (amended): for a state-changed event from a source whose name contains
`pipeline`, on the bus of slot `i` whose block `r` has its pending flag set: if the
pipeline reports the null state, the flag stays set and one playing request is issued
for `r`'s pipeline; if it reports the playing state, the flag is cleared and no state
request is issued; in any other state the flag stays set and nothing is requested. -/
theorem state_changed_pending (eng : Engine) (s : State) (bus : Ptr) (i : Nat)
    (r : video_renderer_s) (message : GstMessage) (loop : Ptr)
    (hown : s.bus_owner bus i = true)
    (hr : s.renderer_type i = some r)
    (htype : message.type = GstMessageType.GST_MESSAGE_STATE_CHANGED)
    (hpending : r.state_pending = true)
    (hsrc : (strstr message.src_name "pipeline".toList).isSome = true) :
    ∃ s1 calls r1,
      gstreamer_pipeline_bus_callback eng s bus message loop = some (s1, calls)
      ∧ s1.renderer_type i = some r1
      ∧ r1.state_pending
          = !decide ((eng.gst_element_get_state r.pipeline).2 = GstState.PLAYING)
      ∧ state_requests calls
          = (if (eng.gst_element_get_state r.pipeline).2 = GstState.NULL
             then [(r.pipeline, GstState.PLAYING)] else [])
      ∧ ((eng.gst_element_get_state r.pipeline).2 = GstState.NULL →
          r1.state_pending = true ∧ state_requests calls = [(r.pipeline, GstState.PLAYING)])
      ∧ ((eng.gst_element_get_state r.pipeline).2 = GstState.PLAYING →
          r1.state_pending = false ∧ state_requests calls = []) := by
  have hcb := bus_callback_owner eng s bus i r message loop hown hr
  simp only [bus_callback_switch, htype, hpending, hsrc, Bool.and_self, if_true] at hcb
  refine ⟨_, _, _, hcb, renderer_type_set_same s i r _ hr, ?_, ?_, ?_, ?_⟩
  · rcases hst : (eng.gst_element_get_state r.pipeline).2 <;>
      simp [hpending] <;> split_ifs <;> simp [hpending]
  · rcases hst : (eng.gst_element_get_state r.pipeline).2 <;>
      simp [state_requests_append] <;> split_ifs <;> simp [state_requests]
  · intro hst
    simp only [hst]
    constructor
    · simp [hpending]; split_ifs <;> simp [hpending]
    · simp [state_requests_append]; split_ifs <;> simp [state_requests]
  · intro hst
    simp only [hst]
    constructor
    · simp; split_ifs <;> simp
    · simp [state_requests_append]; split_ifs <;> simp [state_requests]

/-- Witness of C13 (amended): the drained h264 block of the sample mirror session,
with the pipeline reporting the null state. -/
theorem state_changed_pending_witness :
    State.mirror_swapped.bus_owner (some 110) 0 = true
    ∧ State.mirror_swapped.renderer_type 0
        = some { video_renderer_s.sample_h264 with state_pending := true }
    ∧ (GstMessage.sample GstMessageType.GST_MESSAGE_STATE_CHANGED 0).type
        = GstMessageType.GST_MESSAGE_STATE_CHANGED
    ∧ ({ video_renderer_s.sample_h264 with state_pending := true }).state_pending = true
    ∧ (strstr (GstMessage.sample GstMessageType.GST_MESSAGE_STATE_CHANGED 0).src_name
        "pipeline".toList).isSome = true
    ∧ ∃ s1 calls r1,
      gstreamer_pipeline_bus_callback Engine.sample_null State.mirror_swapped (some 110)
        (GstMessage.sample GstMessageType.GST_MESSAGE_STATE_CHANGED 0) (some 7)
        = some (s1, calls)
      ∧ s1.renderer_type 0 = some r1
      ∧ r1.state_pending = true
      ∧ state_requests calls = [(some 10, GstState.PLAYING)] := by
  obtain ⟨s1, calls, r1, h1, h2, _, _, h5, _⟩ := state_changed_pending Engine.sample_null
    State.mirror_swapped (some 110) 0 { video_renderer_s.sample_h264 with state_pending := true }
    (GstMessage.sample GstMessageType.GST_MESSAGE_STATE_CHANGED 0) (some 7)
    (by decide) (by decide) (by decide) (by decide) (by decide)
  exact ⟨by decide, by decide, by decide, by decide, by decide, s1, calls, r1, h1, h2,
    (h5 rfl).1, (h5 rfl).2⟩

/-! ## Seeking -/

/-- C14 (counterexample): with a cached duration of 10 s, a seek to position 0 passes
the target 1000 ns to the graph, which is below 1 ms (1000000 ns); with a cached
duration of 500 ns the target is -500 ns. -/
theorem seek_target_counterexample :
    (video_renderer_seek Engine.sample (State.on_demand_duration 10000000000) 0).map
        (fun p => seek_targets p.2) = some [1000]
    ∧ (1000 : Int) < 1000000
    ∧ (video_renderer_seek Engine.sample (State.on_demand_duration 500) 0).map
        (fun p => seek_targets p.2) = some [-500] := by
  refine ⟨rfl, by norm_num, rfl⟩

/-- C14 (amended): with an active block `r`, `video_renderer_seek` passes exactly one
target `t` to the graph.  When the cached duration `d` is positive,
`t = min (max pos 1000) (d - 1000)`: `t` is at most `d - 1000` ns, and at least
1000 ns when `d >= 2000`.  When the cached duration is not positive (unknown),
`t = max pos 1000`, at least 1000 ns. -/
theorem seek_target_clamped (eng : Engine) (s : State) (r : video_renderer_s) (pos : Int)
    (hr : s.deref s.renderer = some r) :
    ∃ calls t,
      video_renderer_seek eng s pos = some (s, calls)
      ∧ seek_targets calls = [t]
      ∧ (0 < r.duration →
          t = min (max pos 1000) (r.duration - 1000)
          ∧ t ≤ r.duration - 1000
          ∧ (2000 ≤ r.duration → 1000 ≤ t))
      ∧ (r.duration ≤ 0 → t = max pos 1000 ∧ 1000 ≤ t) := by
  have hcb : video_renderer_seek eng s pos
      = some (s, [Call.g_print,
          Call.gst_element_seek_simple r.pipeline (video_renderer_seek_position pos r.duration)]
          ++ (if eng.gst_element_seek_simple r.pipeline
                (video_renderer_seek_position pos r.duration) then
                [Call.g_print, Call.gst_element_set_state r.pipeline GstState.PLAYING]
              else [Call.g_print])) := by
    simp only [video_renderer_seek, hr]
  refine ⟨_, video_renderer_seek_position pos r.duration, hcb, ?_, ?_, ?_⟩
  · split_ifs <;> simp [seek_targets]
  · intro hd
    simp only [video_renderer_seek_position, hd, if_true]
    refine ⟨?_, ?_, ?_⟩
    · simp only [min_def, max_def]; split_ifs <;> omega
    · split_ifs <;> omega
    · intro h2
      split_ifs <;> omega
  · intro hd
    have hnd : ¬ 0 < r.duration := not_lt.mpr hd
    simp only [video_renderer_seek_position, hnd, if_false]
    constructor
    · simp only [max_def]; split_ifs <;> omega
    · split_ifs <;> omega

/-- Witness of C14 (amended): the sample on-demand session with a cached duration of
10 s and a seek to 20 s. -/
theorem seek_target_clamped_witness :
    (State.on_demand_duration 10000000000).deref (State.on_demand_duration 10000000000).renderer
        = some { video_renderer_s.sample_hls with duration := 10000000000 }
    ∧ (video_renderer_seek Engine.sample (State.on_demand_duration 10000000000)
        20000000000).map (fun p => seek_targets p.2) = some [9999999000]
    ∧ ∃ calls t,
      video_renderer_seek Engine.sample (State.on_demand_duration 10000000000) 20000000000
        = some (State.on_demand_duration 10000000000, calls)
      ∧ seek_targets calls = [t]
      ∧ ((0 : Int) < 10000000000 →
          t = min (max 20000000000 1000) (10000000000 - 1000)
          ∧ t ≤ 10000000000 - 1000
          ∧ ((2000 : Int) ≤ 10000000000 → 1000 ≤ t))
      ∧ ((10000000000 : Int) ≤ 0 → t = max 20000000000 1000 ∧ 1000 ≤ t) :=
  ⟨rfl, rfl, seek_target_clamped Engine.sample (State.on_demand_duration 10000000000)
    { video_renderer_s.sample_hls with duration := 10000000000 } 20000000000 rfl⟩

/-! ## Playback queries -/

/-- C15 (counterexample): the sample on-demand session whose cached duration was
invalidated by a duration event reaches `State.on_demand_duration (-1)`; when the
duration query then succeeds with the unknown duration -1, the cached duration stays
-1 and the position 5 s is reported. -/
theorem playback_position_counterexample :
    (run [Op.bus_callback Engine.sample (some 110)
            (GstMessage.sample GstMessageType.GST_MESSAGE_DURATION 0) (some 7)]
        State.on_demand_started).map Prod.fst = some (State.on_demand_duration (-1))
    ∧ ∃ s1 calls info,
        video_get_playback_info Engine.sample_unknown_duration (State.on_demand_duration (-1))
          = some (s1, calls, info)
        ∧ (s1.renderer_type 0).map (fun r => r.duration) = some (-1)
        ∧ info.position = some 5000000000 :=
  ⟨rfl, _, _, _, rfl, rfl, rfl⟩

/-- C15 (amended): with an active block `r` in slot `i`, `video_get_playback_info`
returns; `*rate` is `1.0f` exactly when the pipeline reports the playing state and
`0.0f` otherwise; and when a position is stored, the cached duration after the call
is not 0 (so positive unless it is negative), the position query succeeded, and the
position stored is the valid time the query gave. -/
theorem playback_info_rate_position (eng : Engine) (s : State) (i : Nat)
    (r : video_renderer_s)
    (hactive : s.renderer = some i)
    (hr : s.renderer_type i = some r) :
    ∃ s1 calls info r1,
      video_get_playback_info eng s = some (s1, calls, info)
      ∧ s1.renderer_type i = some r1
      ∧ (info.rate_playing = true ↔ (eng.gst_element_get_state r.pipeline).2 = GstState.PLAYING)
      ∧ ∀ p, info.position = some p →
          r1.duration ≠ 0
          ∧ (0 ≤ r1.duration → 0 < r1.duration)
          ∧ eng.gst_element_query_position r.pipeline = some p
          ∧ p ≠ -1 := by
  unfold video_get_playback_info
  simp only [hactive, hr]
  by_cases hv : GST_CLOCK_TIME_IS_VALID r.duration = true
  · simp only [hv, Bool.not_true, Bool.false_eq_true, if_false]
    by_cases hd : r.duration = 0
    · simp only [hd, ne_eq, not_true_eq_false, if_false]
      exact ⟨_, _, _, r, rfl, hr, by simp, by simp⟩
    · simp only [ne_eq, hd, not_false_eq_true, if_true]
      rcases hq : eng.gst_element_query_position r.pipeline with _ | pos
      · exact ⟨_, _, _, r, rfl, hr, by simp, by simp⟩
      · refine ⟨_, _, _, r, rfl, hr, by simp, ?_⟩
        intro p hp
        simp only [GST_CLOCK_TIME_IS_VALID] at hp
        split_ifs at hp with hval
        simp only [Option.some.injEq] at hp
        subst hp
        exact ⟨hd, fun h0 => lt_of_le_of_ne h0 (Ne.symm hd), rfl, by simpa using hval⟩
  · simp only [hv, Bool.not_false, if_true]
    rcases hq : eng.gst_element_query_duration r.pipeline with _ | d
    · exact ⟨_, _, _, r, rfl, hr, by simp, by simp⟩
    · simp only []
      have hr1 := renderer_type_set_same s i r { r with duration := d } hr
      by_cases hd : d = 0
      · subst hd
        simp only [ne_eq, not_true_eq_false, if_false]
        exact ⟨_, _, _, _, rfl, hr1, by simp, by simp⟩
      · simp only [ne_eq, hd, not_false_eq_true, if_true]
        rcases hq2 : eng.gst_element_query_position r.pipeline with _ | pos
        · exact ⟨_, _, _, _, rfl, hr1, by simp, by simp⟩
        · refine ⟨_, _, _, _, rfl, hr1, by simp, ?_⟩
          intro p hp
          simp only [GST_CLOCK_TIME_IS_VALID] at hp
          split_ifs at hp with hval
          simp only [Option.some.injEq] at hp
          subst hp
          exact ⟨hd, fun h0 => lt_of_le_of_ne h0 (Ne.symm hd), rfl, by simpa using hval⟩

/-- Witness of C15 (amended): the sample on-demand session with a cached duration of
10 s, the pipeline playing and the position query giving 5 s. -/
theorem playback_info_rate_position_witness :
    (State.on_demand_duration 10000000000).renderer = some 0
    ∧ (State.on_demand_duration 10000000000).renderer_type 0
        = some { video_renderer_s.sample_hls with duration := 10000000000 }
    ∧ (video_get_playback_info Engine.sample_playing
        (State.on_demand_duration 10000000000)).map (fun p => p.2.2)
        = some { duration := 10000000000, position := some 5000000000, rate_playing := true }
    ∧ ∃ s1 calls info r1,
      video_get_playback_info Engine.sample_playing (State.on_demand_duration 10000000000)
        = some (s1, calls, info)
      ∧ s1.renderer_type 0 = some r1
      ∧ (info.rate_playing = true ↔
          (Engine.sample_playing.gst_element_get_state
            ({ video_renderer_s.sample_hls with duration := 10000000000 }).pipeline).2
            = GstState.PLAYING)
      ∧ ∀ p, info.position = some p →
          r1.duration ≠ 0
          ∧ (0 ≤ r1.duration → 0 < r1.duration)
          ∧ Engine.sample_playing.gst_element_query_position
              ({ video_renderer_s.sample_hls with duration := 10000000000 }).pipeline = some p
          ∧ p ≠ -1 :=
  ⟨rfl, rfl, rfl, playback_info_rate_position Engine.sample_playing
    (State.on_demand_duration 10000000000) 0
    { video_renderer_s.sample_hls with duration := 10000000000 } rfl rfl⟩

/-- C16 (evaluation): in the sample on-demand session after init and start the cached
duration of the block is 0, which `GST_CLOCK_TIME_IS_VALID` accepts; so whatever the
engine would answer, `video_get_playback_info` does not query the duration, leaves
the cache at 0, and stores the duration 0 and no position.  With the sample engine,
whose duration query would give 60 s, the calls are the state query and the log. -/
theorem playback_duration_not_queried :
    (session InitArgs.on_demand Engine.sample [Op.start Engine.sample]).map Prod.fst
        = some State.on_demand_started
    ∧ (State.on_demand_started.renderer_type 0).map (fun r => r.duration) = some 0
    ∧ GST_CLOCK_TIME_IS_VALID 0 = true
    ∧ Engine.sample.gst_element_query_duration (some 10) = some 60000000000
    ∧ video_get_playback_info Engine.sample State.on_demand_started
        = some (State.on_demand_started,
            [Call.gst_element_get_state (some 10), Call.logger_log LogLevel.LOGGER_DEBUG],
            { duration := 0, position := none, rate_playing := false })
    ∧ ∀ eng : Engine, ∃ calls info,
        video_get_playback_info eng State.on_demand_started
          = some (State.on_demand_started, calls, info)
        ∧ Call.gst_element_query_duration (some 10) ∉ calls
        ∧ info.duration = 0
        ∧ info.position = none := by
  refine ⟨rfl, rfl, rfl, rfl, rfl, fun eng => ?_⟩
  refine ⟨_, _, rfl, ?_, rfl, rfl⟩
  simp

/-! ## The forwarding sink -/

/-- C17 (counterexample): with the side channel connected, a sample of four bytes
pulled and mapped, and `lws_write` returning -1, `on_new_sample` returns
`GST_FLOW_ERROR`. -/
theorem on_new_sample_counterexample :
    on_new_sample { ws_context := some 1, ws_wsi := some 2, connected := true }
      { gst_app_sink_pull_sample := some [1, 2, 3, 4], gst_buffer_map := true,
        malloc := true, lws_write := -1 }
      = (GstFlowReturn.GST_FLOW_ERROR,
          [SinkCall.printf, SinkCall.printf, SinkCall.printf,
           SinkCall.lws_write (some 2) [1, 2, 3, 4], SinkCall.free,
           SinkCall.gst_buffer_unmap, SinkCall.gst_sample_unref]) := by
  rfl

/-- C17 (amended): for a sample that is pulled successfully, `on_new_sample` returns
`GST_FLOW_ERROR` exactly when the write is attempted and `lws_write` returns a
negative value, and `GST_FLOW_OK` otherwise; the write is attempted exactly when the
buffer is mapped, the channel is connected with a non-`NULL` `ws_wsi`, and the
transmission buffer is allocated, so a disconnected channel issues no write and
returns `GST_FLOW_OK`. -/
theorem on_new_sample_status (ws : WebSocket) (ans : SampleAnswers) (data : List Nat)
    (hpull : ans.gst_app_sink_pull_sample = some data) :
    (SinkCall.has_write (on_new_sample ws ans).2 = true ↔
        (ans.gst_buffer_map = true ∧ ws.connected = true ∧ ws.ws_wsi.isSome = true
          ∧ ans.malloc = true))
    ∧ ((on_new_sample ws ans).1 = GstFlowReturn.GST_FLOW_ERROR ↔
        (SinkCall.has_write (on_new_sample ws ans).2 = true ∧ ans.lws_write < 0))
    ∧ ((on_new_sample ws ans).1 = GstFlowReturn.GST_FLOW_OK ↔
        ¬ (SinkCall.has_write (on_new_sample ws ans).2 = true ∧ ans.lws_write < 0))
    ∧ (ws.connected = false →
        (on_new_sample ws ans).1 = GstFlowReturn.GST_FLOW_OK
        ∧ SinkCall.has_write (on_new_sample ws ans).2 = false) := by
  obtain ⟨ctx, wsi, conn⟩ := ws
  obtain ⟨pull, map, mal, wr⟩ := ans
  simp only at hpull
  subst hpull
  cases map <;> cases conn <;> cases wsi <;> cases mal <;>
    simp [on_new_sample, SinkCall.has_write]
  by_cases hw : wr < 0
  · simp only [hw, if_true]
    split_ifs <;> simp [SinkCall.has_write, hw]
  · have hw2 : 0 ≤ wr := not_lt.mp hw
    simp only [hw, if_false]
    split_ifs <;> simp [SinkCall.has_write, hw2]

/-- Witness of C17 (amended): a sample of four bytes while the side channel is not
connected. -/
theorem on_new_sample_status_witness :
    ({ gst_app_sink_pull_sample := some [1, 2, 3, 4], gst_buffer_map := true,
       malloc := true, lws_write := -1 } : SampleAnswers).gst_app_sink_pull_sample
      = some [1, 2, 3, 4]
    ∧ on_new_sample { ws_context := some 1, ws_wsi := none, connected := false }
        { gst_app_sink_pull_sample := some [1, 2, 3, 4], gst_buffer_map := true,
          malloc := true, lws_write := -1 }
      = (GstFlowReturn.GST_FLOW_OK, [SinkCall.gst_buffer_unmap, SinkCall.gst_sample_unref])
    ∧ (on_new_sample { ws_context := some 1, ws_wsi := none, connected := false }
        { gst_app_sink_pull_sample := some [1, 2, 3, 4], gst_buffer_map := true,
          malloc := true, lws_write := -1 }).1 = GstFlowReturn.GST_FLOW_OK
    ∧ SinkCall.has_write
        (on_new_sample { ws_context := some 1, ws_wsi := none, connected := false }
          { gst_app_sink_pull_sample := some [1, 2, 3, 4], gst_buffer_map := true,
            malloc := true, lws_write := -1 }).2 = false :=
  ⟨rfl, rfl,
   ((on_new_sample_status { ws_context := some 1, ws_wsi := none, connected := false }
      { gst_app_sink_pull_sample := some [1, 2, 3, 4], gst_buffer_map := true,
        malloc := true, lws_write := -1 } [1, 2, 3, 4] rfl).2.2.2 rfl).1,
   ((on_new_sample_status { ws_context := some 1, ws_wsi := none, connected := false }
      { gst_app_sink_pull_sample := some [1, 2, 3, 4], gst_buffer_map := true,
        malloc := true, lws_write := -1 } [1, 2, 3, 4] rfl).2.2.2 rfl).2⟩

/-! ## Codec switch without h265 support -/

/-- C19 (evaluation): in a mirror session initialised without h265 support only slot
0 is allocated.  After start, `video_renderer_choose_codec(true)` returns with
`renderer` still `NULL`; after start and `video_renderer_choose_codec(false)`, the
call `video_renderer_choose_codec(true)` sets `renderer` to the `NULL` slot 1 and
dereferences it, while the same session up to that call runs. -/
theorem choose_codec_without_h265 :
    (∃ s calls,
      session InitArgs.mirror_h264_only Engine.sample [Op.start Engine.sample]
        = some (s, calls)
      ∧ s.hls_video = false ∧ s.n_renderers = 1
      ∧ (s.renderer_type 0).isSome = true ∧ s.renderer_type 1 = none)
    ∧ (∃ s calls,
      session InitArgs.mirror_h264_only Engine.sample
        [Op.start Engine.sample, Op.choose_codec Engine.sample true] = some (s, calls)
      ∧ s.renderer = none)
    ∧ (∃ s calls,
      session InitArgs.mirror_h264_only Engine.sample
        [Op.start Engine.sample, Op.choose_codec Engine.sample false] = some (s, calls)
      ∧ s.renderer = some 0)
    ∧ session InitArgs.mirror_h264_only Engine.sample
        [Op.start Engine.sample, Op.choose_codec Engine.sample false,
         Op.choose_codec Engine.sample true] = none :=
  ⟨⟨_, _, rfl, rfl, rfl, rfl, rfl⟩, ⟨_, _, rfl, rfl⟩, ⟨_, _, rfl, rfl⟩, rfl⟩

/-! ## The display-sink option string -/

/-- The offset `strchr` finds cuts the string where `takeWhile` and `dropWhile` do. -/
theorem strchr_some (c : Char) (s : List Char) :
    ∀ k, strchr s c = some k →
      c ∈ s ∧ s.take k = s.takeWhile (fun x => x != c)
      ∧ s.drop (k + 1) = (s.dropWhile (fun x => x != c)).drop 1 := by
  induction s with
  | nil => intro k h; simp [strchr] at h
  | cons a t ih =>
    intro k h
    unfold strchr at h
    by_cases hac : a = c
    · simp only [hac, if_true, Option.some.injEq] at h
      subst h
      simp [hac]
    · rw [if_neg hac] at h
      rcases ht : strchr t c with _ | j
      · simp [ht] at h
      · simp only [ht, Option.map_some', Option.some.injEq] at h
        subst h
        obtain ⟨h1, h2, h3⟩ := ih j ht
        refine ⟨List.mem_cons_of_mem _ h1, ?_, ?_⟩
        · simp [List.takeWhile_cons, hac, h2]
        · simp [List.dropWhile_cons, hac, h3]

/-- When `strchr` finds nothing the character does not occur. -/
theorem strchr_none (c : Char) (s : List Char) (h : strchr s c = none) :
    c ∉ s ∧ s.takeWhile (fun x => x != c) = s := by
  induction s with
  | nil => simp
  | cons a t ih =>
    unfold strchr at h
    by_cases hac : a = c
    · simp [hac] at h
    · rw [if_neg hac] at h
      rcases ht : strchr t c with _ | j
      · obtain ⟨h1, h2⟩ := ih ht
        refine ⟨?_, ?_⟩
        · simp only [List.mem_cons, not_or]
          exact ⟨fun hca => hac hca.symm, h1⟩
        · simp [List.takeWhile_cons, hac, h2]
      · simp [ht] at h

/-- The properties of two traces in sequence. -/
theorem object_args_append (a b : List Call) :
    object_args (a ++ b) = object_args a ++ object_args b := by
  induction a with
  | nil => rfl
  | cons c a ih => cases c <;> simp [object_args, ih]

/-- The properties one token sets are the pair the rule gives for it. -/
theorem token_args (video_sink : Ptr) (token : List Char) :
    object_args
      (match strchr token '=' with
       | some k =>
         [Call.g_print,
          Call.gst_util_set_object_arg video_sink (token.take k) (token.drop (k + 1))]
       | none => [])
      = ((spec_token_pair token).map (fun p => (video_sink, p.1, p.2))).toList := by
  rcases h : strchr token '=' with _ | k
  · obtain ⟨h1, _⟩ := strchr_none '=' token h
    simp [spec_token_pair, h1, object_args]
  · obtain ⟨h1, h2, h3⟩ := strchr_some '=' token k h
    simp [spec_token_pair, h1, h2, h3, object_args]

/-- Splitting on a character: the first piece runs up to the first occurrence, the
other pieces are the split of what follows it. -/
theorem splitOn_eq (c : Char) (s : List Char) :
    s.splitOn c
      = s.takeWhile (fun x => x != c)
        :: (match s.dropWhile (fun x => x != c) with
            | [] => []
            | _ :: r => r.splitOn c) := by
  induction s with
  | nil => simp
  | cons a t ih =>
    by_cases hac : a = c
    · subst hac
      simp [List.splitOn, List.splitOnP_cons]
    · have hne : (a == c) = false := by simpa using hac
      have ih1 : List.splitOnP (fun x => x == c) t
          = t.takeWhile (fun x => x != c)
            :: (match t.dropWhile (fun x => x != c) with
                | [] => []
                | _ :: r => r.splitOn c) := ih
      simp only [List.splitOn, List.splitOnP_cons, hne, Bool.false_eq_true, if_false, ih1,
        List.modifyHead_cons]
      simp [List.takeWhile_cons, List.dropWhile_cons, hac, List.splitOn]

/-- Leading separators give empty pieces, which set nothing. -/
theorem filterMap_splitOn_dropWhile (s : List Char) :
    (s.splitOn ' ').filterMap spec_token_pair
      = ((s.dropWhile (fun x => x == ' ')).splitOn ' ').filterMap spec_token_pair := by
  induction s with
  | nil => rfl
  | cons a t ih =>
    by_cases hac : a = ' '
    · subst hac
      simp only [List.splitOn, List.splitOnP_cons, beq_self_eq_true, if_true,
        List.dropWhile_cons]
      simpa [spec_token_pair, List.splitOn] using ih
    · have hne : (a == ' ') = false := by simpa using hac
      simp [List.dropWhile_cons, hne]

/-- With enough fuel the loop of `make_video_sink` sets, in order, the pairs of the
pieces of the text split on spaces. -/
theorem make_video_sink_loop_spec (video_sink : Ptr) (fuel : Nat) :
    ∀ text : List Char, text.length < fuel →
      object_args (make_video_sink_loop video_sink fuel text)
        = ((text.splitOn ' ').filterMap spec_token_pair).map
            (fun p => (video_sink, p.1, p.2)) := by
  induction fuel with
  | zero => intro text h; simp at h
  | succ fuel ih =>
    intro text hlen
    rw [filterMap_splitOn_dropWhile text]
    have hdrop : (text.dropWhile (fun x => x == ' ')).length ≤ text.length :=
      (List.dropWhile_sublist _).length_le
    unfold make_video_sink_loop strtok_r
    rcases hs : text.dropWhile (fun x => x == ' ') with _ | ⟨a, t⟩
    · simp [spec_token_pair, object_args]
    · simp only []
      rw [hs] at hdrop
      rw [object_args_append, token_args, splitOn_eq ' ' (a :: t)]
      have hrest : ((a :: t).dropWhile (fun c => c != ' ')).length ≤ (a :: t).length :=
        (List.dropWhile_sublist _).length_le
      rcases hd : (a :: t).dropWhile (fun c => c != ' ') with _ | ⟨b, r⟩
      · have h0 : make_video_sink_loop video_sink fuel [] = [] := by
          cases fuel <;> simp [make_video_sink_loop, strtok_r]
        simp only [List.drop_nil, h0, object_args, List.append_nil, List.filterMap_cons,
          List.filterMap_nil]
        cases spec_token_pair ((a :: t).takeWhile (fun c => c != ' ')) <;> simp
      · rw [hd] at hrest
        have hr : r.length < fuel := by
          simp only [List.length_cons] at hrest hdrop hlen
          omega
        simp only [List.drop_succ_cons, List.drop_zero, ih r hr, List.filterMap_cons]
        cases spec_token_pair ((a :: t).takeWhile (fun c => c != ' ')) <;> simp

/-- C18: for every option string and every sink, the properties `make_video_sink`
sets on the sink are exactly, in order, the pairs of `spec_sink_properties`: the
string cut at its first `!`, split on spaces, each piece that contains `=` split at
its first `=`; pieces without `=` and everything from the `!` on set nothing, and the
empty string sets nothing. -/
theorem make_video_sink_properties (h : Nat) (videosink_options : List Char) :
    (make_video_sink (some h) videosink_options).1 = some h
    ∧ object_args (make_video_sink (some h) videosink_options).2
        = (spec_sink_properties videosink_options).map (fun p => (some h, p.1, p.2))
    ∧ object_args (make_video_sink (some h) []).2 = [] := by
  refine ⟨?_, ?_, rfl⟩
  · unfold make_video_sink
    simp only []
    split_ifs <;> rfl
  · unfold make_video_sink spec_sink_properties
    simp only []
    by_cases hlen : videosink_options.length = 0
    · have : videosink_options = [] := List.length_eq_zero.mp hlen
      subst this
      simp [object_args, spec_token_pair]
    · rw [if_neg hlen]
      simp only []
      rcases hc : strchr videosink_options '!' with _ | k
      · obtain ⟨_, h2⟩ := strchr_none '!' videosink_options hc
        simp only [h2]
        exact make_video_sink_loop_spec (some h) _ _ (Nat.lt_succ_self _)
      · obtain ⟨_, h2, _⟩ := strchr_some '!' videosink_options k hc
        simp only [← h2]
        exact make_video_sink_loop_spec (some h) _ _ (Nat.lt_succ_self _)

/-! ## The codec-reference fix-up -/

/-- An occurrence at the head of a string. -/
theorem occurs_at_zero (n s : List Char) : occurs_at n s 0 = n.isPrefixOf s := by
  simp [occurs_at]

/-- An occurrence behind the head of a string. -/
theorem occurs_at_succ (n : List Char) (a : Char) (t : List Char) (j : Nat) :
    occurs_at n (a :: t) (j + 1) = occurs_at n t j := by
  simp [occurs_at]

/-- An occurrence in a suffix. -/
theorem occurs_at_drop (n s : List Char) (p j : Nat) :
    occurs_at n (s.drop p) j = occurs_at n s (p + j) := by
  simp [occurs_at, List.drop_drop]

/-- The offset `strstr` finds is the first occurrence. -/
theorem strstr_some (n : List Char) (s : List Char) :
    ∀ k, strstr s n = some k →
      occurs_at n s k = true ∧ ∀ j, j < k → occurs_at n s j = false := by
  induction s with
  | nil =>
    intro k h
    unfold strstr at h
    by_cases hp : n.isPrefixOf [] = true
    · simp only [hp, if_true, Option.some.injEq] at h
      subst h
      exact ⟨by rw [occurs_at_zero]; exact hp, fun j hj => absurd hj (Nat.not_lt_zero _)⟩
    · simp [hp] at h
  | cons a t ih =>
    intro k h
    unfold strstr at h
    by_cases hp : n.isPrefixOf (a :: t) = true
    · simp only [hp, if_true, Option.some.injEq] at h
      subst h
      exact ⟨by rw [occurs_at_zero]; exact hp, fun j hj => absurd hj (Nat.not_lt_zero _)⟩
    · rw [if_neg hp] at h
      rcases ht : strstr t n with _ | m
      · simp [ht] at h
      · simp only [ht, Option.map_some', Option.some.injEq] at h
        subst h
        obtain ⟨h1, h2⟩ := ih m ht
        refine ⟨by rw [occurs_at_succ]; exact h1, fun j hj => ?_⟩
        rcases j with _ | j
        · rw [occurs_at_zero]; exact Bool.eq_false_iff.mpr hp
        · rw [occurs_at_succ]; exact h2 j (by omega)

/-- When `strstr` finds nothing there is no occurrence. -/
theorem strstr_none (n : List Char) (s : List Char) :
    strstr s n = none ↔ ∀ j, occurs_at n s j = false := by
  induction s with
  | nil =>
    unfold strstr
    by_cases hp : n.isPrefixOf [] = true
    · simp only [hp, if_true]
      constructor
      · intro h; simp at h
      · intro h
        have := h 0
        rw [occurs_at_zero, hp] at this
        simp at this
    · simp only [hp]
      constructor
      · intro _ j
        simp only [occurs_at, List.drop_nil]
        exact Bool.eq_false_iff.mpr hp
      · intro _; rfl
  | cons a t ih =>
    unfold strstr
    by_cases hp : n.isPrefixOf (a :: t) = true
    · simp only [hp, if_true]
      constructor
      · intro h; simp at h
      · intro h
        have := h 0
        rw [occurs_at_zero, hp] at this
        simp at this
    · rw [if_neg hp]
      simp only [Option.map_eq_none']
      rw [ih]
      constructor
      · intro h j
        rcases j with _ | j
        · rw [occurs_at_zero]; exact Bool.eq_false_iff.mpr hp
        · rw [occurs_at_succ]; exact h j
      · intro h j
        have := h (j + 1)
        rwa [occurs_at_succ] at this

/-- An occurrence of a four-character needle, character by character. -/
theorem occurs_at_four (a0 a1 a2 a3 : Char) (s : List Char) (j : Nat) :
    occurs_at [a0, a1, a2, a3] s j = true ↔
      s[j]? = some a0 ∧ s[j + 1]? = some a1 ∧ s[j + 2]? = some a2 ∧ s[j + 3]? = some a3 := by
  have hget : ∀ m, s[j + m]? = (s.drop j)[m]? := fun m => (List.getElem?_drop s j m).symm
  have h0 : s[j]? = (s.drop j)[0]? := hget 0
  rw [h0, hget 1, hget 2, hget 3]
  unfold occurs_at
  rcases s.drop j with _ | ⟨b0, _ | ⟨b1, _ | ⟨b2, _ | ⟨b3, l⟩⟩⟩⟩ <;>
    simp [List.isPrefixOf]
  constructor <;> rintro ⟨h0, h1, h2, h3⟩ <;> exact ⟨h0.symm, h1.symm, h2.symm, h3.symm⟩

/-- During the loop the buffer and the original string have the same occurrences from
`pos` on. -/
theorem fix_occurs_agree (x c : Char) (hx : x ≠ 'h') (hc : c ≠ 'h') (str cur : List Char)
    (pos : Nat)
    (hpos : cur[pos]? = spec_fix_char ['h', '2', '6', x] c str pos)
    (hafter : ∀ i, pos < i → cur[i]? = str[i]?) (k : Nat) :
    occurs_at ['h', '2', '6', x] cur (pos + k) = occurs_at ['h', '2', '6', x] str (pos + k) := by
  have hhead : cur[pos]? = some 'h' ↔ str[pos]? = some 'h' := by
    rw [hpos]
    unfold spec_fix_char
    by_cases hm : 3 ≤ pos ∧ occurs_at ['h', '2', '6', x] str (pos - 3) = true
    · rw [if_pos hm]
      obtain ⟨h3, hocc⟩ := hm
      have h4 := ((occurs_at_four 'h' '2' '6' x str (pos - 3)).mp hocc).2.2.2
      have he : pos - 3 + 3 = pos := by omega
      rw [he] at h4
      rw [h4]
      simp only [Option.some.injEq]
      exact ⟨fun h => absurd h hc, fun h => absurd h hx⟩
    · rw [if_neg hm]
  rw [Bool.eq_iff_iff, occurs_at_four, occurs_at_four]
  rw [hafter (pos + k + 1) (by omega), hafter (pos + k + 2) (by omega),
    hafter (pos + k + 3) (by omega)]
  rcases k with _ | k
  · simp only [Nat.add_zero]
    rw [hhead]
  · rw [hafter (pos + (k + 1)) (by omega)]

/-- When no occurrence is left from `pos` on, the buffer is the fixed string. -/
theorem fix_done (x c : Char) (str cur : List Char) (pos : Nat)
    (hupto : ∀ i, i ≤ pos → cur[i]? = spec_fix_char ['h', '2', '6', x] c str i)
    (hafter : ∀ i, pos < i → cur[i]? = str[i]?)
    (hgap : ∀ j, j < pos → pos < j + 3 → occurs_at ['h', '2', '6', x] str j = false)
    (hnone : ∀ j, pos ≤ j → occurs_at ['h', '2', '6', x] str j = false) (i : Nat) :
    cur[i]? = spec_fix_char ['h', '2', '6', x] c str i := by
  by_cases hi : i ≤ pos
  · exact hupto i hi
  · rw [hafter i (by omega)]
    unfold spec_fix_char
    rw [if_neg]
    rintro ⟨h3, hocc⟩
    by_cases hj : pos ≤ i - 3
    · rw [hnone (i - 3) hj] at hocc
      exact absurd hocc (by simp)
    · rw [hgap (i - 3) (by omega) (by omega)] at hocc
      exact absurd hocc (by simp)

/-- The loop of the fix-up, started in a state where the buffer is fixed up to `pos`
and original behind it, ends with the fixed string. -/
theorem fix_references_loop_spec (x c : Char) (hx : x ≠ 'h') (hc : c ≠ 'h')
    (str : List Char) (fuel : Nat) :
    ∀ (cur : List Char) (pos : Nat),
      cur.length = str.length →
      (∀ i, i ≤ pos → cur[i]? = spec_fix_char ['h', '2', '6', x] c str i) →
      (∀ i, pos < i → cur[i]? = str[i]?) →
      (∀ j, j < pos → pos < j + 3 → occurs_at ['h', '2', '6', x] str j = false) →
      str.length ≤ pos + fuel →
      (fix_references_loop ['h', '2', '6', x] c fuel cur pos).length = str.length
      ∧ ∀ i, (fix_references_loop ['h', '2', '6', x] c fuel cur pos)[i]?
          = spec_fix_char ['h', '2', '6', x] c str i := by
  induction fuel with
  | zero =>
    intro cur pos hlen hupto hafter hgap hfuel
    refine ⟨hlen, fix_done x c str cur pos hupto hafter hgap ?_⟩
    intro j hj
    rw [Bool.eq_false_iff]
    intro hocc
    have h4 := ((occurs_at_four 'h' '2' '6' x str j).mp hocc).2.2.2
    have := (List.getElem?_eq_some_iff.mp h4).1
    omega
  | succ fuel ih =>
    intro cur pos hlen hupto hafter hgap hfuel
    have hagree := fix_occurs_agree x c hx hc str cur pos (hupto pos (le_refl _)) hafter
    unfold fix_references_loop
    rcases hs : strstr (cur.drop pos) ['h', '2', '6', x] with _ | k
    · refine ⟨hlen, fix_done x c str cur pos hupto hafter hgap ?_⟩
      intro j hj
      have h1 := (strstr_none _ _).mp hs (j - pos)
      rw [occurs_at_drop, hagree] at h1
      have he : pos + (j - pos) = j := by omega
      rwa [he] at h1
    · simp only []
      obtain ⟨h1, h2⟩ := strstr_some _ _ k hs
      rw [occurs_at_drop, hagree] at h1
      have hfour := (occurs_at_four 'h' '2' '6' x str (pos + k)).mp h1
      have hbound : pos + k + 3 < str.length := (List.getElem?_eq_some_iff.mp hfour.2.2.2).1
      have hfirst : ∀ j, pos ≤ j → j < pos + k → occurs_at ['h', '2', '6', x] str j = false := by
        intro j hj1 hj2
        have h3 := h2 (j - pos) (by omega)
        rw [occurs_at_drop, hagree] at h3
        have he : pos + (j - pos) = j := by omega
        rwa [he] at h3
      apply ih
      · rw [List.length_set]; exact hlen
      · intro i hi
        by_cases hieq : i = pos + k + 3
        · subst hieq
          rw [List.getElem?_set_self (by rw [hlen]; exact hbound)]
          unfold spec_fix_char
          rw [if_pos]
          refine ⟨by omega, ?_⟩
          have he : pos + k + 3 - 3 = pos + k := by omega
          rw [he]; exact h1
        · rw [List.getElem?_set_ne (Ne.symm hieq)]
          by_cases hip : i ≤ pos
          · exact hupto i hip
          · rw [hafter i (by omega)]
            unfold spec_fix_char
            rw [if_neg]
            rintro ⟨h3, hocc⟩
            by_cases hj : pos ≤ i - 3
            · rw [hfirst (i - 3) hj (by omega)] at hocc
              exact absurd hocc (by simp)
            · rw [hgap (i - 3) (by omega) (by omega)] at hocc
              exact absurd hocc (by simp)
      · intro i hi
        rw [List.getElem?_set_ne (by omega)]
        exact hafter i (by omega)
      · intro j hj1 hj2
        rw [Bool.eq_false_iff]
        intro hocc
        have hh := ((occurs_at_four 'h' '2' '6' x str j).mp hocc).1
        have hj : j = pos + k + 1 ∨ j = pos + k + 2 := by omega
        rcases hj with rfl | rfl
        · rw [hfour.2.1] at hh
          exact absurd hh (by decide)
        · rw [hfour.2.2.1] at hh
          exact absurd hh (by decide)
      · omega

/-- The fix-up for a needle `h26x` and a replacement `c` outside the needle: length,
characters and absence of the needle in the result. -/
theorem fix_references_loop_result (x c : Char) (hx : x ≠ 'h') (hc : c ≠ 'h')
    (hc2 : c ≠ '2') (hc6 : c ≠ '6') (hcx : c ≠ x) (str : List Char) :
    (fix_references_loop ['h', '2', '6', x] c str.length str 0).length = str.length
    ∧ (∀ i, (fix_references_loop ['h', '2', '6', x] c str.length str 0)[i]?
        = spec_fix_char ['h', '2', '6', x] c str i)
    ∧ strstr (fix_references_loop ['h', '2', '6', x] c str.length str 0) ['h', '2', '6', x]
        = none := by
  obtain ⟨hlen, hchar⟩ := fix_references_loop_spec x c hx hc str str.length str 0 rfl
    (by
      intro i hi
      have : i = 0 := by omega
      subst this
      simp [spec_fix_char])
    (fun _ _ => rfl) (fun j hj => absurd hj (Nat.not_lt_zero _)) (by omega)
  refine ⟨hlen, hchar, ?_⟩
  rw [strstr_none]
  intro j
  rw [Bool.eq_false_iff]
  intro hocc
  obtain ⟨g0, g1, g2, g3⟩ := (occurs_at_four 'h' '2' '6' x _ j).mp hocc
  rw [hchar] at g0 g1 g2 g3
  unfold spec_fix_char at g0 g1 g2 g3
  have hunmarked : ¬ (3 ≤ j + 3 ∧ occurs_at ['h', '2', '6', x] str (j + 3 - 3) = true) := by
    intro hm
    rw [if_pos hm] at g3
    exact hcx (Option.some.inj g3)
  rw [if_neg hunmarked] at g3
  have f0 : str[j]? = some 'h' := by
    split_ifs at g0
    · exact absurd (Option.some.inj g0) hc
    · exact g0
  have f1 : str[j + 1]? = some '2' := by
    split_ifs at g1
    · exact absurd (Option.some.inj g1) hc2
    · exact g1
  have f2 : str[j + 2]? = some '6' := by
    split_ifs at g2
    · exact absurd (Option.some.inj g2) hc6
    · exact g2
  apply hunmarked
  refine ⟨by omega, ?_⟩
  have he : j + 3 - 3 = j := by omega
  rw [he]
  exact (occurs_at_four 'h' '2' '6' x str j).mpr ⟨f0, f1, f2, g3⟩

/-- C20: for every launch description `str`, the fix-up for the h264 block returns a
string of the same length, in which `strstr` finds no `h265`, and whose character at
each offset is `4` at the last character of each occurrence of `h265` in `str` and
the character of `str` everywhere else; likewise for the h265 block with `h264` and
`5`. -/
theorem fix_references_result (str : List Char) :
    ((fix_references Codec.h264 str).length = str.length
      ∧ strstr (fix_references Codec.h264 str) "h265".toList = none
      ∧ ∀ i, (fix_references Codec.h264 str)[i]?
          = if 3 ≤ i ∧ occurs_at "h265".toList str (i - 3) = true then some '4' else str[i]?)
    ∧ ((fix_references Codec.h265 str).length = str.length
      ∧ strstr (fix_references Codec.h265 str) "h264".toList = none
      ∧ ∀ i, (fix_references Codec.h265 str)[i]?
          = if 3 ≤ i ∧ occurs_at "h264".toList str (i - 3) = true then some '5' else str[i]?) := by
  obtain ⟨a1, a2, a3⟩ := fix_references_loop_result '5' '4' (by decide) (by decide)
    (by decide) (by decide) (by decide) str
  obtain ⟨b1, b2, b3⟩ := fix_references_loop_result '4' '5' (by decide) (by decide)
    (by decide) (by decide) (by decide) str
  exact ⟨⟨a1, a3, a2⟩, ⟨b1, b3, b2⟩⟩

/-! ## The orientation transform -/

/-- A stage text is never empty. -/
theorem stage_ne_nil (d : VideoDirection) : d.stage ≠ [] := by
  cases d <;> decide

/-- The reading of the `video-direction` values is one-to-one, and none of them is
read as the identity. -/
theorem direction_symmetry_injective (d e : VideoDirection)
    (h : d.symmetry = e.symmetry) : d = e := by
  cases d <;> cases e <;> first | rfl | exact absurd h (by decide)

/-- C21: for every launch description and every pair `(flip, rot)`,
`append_videoflip` either leaves the description as it is or appends exactly one
`videoflip` stage, whose `video-direction` is read as the composition "flip first,
then rotate" of the symmetries the two arguments stand for; it appends nothing
exactly when that composition is the identity. -/
theorem append_videoflip_composition (launch : List Char) (flip rot : videoflip_t) :
    (append_videoflip launch flip rot = launch
      ∨ ∃ d : VideoDirection,
          append_videoflip launch flip rot = launch ++ d.stage
          ∧ d.symmetry = spec_videoflip_symmetry flip rot
          ∧ ∀ e : VideoDirection, e.symmetry = spec_videoflip_symmetry flip rot → e = d)
    ∧ (append_videoflip launch flip rot = launch
        ↔ spec_videoflip_symmetry flip rot = Symmetry.identity) := by
  have hne : ∀ d : VideoDirection, launch ++ d.stage ≠ launch := by
    intro d h
    exact stage_ne_nil d (List.append_right_eq_self.mp h)
  have key : ∀ d : VideoDirection, append_videoflip launch flip rot = launch ++ d.stage →
      d.symmetry = spec_videoflip_symmetry flip rot →
      spec_videoflip_symmetry flip rot ≠ Symmetry.identity →
      (append_videoflip launch flip rot = launch
        ∨ ∃ d : VideoDirection,
            append_videoflip launch flip rot = launch ++ d.stage
            ∧ d.symmetry = spec_videoflip_symmetry flip rot
            ∧ ∀ e : VideoDirection, e.symmetry = spec_videoflip_symmetry flip rot → e = d)
      ∧ (append_videoflip launch flip rot = launch
          ↔ spec_videoflip_symmetry flip rot = Symmetry.identity) := by
    intro d h1 h2 h3
    refine ⟨Or.inr ⟨d, h1, h2, fun e he => direction_symmetry_injective e d (he.trans h2.symm)⟩,
      ⟨fun h => absurd (h1.symm.trans h) (hne d), fun h => absurd h h3⟩⟩
  cases flip <;> cases rot <;>
    first
    | exact ⟨Or.inl rfl, ⟨fun _ => rfl, fun _ => rfl⟩⟩
    | exact key VideoDirection.GST_VIDEO_ORIENTATION_90L rfl rfl (by decide)
    | exact key VideoDirection.GST_VIDEO_ORIENTATION_90R rfl rfl (by decide)
    | exact key VideoDirection.GST_VIDEO_ORIENTATION_180 rfl rfl (by decide)
    | exact key VideoDirection.GST_VIDEO_ORIENTATION_HORIZ rfl rfl (by decide)
    | exact key VideoDirection.GST_VIDEO_ORIENTATION_VERT rfl rfl (by decide)
    | exact key VideoDirection.GST_VIDEO_ORIENTATION_UL_LR rfl rfl (by decide)
    | exact key VideoDirection.GST_VIDEO_ORIENTATION_UR_LL rfl rfl (by decide)

/-! ## The session termination flag -/

/-- Writing a block does not touch `video_terminate`. -/
theorem video_terminate_set_renderer_type (s : State) (i : Nat) (r : video_renderer_s) :
    (s.set_renderer_type i r).video_terminate = s.video_terminate := by
  rcases i with _ | _ | i <;> rfl

/-- The `switch` of the callback keeps `video_terminate`: an error or end-of-stream
event writes only the field `terminate` of the block. -/
theorem bus_callback_switch_video_terminate (eng : Engine) (s : State) (type : Nat)
    (r : video_renderer_s) (bus : Ptr) (message : GstMessage) (loop : Ptr) :
    (bus_callback_switch eng s type r bus message loop).1.video_terminate
      = s.video_terminate := by
  unfold bus_callback_switch
  cases message.type <;> simp only [] <;> (try split_ifs) <;>
    simp [video_terminate_set_renderer_type]

/-- The function `gstreamer_pipeline_bus_callback` keeps `video_terminate`. -/
theorem bus_callback_video_terminate (eng : Engine) (s s1 : State) (bus : Ptr)
    (message : GstMessage) (loop : Ptr) (calls : List Call)
    (h : gstreamer_pipeline_bus_callback eng s bus message loop = some (s1, calls)) :
    s1.video_terminate = s.video_terminate := by
  unfold gstreamer_pipeline_bus_callback at h
  rcases hf : bus_callback_find s bus s.n_renderers 0 with _ | _ | type
  · simp [hf] at h
  · simp [hf] at h
  · rcases hr : s.renderer_type type with _ | r
    · simp [hf, hr] at h
    · simp only [hf, hr, Option.some.injEq, Prod.mk.injEq] at h
      obtain ⟨rfl, _⟩ := h
      exact bus_callback_switch_video_terminate eng s type r bus message loop

/-- The function `video_renderer_choose_codec` keeps `video_terminate`. -/
theorem choose_codec_video_terminate (eng : Engine) (s s1 : State) (c : Bool)
    (calls : List Call) (h : video_renderer_choose_codec eng s c = some (s1, calls)) :
    s1.video_terminate = s.video_terminate := by
  obtain ⟨bt, fp, ds, av, hv, ld, vt, rd, r0, r1, n⟩ := s
  cases hv <;> cases c <;> rcases rd with _ | _ | _ | k <;> cases r0 <;> cases r1 <;>
    simp [video_renderer_choose_codec, State.renderer_type_ptr, State.renderer_type,
      State.deref, State.set_renderer_type] at h <;>
    obtain ⟨rfl, rfl⟩ := h <;>
    rfl

/-- One pass of the loop of `video_renderer_start` keeps `video_terminate`. -/
theorem start_one_video_terminate (eng : Engine) (i : Nat) (acc res : State × List Call)
    (h : video_renderer_start_one eng i acc = some res) :
    res.1.video_terminate = acc.1.video_terminate := by
  unfold video_renderer_start_one at h
  rcases hr : acc.1.renderer_type i with _ | r
  · simp [hr] at h
  · simp only [hr, Option.some.injEq] at h
    subst h
    split_ifs <;> simp [video_terminate_set_renderer_type]

/-- The loop of `video_renderer_start` keeps `video_terminate`. -/
theorem start_loop_video_terminate (eng : Engine) (fuel : Nat) :
    ∀ (i : Nat) (acc res : State × List Call),
      video_renderer_start_loop eng fuel i acc = some res →
      res.1.video_terminate = acc.1.video_terminate := by
  induction fuel with
  | zero =>
    intro i acc res h
    simp only [video_renderer_start_loop, Option.some.injEq] at h
    subst h
    rfl
  | succ fuel ih =>
    intro i acc res h
    unfold video_renderer_start_loop at h
    rcases h1 : video_renderer_start_one eng i acc with _ | acc1
    · simp [h1] at h
    · simp only [h1] at h
      exact (ih (i + 1) acc1 res h).trans (start_one_video_terminate eng i acc acc1 h1)

/-- The function `video_renderer_start` keeps `video_terminate`. -/
theorem start_video_terminate (eng : Engine) (s s1 : State) (calls : List Call)
    (h : video_renderer_start eng s = some (s1, calls)) :
    s1.video_terminate = s.video_terminate := by
  unfold video_renderer_start at h
  by_cases hhls : s.hls_video = true
  · rw [if_pos hhls] at h
    rcases hrd : s.renderer with _ | i
    · simp [hrd] at h
    · rcases hr : s.renderer_type i with _ | r
      · simp [hrd, hr] at h
      · simp only [hrd, hr, Option.some.injEq, Prod.mk.injEq] at h
        obtain ⟨rfl, rfl⟩ := h
        exact video_terminate_set_renderer_type s i _
  · rw [if_neg hhls] at h
    rcases hl : video_renderer_start_loop eng s.n_renderers 0 (s, []) with _ | res
    · simp [hl] at h
    · obtain ⟨t, c⟩ := res
      simp only [hl, Option.some.injEq, Prod.mk.injEq] at h
      obtain ⟨rfl, rfl⟩ := h
      exact start_loop_video_terminate eng s.n_renderers 0 (s, []) (t, c) hl

/-- The function `video_reset_callback` leaves `video_terminate` off whatever it was. -/
theorem reset_callback_video_terminate (s s1 : State) (loop : Ptr) (calls : List Call)
    (h : video_reset_callback s loop = some (s1, calls)) :
    s1.video_terminate = false := by
  unfold video_reset_callback at h
  by_cases hv : s.video_terminate = true
  · rw [if_pos hv] at h
    simp only [] at h
    split at h
    · simp at h
    · simp only [Option.some.injEq, Prod.mk.injEq] at h
      rw [← h.1]
  · rw [if_neg hv] at h
    simp only [Option.some.injEq, Prod.mk.injEq] at h
    rw [← h.1]
    simpa using hv

/-- Executing one call of `Op` from a state with `video_terminate` off leaves it off. -/
theorem exec_video_terminate (op : Op) (s s1 : State) (calls : List Call)
    (h : op.exec s = some (s1, calls)) (hs : s.video_terminate = false) :
    s1.video_terminate = false := by
  cases op with
  | start eng => rw [start_video_terminate eng s s1 calls h]; exact hs
  | stop =>
    simp only [Op.exec, video_renderer_stop] at h
    split at h
    · simp only [Option.some.injEq, Prod.mk.injEq] at h
      exact h.1 ▸ hs
    · split at h
      · simp at h
      · simp only [Option.some.injEq, Prod.mk.injEq] at h
        exact h.1 ▸ hs
  | pause =>
    simp only [Op.exec, video_renderer_pause] at h
    split at h
    · simp only [Option.some.injEq, Prod.mk.injEq] at h
      exact h.1 ▸ hs
    · split at h
      · simp at h
      · simp only [Option.some.injEq, Prod.mk.injEq] at h
        exact h.1 ▸ hs
  | resume eng =>
    simp only [Op.exec, video_renderer_resume] at h
    split at h
    · simp only [Option.some.injEq, Prod.mk.injEq] at h
      exact h.1 ▸ hs
    · split at h
      · simp at h
      · split at h <;>
          simp only [Option.some.injEq, Prod.mk.injEq] at h <;>
          exact h.1 ▸ hs
  | choose_codec eng c => rw [choose_codec_video_terminate eng s s1 c calls h]; exact hs
  | render_buffer data ntp_time =>
    simp only [Op.exec, video_renderer_render_buffer] at h
    split at h
    · simp only [Option.some.injEq, Prod.mk.injEq] at h
      exact h.1 ▸ hs
    · split at h
      · simp at h
      · split at h
        · simp only [Option.some.injEq, Prod.mk.injEq] at h
          exact h.1 ▸ hs
        · split at h
          · simp at h
          · simp only [Option.some.injEq, Prod.mk.injEq] at h
            rw [← h.1]
            exact hs
  | bus_callback eng bus message loop =>
    rw [bus_callback_video_terminate eng s s1 bus message loop calls h]; exact hs
  | reset_callback loop => exact reset_callback_video_terminate s s1 loop calls h

/-- The tail of a pass of `video_renderer_init` keeps `video_terminate`. -/
theorem init_ready_video_terminate (eng : Engine) (i : Nat) (r : video_renderer_s)
    (acc : State × List Call) :
    (video_renderer_init_ready eng i r acc).1.video_terminate = acc.1.video_terminate := by
  unfold video_renderer_init_ready
  simp only []
  split_ifs <;> simp [video_terminate_set_renderer_type]

/-- One pass of the loop of `video_renderer_init` keeps `video_terminate`. -/
theorem init_one_video_terminate (args : InitArgs) (eng : Engine) (i : Nat)
    (acc res : State × List Call)
    (h : video_renderer_init_one args eng i acc = some res) :
    res.1.video_terminate = acc.1.video_terminate := by
  unfold video_renderer_init_one at h
  by_cases hi : 2 ≤ i
  · simp [hi] at h
  · rw [if_neg hi] at h
    by_cases hhls : acc.1.hls_video = true
    · rw [if_pos hhls] at h
      rcases hp : eng.gst_element_factory_make with _ | p
      · simp [hp] at h
      · simp only [hp, Option.some.injEq] at h
        subst h
        exact init_ready_video_terminate eng i _ (acc.1, _)
    · rw [if_neg hhls] at h
      rcases hp : eng.gst_parse_launch i with _ | p
      · simp [hp] at h
      · rcases ha : eng.gst_bin_get_by_name i with _ | e
        · simp [hp, ha] at h
        · simp only [hp, ha, Option.some.injEq] at h
          subst h
          exact init_ready_video_terminate eng i _ (acc.1, _)

/-- The loop of `video_renderer_init` keeps `video_terminate`. -/
theorem init_loop_video_terminate (args : InitArgs) (eng : Engine) (fuel : Nat) :
    ∀ (i : Nat) (acc res : State × List Call),
      video_renderer_init_loop args eng fuel i acc = some res →
      res.1.video_terminate = acc.1.video_terminate := by
  induction fuel with
  | zero =>
    intro i acc res h
    simp only [video_renderer_init_loop, Option.some.injEq] at h
    subst h
    rfl
  | succ fuel ih =>
    intro i acc res h
    unfold video_renderer_init_loop at h
    rcases h1 : video_renderer_init_one args eng i acc with _ | acc1
    · simp [h1] at h
    · simp only [h1] at h
      exact (ih (i + 1) acc1 res h).trans (init_one_video_terminate args eng i acc acc1 h1)

/-- The function `video_renderer_init` clears `video_terminate`, whatever it was. -/
theorem init_clears_video_terminate (args : InitArgs) (eng : Engine) (s s0 : State)
    (c0 : List Call) (h : video_renderer_init args eng s = some (s0, c0)) :
    s0.video_terminate = false := by
  unfold video_renderer_init at h
  exact init_loop_video_terminate args eng _ 0 _ (s0, c0) h

/-- The function `video_renderer_seek` writes no static. -/
theorem seek_video_terminate (eng : Engine) (s s1 : State) (pos : Int) (calls : List Call)
    (h : video_renderer_seek eng s pos = some (s1, calls)) :
    s1.video_terminate = s.video_terminate := by
  unfold video_renderer_seek at h
  split at h
  · simp at h
  · simp only [Option.some.injEq, Prod.mk.injEq] at h
    rw [← h.1]

/-- The function `video_get_playback_info` keeps `video_terminate`. -/
theorem playback_info_video_terminate (eng : Engine) (s s1 : State) (calls : List Call)
    (info : PlaybackInfo) (h : video_get_playback_info eng s = some (s1, calls, info)) :
    s1.video_terminate = s.video_terminate := by
  unfold video_get_playback_info at h
  rcases hrd : s.renderer with _ | i
  · simp only [hrd, Option.some.injEq, Prod.mk.injEq] at h
    rw [← h.1]
  · rcases hr : s.renderer_type i with _ | r
    · simp [hrd, hr] at h
    · simp only [hrd, hr] at h
      repeat' split at h
      all_goals
        first
        | (simp at h; done)
        | (simp only [Option.some.injEq, Prod.mk.injEq] at h
           rw [← h.1]
           done)
        | (simp only [Option.some.injEq, Prod.mk.injEq] at h
           rw [← h.1]
           exact video_terminate_set_renderer_type s i _)

/-- Executing one call into the module from a state with `video_terminate` off
leaves it off. -/
theorem module_exec_video_terminate (m : ModuleOp) (s s1 : State) (calls : List Call)
    (h : m.exec s = some (s1, calls)) (hs : s.video_terminate = false) :
    s1.video_terminate = false := by
  cases m with
  | init args eng => exact init_clears_video_terminate args eng s s1 calls h
  | op o => exact exec_video_terminate o s s1 calls h hs
  | seek eng pos => rw [seek_video_terminate eng s s1 pos calls h]; exact hs
  | playback_info eng =>
    simp only [ModuleOp.exec] at h
    rcases hp : video_get_playback_info eng s with _ | ⟨t, c, info⟩
    · simp [hp] at h
    · simp only [hp, Option.some.injEq, Prod.mk.injEq] at h
      obtain ⟨rfl, _⟩ := h
      rw [playback_info_video_terminate eng s t c info hp]; exact hs
  | size =>
    simp only [ModuleOp.exec, video_renderer_size, Option.some.injEq, Prod.mk.injEq] at h
    exact h.1 ▸ hs
  | flush =>
    simp only [ModuleOp.exec, video_renderer_flush, Option.some.injEq, Prod.mk.injEq] at h
    exact h.1 ▸ hs
  | waiting_for_x11_window =>
    simp only [ModuleOp.exec, Option.some.injEq, Prod.mk.injEq] at h
    exact h.1 ▸ hs
  | destroy eng =>
    simp only [ModuleOp.exec, Option.some.injEq, Prod.mk.injEq] at h
    exact h.1 ▸ hs

/-- A sequence of calls into the module from a state with `video_terminate` off ends
in a state with `video_terminate` off. -/
theorem run_module_video_terminate (ops : List ModuleOp) :
    ∀ (s s1 : State) (calls : List Call), run_module ops s = some (s1, calls) →
      s.video_terminate = false → s1.video_terminate = false := by
  induction ops with
  | nil =>
    intro s s1 calls h hs
    simp only [run_module, Option.some.injEq, Prod.mk.injEq] at h
    exact h.1 ▸ hs
  | cons m rest ih =>
    intro s s1 calls h hs
    unfold run_module at h
    rcases h1 : m.exec s with _ | ⟨t, c1⟩
    · simp [h1] at h
    · rcases h2 : run_module rest t with _ | ⟨u, c2⟩
      · simp [h1, h2] at h
      · simp only [h1, h2, Option.some.injEq, Prod.mk.injEq] at h
        obtain ⟨rfl, _⟩ := h
        exact ih t u c2 h2 (module_exec_video_terminate m s t c1 h1 hs)

/-- With `video_terminate` off, `video_reset_callback` writes nothing, issues no
call and returns `TRUE`. -/
theorem reset_callback_idle (s : State) (loop : Ptr) (hs : s.video_terminate = false) :
    video_reset_callback s loop = some (s, [])
    ∧ video_reset_callback_return s loop = some 1 := by
  have h1 : video_reset_callback s loop = some (s, []) := by
    simp [video_reset_callback, hs]
  exact ⟨h1, by simp [video_reset_callback_return, h1]⟩

/-- C22: `video_renderer_init`, from whatever statics, leaves `video_terminate` off,
and so does every sequence of calls into the module after it (an error or
end-of-stream event on a bus included); in the state `s` reached,
`video_reset_callback` writes nothing, issues no call at all (so no engine call and
no `g_main_loop_quit`), and returns `TRUE` (1). -/
theorem video_terminate_never_set (args : InitArgs) (eng : Engine) (s_any s0 s : State)
    (c0 calls : List Call) (ops : List ModuleOp) (loop : Ptr)
    (hinit : video_renderer_init args eng s_any = some (s0, c0))
    (hrun : run_module ops s0 = some (s, calls)) :
    s0.video_terminate = false
    ∧ s.video_terminate = false
    ∧ video_reset_callback s loop = some (s, [])
    ∧ (∀ s1 out, video_reset_callback s loop = some (s1, out) →
        (∀ c ∈ out, c.is_engine_call = false) ∧ Call.g_main_loop_quit loop ∉ out)
    ∧ video_reset_callback_return s loop = some 1 := by
  have h0 := init_clears_video_terminate args eng s_any s0 c0 hinit
  have h1 := run_module_video_terminate ops s0 s calls hrun h0
  obtain ⟨h2, h3⟩ := reset_callback_idle s loop h1
  refine ⟨h0, h1, h2, ?_, h3⟩
  intro s1 out hout
  rw [h2] at hout
  simp only [Option.some.injEq, Prod.mk.injEq] at hout
  obtain ⟨_, rfl⟩ := hout
  exact ⟨fun c hc => by simp at hc, by simp⟩

/-- C22 (witness): `video_renderer_init` in mirror mode from statics in which
`video_terminate` is on, then start, the choice of h264, an error event on the bus
of the h264 pipeline, a query of the playback state and a `video_renderer_destroy`:
the error sets `terminate` of block 0, `video_terminate` is off, and
`video_reset_callback` does nothing and returns 1. -/
theorem video_terminate_never_set_witness :
    ∃ s0 c0 s calls,
      video_renderer_init InitArgs.mirror Engine.sample
          { State.initial with video_terminate := true } = some (s0, c0)
      ∧ run_module
          [ModuleOp.op (Op.start Engine.sample),
           ModuleOp.op (Op.choose_codec Engine.sample false),
           ModuleOp.op (Op.bus_callback Engine.sample (some 110)
             (GstMessage.sample GstMessageType.GST_MESSAGE_ERROR 0) (some 7)),
           ModuleOp.playback_info Engine.sample,
           ModuleOp.destroy Engine.sample] s0 = some (s, calls)
      ∧ (s.renderer_type 0).map (fun r => r.terminate) = some true
      ∧ Call.g_main_loop_quit (some 7) ∈ calls
      ∧ s0.video_terminate = false
      ∧ s.video_terminate = false
      ∧ video_reset_callback s (some 7) = some (s, [])
      ∧ (∀ s1 out, video_reset_callback s (some 7) = some (s1, out) →
          (∀ c ∈ out, c.is_engine_call = false) ∧ Call.g_main_loop_quit (some 7) ∉ out)
      ∧ video_reset_callback_return s (some 7) = some 1 := by
  refine ⟨_, _, _, _, rfl, rfl, rfl, by decide,
    video_terminate_never_set InitArgs.mirror Engine.sample
      { State.initial with video_terminate := true } _ _ _ _
      [ModuleOp.op (Op.start Engine.sample),
       ModuleOp.op (Op.choose_codec Engine.sample false),
       ModuleOp.op (Op.bus_callback Engine.sample (some 110)
         (GstMessage.sample GstMessageType.GST_MESSAGE_ERROR 0) (some 7)),
       ModuleOp.playback_info Engine.sample,
       ModuleOp.destroy Engine.sample] (some 7) rfl rfl⟩

end VideoRenderer
